import Mathlib

/-!
# LotSpeed congestion control: a shallow embedding of `lotspeed.c`

Machine integers are natural numbers reduced explicitly: `u32`, `u64` and `u8`
arithmetic wraps modulo `2^32`, `2^64` and `2^8`, the way the C operators do.
The module parameters (`lotserver_*`) are read from a `Config` record that is
passed to every entry point.  The fields of `struct tcp_sock` / `struct sock`
that the module reads or writes are the record `tcp_sock`; per-connection
private data is the record `lotspeed`.  Logging (`pr_info`) and the process-wide
statistics counters have no effect on the values computed and are left out.
`unsigned long` is 64 bits wide (LP64 kernel).
-/

namespace LotSpeed

/-! ## Constants -/

def LOTSPEED_BW_EMA_SHIFT : Nat := 3
def LOTSPEED_BW_DECAY_SHIFT : Nat := 3
def LOTSPEED_BW_WINDOW_MS : Nat := 200
def LOTSPEED_PROBE_BASE : Nat := 10000
def LOTSPEED_PROBE_MIN : Nat := 8
def LOTSPEED_PROBE_MAX : Nat := 80
def LOTSPEED_MIN_GAIN : Nat := 10
def LOTSPEED_TURBO_IGNORE_SPAN : Nat := 3

/-- Kernel constant `TCP_INFINITE_SSTHRESH` (`0x7fffffff`). -/
def TCP_INFINITE_SSTHRESH : Nat := 0x7fffffff

/-- Kernel constant `USEC_PER_SEC`. -/
def USEC_PER_SEC : Nat := 1000000

/-! ## Machine arithmetic -/

/-- Reduction to an unsigned 8-bit value. -/
def u8 (x : Nat) : Nat := x % 2 ^ 8

/-- Reduction to an unsigned 32-bit value. -/
def u32 (x : Nat) : Nat := x % 2 ^ 32

/-- Reduction to an unsigned 64-bit value. -/
def u64 (x : Nat) : Nat := x % 2 ^ 64

/-- Unsigned 32-bit subtraction `a - b`, with wrap-around below zero. -/
def sub32 (a b : Nat) : Nat :=
  if b % 2 ^ 32 ≤ a % 2 ^ 32 then a % 2 ^ 32 - b % 2 ^ 32
  else a % 2 ^ 32 + 2 ^ 32 - b % 2 ^ 32

/-- Unsigned 64-bit subtraction `a - b`, with wrap-around below zero. -/
def sub64 (a b : Nat) : Nat :=
  if b % 2 ^ 64 ≤ a % 2 ^ 64 then a % 2 ^ 64 - b % 2 ^ 64
  else a % 2 ^ 64 + 2 ^ 64 - b % 2 ^ 64

/-- The cast `(s32)x` of a 32-bit pattern: two's complement reading. -/
def s32 (x : Nat) : Int :=
  if x % 2 ^ 32 < 2 ^ 31 then ((x % 2 ^ 32 : Nat) : Int) else ((x % 2 ^ 32 : Nat) : Int) - 2 ^ 32

/-- The 32-bit pattern of a signed value: the cast `(u32)i`. -/
def u32_of_int (i : Int) : Nat := (i % 2 ^ 32).toNat

/-- Signed 32-bit wrap-around (the kernel is built with wrapping signed overflow). -/
def wrap_s32 (i : Int) : Int := s32 (u32_of_int i)

/-- The kernel helper `clamp_t(type, val, lo, hi)`: `min_t(max_t(val, lo), hi)`. -/
def clamp_t (val lo hi : Nat) : Nat := min (max val lo) hi

/-- The kernel helper `DIV_ROUND_UP(n, d)` = `(n + d - 1) / d`, in `u32` arithmetic. -/
def DIV_ROUND_UP (n d : Nat) : Nat := u32 (n + d - 1) / d

/-- The kernel helper `time_after32(a, b)`: `(s32)(b - a) < 0`. -/
def time_after32 (a b : Nat) : Bool := decide (s32 (sub32 b a) < 0)

/-! ## Data model -/

/-- Module parameters, read on every call.  `bw_window_jiffies` is the value of
`msecs_to_jiffies(LOTSPEED_BW_WINDOW_MS)`, which depends on the kernel tick rate. -/
structure Config where
  lotserver_rate : Nat
  lotserver_gain : Nat
  lotserver_min_cwnd : Nat
  lotserver_max_cwnd : Nat
  lotserver_adaptive : Bool
  lotserver_turbo : Bool
  lotserver_soft_turbo : Bool
  lotserver_soft_turbo_budget : Nat
  bw_window_jiffies : Nat
  deriving DecidableEq, Repr

/-- Every parameter holds a value of its C type. -/
def Config.wf (c : Config) : Prop :=
  c.lotserver_rate < 2 ^ 64 ∧ c.lotserver_gain < 2 ^ 32 ∧
  c.lotserver_min_cwnd < 2 ^ 32 ∧ c.lotserver_max_cwnd < 2 ^ 32 ∧
  c.lotserver_soft_turbo_budget < 2 ^ 32 ∧ c.bw_window_jiffies < 2 ^ 32

instance (c : Config) : Decidable c.wf := by
  unfold Config.wf; exact inferInstance

/-- The defaults of the module parameters (with a 1000 Hz tick). -/
def default_config : Config :=
  { lotserver_rate := 125000000
    lotserver_gain := 15
    lotserver_min_cwnd := 50
    lotserver_max_cwnd := 10000
    lotserver_adaptive := true
    lotserver_turbo := false
    lotserver_soft_turbo := true
    lotserver_soft_turbo_budget := 2
    bw_window_jiffies := 200 }

/-- Private per-connection data: `struct lotspeed`. -/
structure lotspeed where
  target_rate : Nat
  actual_rate : Nat
  bw_window_max : Nat
  last_update : Nat
  bytes_sent : Nat
  start_time : Nat
  cwnd_gain : Nat
  loss_count : Nat
  rtt_min : Nat
  rtt_cnt : Nat
  bw_window_stamp : Nat
  rtt_ema : Nat
  rtt_var : Nat
  probe_cnt : Nat
  ss_mode : Bool
  turbo_budget : Nat
  turbo_ignore_ref : Nat
  reserved : Nat
  deriving DecidableEq, Repr

/-- The host-owned fields the module touches (`struct tcp_sock`, `struct sock`). -/
structure tcp_sock where
  snd_cwnd : Nat
  snd_ssthresh : Nat
  snd_cwnd_clamp : Nat
  prior_cwnd : Nat
  srtt_us : Nat
  mss_cache : Nat
  sk_pacing_rate : Nat
  sk_pacing_status : Nat
  deriving DecidableEq, Repr

/-- A connection: host fields and private data. -/
structure Sock where
  tp : tcp_sock
  ca : lotspeed
  deriving DecidableEq, Repr

/-- Host rate sample: `struct rate_sample` fields read by the module
(`delivered` is `s32`, `interval_us` is `long`). -/
structure rate_sample where
  delivered : Int
  interval_us : Int
  is_ece : Bool
  deriving DecidableEq, Repr

/-- Congestion states of the host: `enum tcp_ca_state`. -/
inductive tcp_ca_state where
  | TCP_CA_Open
  | TCP_CA_Disorder
  | TCP_CA_CWR
  | TCP_CA_Recovery
  | TCP_CA_Loss
  deriving DecidableEq, Repr

/-- Congestion events of the host: `enum tcp_ca_event`. -/
inductive tcp_ca_event where
  | CA_EVENT_TX_START
  | CA_EVENT_CWND_RESTART
  | CA_EVENT_COMPLETE_CWR
  | CA_EVENT_LOSS
  | CA_EVENT_ECN_NO_CE
  | CA_EVENT_ECN_IS_CE
  deriving DecidableEq, Repr

/-- The all-zero private data, as left by `memset`. -/
def lotspeed_zero : lotspeed :=
  { target_rate := 0, actual_rate := 0, bw_window_max := 0, last_update := 0,
    bytes_sent := 0, start_time := 0, cwnd_gain := 0, loss_count := 0, rtt_min := 0,
    rtt_cnt := 0, bw_window_stamp := 0, rtt_ema := 0, rtt_var := 0, probe_cnt := 0,
    ss_mode := false, turbo_budget := 0, turbo_ignore_ref := 0, reserved := 0 }

/-! ## Turbo budget helpers -/

/-- Source: `lotspeed_get_turbo_budget`. -/
def lotspeed_get_turbo_budget (c : Config) : Nat :=
  if c.lotserver_soft_turbo then u8 (clamp_t c.lotserver_soft_turbo_budget 1 8) else 0

/-- Source: `lotspeed_reset_turbo_budget`. -/
def lotspeed_reset_turbo_budget (c : Config) (ca : lotspeed) : lotspeed :=
  { ca with turbo_budget := lotspeed_get_turbo_budget c, turbo_ignore_ref := 0 }

/-- Source: `lotspeed_consume_turbo_ignore`. -/
def lotspeed_consume_turbo_ignore (ca : lotspeed) : lotspeed :=
  if ca.turbo_ignore_ref > 0 then { ca with turbo_ignore_ref := ca.turbo_ignore_ref - 1 } else ca

/-- Source: `lotspeed_turbo_ignore_active`. -/
def lotspeed_turbo_ignore_active (ca : lotspeed) : Bool :=
  decide (ca.turbo_ignore_ref > 0)

/-- Source: `lotspeed_turbo_should_ignore`; returns the updated data and the verdict. -/
def lotspeed_turbo_should_ignore (c : Config) (ca : lotspeed) : lotspeed × Bool :=
  let ca0 : lotspeed := { ca with turbo_ignore_ref := 0 }
  if !c.lotserver_turbo then (ca0, false)
  else if !c.lotserver_soft_turbo then
    ({ ca0 with turbo_ignore_ref := LOTSPEED_TURBO_IGNORE_SPAN }, true)
  else if ca0.turbo_budget = 0 then (ca0, false)
  else
    ({ ca0 with turbo_budget := ca0.turbo_budget - 1,
                turbo_ignore_ref := LOTSPEED_TURBO_IGNORE_SPAN }, true)

/-! ## Connection set-up -/

/-- Source: `lotspeed_init`; `jiffies` is `tcp_jiffies32`, `secs` is
`ktime_get_real_seconds()`. -/
def lotspeed_init (c : Config) (jiffies secs : Nat) (s : Sock) : Sock :=
  let ca : lotspeed :=
    { lotspeed_zero with
      target_rate := c.lotserver_rate
      actual_rate := 0
      cwnd_gain := c.lotserver_gain
      loss_count := 0
      rtt_min := 0
      rtt_cnt := 0
      last_update := jiffies
      ss_mode := true
      probe_cnt := 0
      bytes_sent := 0
      start_time := secs
      bw_window_stamp := jiffies }
  { tp := { s.tp with
            snd_ssthresh :=
              if c.lotserver_turbo then TCP_INFINITE_SSTHRESH else u32 (s.tp.snd_cwnd * 2)
            sk_pacing_status := if s.tp.sk_pacing_status = 0 then 1 else s.tp.sk_pacing_status }
    ca := lotspeed_reset_turbo_budget c ca }

/-! ## RTT filter -/

/-- Source: `lotspeed_update_rtt`.  `srtt_us >> 3` is written `/ 8`; the signed
shifts `delta >> 3` and `>> 2` are arithmetic: floor divisions, which is `/` on `Int`
for a positive divisor. -/
def lotspeed_update_rtt (s : Sock) : Sock :=
  let rtt_us := s.tp.srtt_us / 8
  if rtt_us = 0 then s
  else
    let ca := s.ca
    let ca1 : lotspeed := if ca.rtt_min = 0 ∨ rtt_us < ca.rtt_min then { ca with rtt_min := rtt_us } else ca
    let ca2 : lotspeed := { ca1 with rtt_cnt := u32 (ca1.rtt_cnt + 1) }
    if ca2.rtt_ema = 0 then
      { s with ca := { ca2 with rtt_ema := rtt_us, rtt_var := rtt_us / 8 } }
    else
      let delta : Int := wrap_s32 (s32 rtt_us - s32 ca2.rtt_ema)
      let ca3 : lotspeed := { ca2 with rtt_ema := u32_of_int ((ca2.rtt_ema : Int) + delta / 8) }
      let abs_delta : Nat := u32_of_int (if delta < 0 then wrap_s32 (-delta) else delta)
      let dvar : Int := wrap_s32 (s32 abs_delta - s32 ca3.rtt_var)
      { s with ca := { ca3 with rtt_var := u32_of_int ((ca3.rtt_var : Int) + dvar / 4) } }

/-! ## Bandwidth filter and rate adaptation -/

/-- The instantaneous bandwidth of a valid sample: `(u64)delivered * USEC_PER_SEC`
divided by `do_div`, whose divisor is the low 32 bits of `interval_us`
(a zero divisor is a divide fault in C; the quotient is `0` here). -/
def lotspeed_sample_bw (r : rate_sample) : Nat :=
  u64 (r.delivered.toNat * USEC_PER_SEC) / u32_of_int r.interval_us

/-- Source: `lotspeed_adapt_rate`, the bandwidth filter (the block guarded by
`rs && rs->delivered > 0 && rs->interval_us > 0`).  Returns the new data and `sample_bw`. -/
def lotspeed_adapt_rate_filter (c : Config) (rs : Option rate_sample) (jiffies mss : Nat)
    (ca : lotspeed) : lotspeed × Nat :=
  match rs with
  | none => (ca, 0)
  | some r =>
    if 0 < r.delivered ∧ 0 < r.interval_us then
      let sample_bw := lotspeed_sample_bw r
      let ca1 : lotspeed := { ca with bytes_sent := u64 (ca.bytes_sent + u64 (r.delivered.toNat * mss)) }
      let ca2 : lotspeed :=
        if ca1.actual_rate = 0 then { ca1 with actual_rate := sample_bw }
        else
          let a := sub64 ca1.actual_rate (ca1.actual_rate / 2 ^ LOTSPEED_BW_EMA_SHIFT)
          { ca1 with actual_rate := u64 (a + sample_bw / 2 ^ LOTSPEED_BW_EMA_SHIFT) }
      let ca3 : lotspeed :=
        if ca2.bw_window_max = 0 ∨ sample_bw ≥ ca2.bw_window_max then
          { ca2 with bw_window_max := sample_bw, bw_window_stamp := jiffies }
        else
          let window_deadline := u32 (ca2.bw_window_stamp + u32 c.bw_window_jiffies)
          if time_after32 jiffies window_deadline then
            let m := sub64 ca2.bw_window_max (ca2.bw_window_max / 2 ^ LOTSPEED_BW_DECAY_SHIFT)
            let m1 := if m < ca2.actual_rate then ca2.actual_rate else m
            { ca2 with bw_window_max := m1, bw_window_stamp := jiffies }
          else ca2
      (ca3, sample_bw)
    else (ca, 0)

/-- Source: `lotspeed_adapt_rate`, the target-rate control (`filtered_bw` onwards). -/
def lotspeed_adapt_rate_target (c : Config) (mss sample_bw : Nat) (ca : lotspeed) : lotspeed :=
  let filtered_bw := if ca.actual_rate ≠ 0 then ca.actual_rate else sample_bw
  if filtered_bw ≠ 0 then
    if filtered_bw < ca.target_rate / 2 ∧ ca.loss_count > 0 then
      { ca with
        target_rate := max (u64 (filtered_bw * 15) / 10) (c.lotserver_rate / 4)
        cwnd_gain := max (sub32 ca.cwnd_gain 5) LOTSPEED_MIN_GAIN }
    else if ca.loss_count = 0 ∧ filtered_bw > u64 (ca.target_rate * 8) / 10 then
      let desired :=
        if ca.bw_window_max ≠ 0 then min ca.bw_window_max c.lotserver_rate else c.lotserver_rate
      let step := max (ca.target_rate / 8) (u64 (mss * 8))
      { ca with
        target_rate := min (u64 (ca.target_rate + step)) desired
        cwnd_gain := min (u32 (ca.cwnd_gain + 1)) c.lotserver_gain }
    else ca
  else ca

/-- Source: `lotspeed_adapt_rate`, the block after the label `rtt_check`. -/
def lotspeed_adapt_rate_rtt_check (c : Config) (min_rtt rtt_us : Nat) (ecn : Bool)
    (ca : lotspeed) : lotspeed :=
  if min_rtt ≠ 0 ∧ rtt_us ≠ 0 then
    let var := if ca.rtt_var ≠ 0 then ca.rtt_var else min_rtt / 8
    let tolerance := min_rtt / 3
    let var_term := u32 (var * (if ecn then 3 else 4)) / 2
    let threshold := u32 (min_rtt + max tolerance var_term)
    if (!c.lotserver_turbo) ∧ rtt_us > threshold then
      { ca with cwnd_gain := max (sub32 ca.cwnd_gain 2) LOTSPEED_MIN_GAIN }
    else if ca.cwnd_gain < c.lotserver_gain then
      { ca with cwnd_gain := u32 (ca.cwnd_gain + 1) }
    else ca
  else ca

/-- The local `min_rtt` of `lotspeed_adapt_rate`: `ca->rtt_min ? ca->rtt_min : rtt_us`. -/
def adapt_min_rtt (s : Sock) : Nat :=
  if s.ca.rtt_min ≠ 0 then s.ca.rtt_min else s.tp.srtt_us / 8

/-- The local `ecn` of `lotspeed_adapt_rate`: `rs && rs->is_ece`. -/
def adapt_ecn (rs : Option rate_sample) : Bool :=
  match rs with
  | some r => r.is_ece
  | none => false

/-- Source: `lotspeed_adapt_rate`. -/
def lotspeed_adapt_rate (c : Config) (rs : Option rate_sample) (jiffies : Nat) (s : Sock) : Sock :=
  let ca := s.ca
  let rtt_us := s.tp.srtt_us / 8
  let min_rtt := adapt_min_rtt s
  let ecn := adapt_ecn rs
  let mss := if s.tp.mss_cache ≠ 0 then s.tp.mss_cache else 1460
  let ca1 : lotspeed :=
    if c.lotserver_adaptive then
      let fb := lotspeed_adapt_rate_filter c rs jiffies mss ca
      lotspeed_adapt_rate_target c mss fb.2 fb.1
    else ca
  { s with ca := lotspeed_adapt_rate_rtt_check c min_rtt rtt_us ecn ca1 }

/-! ## Probe scheduler -/

/-- The local `min_rtt` of `lotspeed_probe_threshold`. -/
def probe_min_rtt (ca : lotspeed) (rtt_us : Nat) : Nat :=
  if ca.rtt_min ≠ 0 then ca.rtt_min else (if rtt_us ≠ 0 then rtt_us else 1000)

/-- The local `min_rtt_ms` of `lotspeed_probe_threshold`. -/
def probe_min_rtt_ms (ca : lotspeed) (rtt_us : Nat) : Nat :=
  max 1 (DIV_ROUND_UP (probe_min_rtt ca rtt_us) 1000)

/-- Source: `lotspeed_probe_threshold`. -/
def lotspeed_probe_threshold (ca : lotspeed) (target_cwnd rtt_us : Nat) : Nat :=
  let denom := max 50 target_cwnd
  let cwnd_term := clamp_t (LOTSPEED_PROBE_BASE / denom) 4 60
  let min_rtt_ms := probe_min_rtt_ms ca rtt_us
  let rtt_term := clamp_t (50 / min_rtt_ms) 4 20
  clamp_t (cwnd_term + rtt_term) LOTSPEED_PROBE_MIN LOTSPEED_PROBE_MAX

/-! ## Window and pacing computation -/

/-- The local `rtt_us` of `lotspeed_cong_control_impl` after defaulting. -/
def cong_rtt_us (s : Sock) : Nat := if s.tp.srtt_us / 8 = 0 then 1000 else s.tp.srtt_us / 8

/-- The local `mss` of `lotspeed_cong_control_impl` after defaulting. -/
def cong_mss (s : Sock) : Nat := if s.tp.mss_cache = 0 then 1460 else s.tp.mss_cache

/-- The product `rate * (u64)rtt_us` of `lotspeed_cong_control_impl`, a `u64`. -/
def cong_rate_rtt (rate rtt_us : Nat) : Nat := u64 (rate * rtt_us)

/-- The product `target_cwnd * ca->cwnd_gain` of `lotspeed_cong_control_impl`, a `u32`. -/
def cong_scaled (q gain : Nat) : Nat := u32 (q * gain)

/-- The product `tp->snd_cwnd * 2` of `lotspeed_cong_control_impl`, a `u32`. -/
def cong_doubled (snd_cwnd : Nat) : Nat := u32 (snd_cwnd * 2)

/-- The product `cwnd * 11` of `lotspeed_cong_control_impl`, a `u32`. -/
def cong_probe_mul (cwnd : Nat) : Nat := u32 (cwnd * 11)

/-- The two assignments to `target_cwnd` in `lotspeed_cong_control_impl`:
`div64_u64(rate * (u64)rtt_us, (u64)mss * 1000000)` stored in a `u32`, then
`div_u64(target_cwnd * ca->cwnd_gain, 10)` with a `u32` product. -/
def lotspeed_target_cwnd (rate rtt_us mss gain : Nat) : Nat :=
  let q := u32 (cong_rate_rtt rate rtt_us / u64 (mss * 1000000))
  u32 (cong_scaled q gain / 10)

/-- The connection after the RTT filter and the rate adaptation of one sample. -/
def cong_adapted (c : Config) (rs : Option rate_sample) (jiffies : Nat) (s : Sock) : Sock :=
  lotspeed_adapt_rate c rs jiffies (lotspeed_update_rtt s)

/-- The local `target_cwnd` of one call of `lotspeed_cong_control_impl`. -/
def cong_target_cwnd (c : Config) (rs : Option rate_sample) (jiffies : Nat) (s : Sock) : Nat :=
  let s1 := cong_adapted c rs jiffies s
  lotspeed_target_cwnd s1.ca.target_rate (cong_rtt_us s) (cong_mss s) s1.ca.cwnd_gain

/-- The slow-start / steady-state / probe selection of `lotspeed_cong_control_impl`:
the private data afterwards and the local `cwnd` before the safety limits. -/
def cong_select (c : Config) (rs : Option rate_sample) (jiffies : Nat) (s : Sock) :
    lotspeed × Nat :=
  let s1 := cong_adapted c rs jiffies s
  let ca := s1.ca
  let target_cwnd := cong_target_cwnd c rs jiffies s
  let probe_threshold := lotspeed_probe_threshold ca (max target_cwnd 1) (cong_rtt_us s)
  if ca.ss_mode ∧ s1.tp.snd_cwnd < s1.tp.snd_ssthresh then
    let cwnd := cong_doubled s1.tp.snd_cwnd
    if cwnd ≥ target_cwnd then ({ ca with ss_mode := false }, target_cwnd) else (ca, cwnd)
  else
    let cwnd := target_cwnd
    let ca1 : lotspeed := { ca with probe_cnt := u32 (ca.probe_cnt + 1) }
    if ca1.probe_cnt ≥ probe_threshold then
      ({ ca1 with probe_cnt := 0 }, cong_probe_mul cwnd / 10)
    else (ca1, cwnd)

/-- Source: `lotspeed_cong_control_impl` (the host entry point `on_sample`). -/
def lotspeed_cong_control_impl (c : Config) (rs : Option rate_sample) (jiffies : Nat)
    (s : Sock) : Sock :=
  let s1 := cong_adapted c rs jiffies s
  let rate := s1.ca.target_rate
  let sel := cong_select c rs jiffies s
  let cwnd0 := max sel.2 c.lotserver_min_cwnd
  let cwnd1 := min cwnd0 c.lotserver_max_cwnd
  let cwnd2 := min cwnd1 s1.tp.snd_cwnd_clamp
  let pacing := u64 (rate + rate / 4)
  { tp := { s1.tp with snd_cwnd := cwnd2, sk_pacing_rate := pacing }, ca := sel.1 }

/-! ## Loss / recovery state machine -/

/-- Source: `lotspeed_set_state`. -/
def lotspeed_set_state (c : Config) (new_state : tcp_ca_state) (s : Sock) : Sock :=
  match new_state with
  | tcp_ca_state.TCP_CA_Loss =>
    let r := lotspeed_turbo_should_ignore c s.ca
    if r.2 then
      { tp := { s.tp with snd_ssthresh := TCP_INFINITE_SSTHRESH },
        ca := lotspeed_consume_turbo_ignore r.1 }
    else
      let ca1 : lotspeed := { r.1 with loss_count := u32 (r.1.loss_count + 1) }
      { s with ca := { ca1 with cwnd_gain := max (u32 (ca1.cwnd_gain * 8) / 10) LOTSPEED_MIN_GAIN } }
  | tcp_ca_state.TCP_CA_Recovery =>
    if !c.lotserver_turbo then
      { s with ca := { s.ca with cwnd_gain := max (u32 (s.ca.cwnd_gain * 9) / 10) 15 } }
    else s
  | tcp_ca_state.TCP_CA_Open =>
    { s with ca := lotspeed_reset_turbo_budget c { s.ca with ss_mode := false } }
  | _ => s

/-- Source: `lotspeed_ssthresh`; returns the connection afterwards and the value returned. -/
def lotspeed_ssthresh (c : Config) (s : Sock) : Sock × Nat :=
  if c.lotserver_turbo ∧ !c.lotserver_soft_turbo then (s, TCP_INFINITE_SSTHRESH)
  else if c.lotserver_turbo ∧ lotspeed_turbo_ignore_active s.ca then
    ({ s with ca := lotspeed_consume_turbo_ignore s.ca }, TCP_INFINITE_SSTHRESH)
  else
    let ca1 : lotspeed := { s.ca with loss_count := u32 (s.ca.loss_count + 1) }
    let ca2 : lotspeed := { ca1 with cwnd_gain := max (u32 (ca1.cwnd_gain * 8) / 10) LOTSPEED_MIN_GAIN }
    ({ s with ca := ca2 }, max (u32 (s.tp.snd_cwnd * 7) / 10) c.lotserver_min_cwnd)

/-- Source: `lotspeed_undo_cwnd`; returns the connection afterwards and the value returned. -/
def lotspeed_undo_cwnd (s : Sock) : Sock × Nat :=
  ({ s with ca := { s.ca with loss_count := 0, ss_mode := false } },
   max s.tp.snd_cwnd s.tp.prior_cwnd)

/-- Source: `lotspeed_cwnd_event`. -/
def lotspeed_cwnd_event (c : Config) (event : tcp_ca_event) (s : Sock) : Sock :=
  match event with
  | tcp_ca_event.CA_EVENT_LOSS =>
    if c.lotserver_turbo ∧ (!c.lotserver_soft_turbo ∨ lotspeed_turbo_ignore_active s.ca) then
      { s with ca := lotspeed_consume_turbo_ignore s.ca }
    else
      let ca1 : lotspeed := { s.ca with loss_count := u32 (s.ca.loss_count + 1) }
      if !c.lotserver_turbo ∨ c.lotserver_soft_turbo then
        { s with ca := { ca1 with cwnd_gain := max (sub32 ca1.cwnd_gain 5) LOTSPEED_MIN_GAIN } }
      else { s with ca := ca1 }
  | tcp_ca_event.CA_EVENT_TX_START =>
    { s with ca := lotspeed_reset_turbo_budget c { s.ca with ss_mode := true, probe_cnt := 0 } }
  | tcp_ca_event.CA_EVENT_CWND_RESTART =>
    { s with ca := lotspeed_reset_turbo_budget c
                     { s.ca with ss_mode := true, loss_count := 0, probe_cnt := 0 } }
  | _ => s

/-! ## Call sequences -/

/-- One call made by the host on an open connection.  `host` stands for the host
stack rewriting its own fields between two callbacks. -/
inductive Op where
  | on_sample (rs : Option rate_sample) (jiffies : Nat)
  | set_state (new_state : tcp_ca_state)
  | ssthresh
  | undo_cwnd
  | cwnd_event (event : tcp_ca_event)
  | host (tp : tcp_sock)
  deriving DecidableEq, Repr

/-- The connection after one call. -/
def step (c : Config) (op : Op) (s : Sock) : Sock :=
  match op with
  | Op.on_sample rs jiffies => lotspeed_cong_control_impl c rs jiffies s
  | Op.set_state st => lotspeed_set_state c st s
  | Op.ssthresh => (lotspeed_ssthresh c s).1
  | Op.undo_cwnd => (lotspeed_undo_cwnd s).1
  | Op.cwnd_event ev => lotspeed_cwnd_event c ev s
  | Op.host tp => { s with tp := tp }

/-- The connection after a sequence of calls, first call first. -/
def run (c : Config) : List Op → Sock → Sock
  | [], s => s
  | op :: ops, s => run c ops (step c op s)

/-! ## Concrete connections and configurations used as examples -/

/-- A fresh host socket: initial window 10, no RTT sample yet, MSS 1460, no clamp. -/
def sock0 : Sock :=
  { tp := { snd_cwnd := 10, snd_ssthresh := 0x7fffffff, snd_cwnd_clamp := 4294967295,
            prior_cwnd := 0, srtt_us := 0, mss_cache := 1460, sk_pacing_rate := 0,
            sk_pacing_status := 0 }
    ca := lotspeed_zero }

/-- The defaults with `lotserver_gain = 5`, below `LOTSPEED_MIN_GAIN`. -/
def cfg_gain5 : Config := { default_config with lotserver_gain := 5 }

/-- The defaults with `lotserver_gain = 12`, between `LOTSPEED_MIN_GAIN` and 15. -/
def cfg_gain12 : Config := { default_config with lotserver_gain := 12 }

/-- The defaults with the largest `unsigned int` as `lotserver_gain`. -/
def cfg_gain_max : Config := { default_config with lotserver_gain := 4294967295 }

/-- A rate sample: 1000 packets delivered in 1 microsecond, no ECN echo. -/
def rs_fast : rate_sample := { delivered := 1000, interval_us := 1, is_ece := false }

/-- A call sequence touching every entry point. -/
def ops_mixed : List Op :=
  [Op.on_sample (some rs_fast) 1, Op.set_state tcp_ca_state.TCP_CA_Loss, Op.ssthresh,
   Op.cwnd_event tcp_ca_event.CA_EVENT_LOSS, Op.set_state tcp_ca_state.TCP_CA_Recovery,
   Op.on_sample none 2, Op.set_state tcp_ca_state.TCP_CA_Open, Op.undo_cwnd,
   Op.cwnd_event tcp_ca_event.CA_EVENT_CWND_RESTART, Op.on_sample (some rs_fast) 3]

/-! ## Predicates used by the statements -/

/-- The gain invariant: `MIN_GAIN <= cwnd_gain <= lotserver_gain`. -/
def gain_inv (c : Config) (ca : lotspeed) : Prop :=
  LOTSPEED_MIN_GAIN ≤ ca.cwnd_gain ∧ ca.cwnd_gain ≤ c.lotserver_gain

/-- The three loss notifications: entering Loss, the ssthresh query, the loss event. -/
def is_loss_notification : Op → Bool
  | Op.set_state tcp_ca_state.TCP_CA_Loss => true
  | Op.ssthresh => true
  | Op.cwnd_event tcp_ca_event.CA_EVENT_LOSS => true
  | _ => false

/-- The defaults with turbo on and soft turbo off ("hard turbo"). -/
def cfg_hard_turbo : Config :=
  { default_config with lotserver_turbo := true, lotserver_soft_turbo := false }

/-- A burst of loss notifications of all three kinds. -/
def ops_losses : List Op :=
  [Op.set_state tcp_ca_state.TCP_CA_Loss, Op.ssthresh, Op.cwnd_event tcp_ca_event.CA_EVENT_LOSS,
   Op.ssthresh, Op.ssthresh, Op.set_state tcp_ca_state.TCP_CA_Loss,
   Op.cwnd_event tcp_ca_event.CA_EVENT_LOSS]

/-- A burst of `k` entering-Loss notifications with nothing in between. -/
def loss_burst (k : Nat) : List Op := List.replicate k (Op.set_state tcp_ca_state.TCP_CA_Loss)

/-- The defaults with turbo on; soft turbo is on with budget 2. -/
def cfg_soft_turbo : Config := { default_config with lotserver_turbo := true }

/-- Soft turbo with a configured budget of 0. -/
def cfg_soft_budget0 : Config :=
  { default_config with lotserver_turbo := true, lotserver_soft_turbo_budget := 0 }

/-- Soft turbo with a configured budget of 9. -/
def cfg_soft_budget9 : Config :=
  { default_config with lotserver_turbo := true, lotserver_soft_turbo_budget := 9 }

/-- Soft turbo with budget 2 and a configured gain of `2^29`. -/
def cfg_soft_gain_big : Config :=
  { default_config with lotserver_turbo := true, lotserver_gain := 536870912 }

/-- The defaults with `lotserver_max_cwnd = 0`. -/
def cfg_max0 : Config := { default_config with lotserver_max_cwnd := 0 }

/-- The defaults with `lotserver_min_cwnd = 0`. -/
def cfg_min0 : Config := { default_config with lotserver_min_cwnd := 0 }

/-- Host fields with a window clamp of 0. -/
def tp_clamp0 : tcp_sock := { sock0.tp with snd_cwnd_clamp := 0 }

/-- Host fields with a smoothed RTT of 10 microseconds (`srtt_us` is 8 times the RTT). -/
def tp_rtt10 : tcp_sock := { sock0.tp with srtt_us := 80 }

/-- Host fields with a smoothed RTT of 20 milliseconds. -/
def tp_rtt20ms : tcp_sock := { sock0.tp with srtt_us := 160000 }

/-- A connection in steady state under the defaults: opened, RTT 20 ms, entered Open. -/
def sock_steady : Sock :=
  run default_config [Op.host tp_rtt20ms, Op.set_state tcp_ca_state.TCP_CA_Open]
    (lotspeed_init default_config 0 0 sock0)

/-- A configuration with rate `2^28 * 1000` bytes per second and gain 16. -/
def cfg_wrap : Config :=
  { default_config with lotserver_rate := 268435456000, lotserver_gain := 16 }

/-- Host fields with MSS 1000 and a smoothed RTT of one second. -/
def tp_wrap : tcp_sock := { sock0.tp with mss_cache := 1000, srtt_us := 8000000 }

/-! ## The probe threshold as the specification words it -/

/-- The specification's `clamp(x, lo, hi)`. -/
def spec_clamp (x lo hi : Nat) : Nat := if x < lo then lo else if hi < x then hi else x

/-- The specification's `cwnd_term = clamp(10000 / max(50, target_cwnd), 4, 60)`. -/
def spec_cwnd_term (target_cwnd : Nat) : Nat := spec_clamp (10000 / max 50 target_cwnd) 4 60

/-- The specification's `rtt_term = clamp(50 / rtt_ms, 4, 20)`. -/
def spec_rtt_term (rtt_ms : Nat) : Nat := spec_clamp (50 / rtt_ms) 4 20

/-- The specification's `probe_threshold`: `clamp(cwnd_term + rtt_term, 8, 80)`. -/
def spec_probe_threshold (target_cwnd rtt_ms : Nat) : Nat :=
  spec_clamp (spec_cwnd_term target_cwnd + spec_rtt_term rtt_ms) 8 80

/-- Private data with a recorded minimum RTT of 35 ms. -/
def ca_rtt_min35ms : lotspeed := { lotspeed_zero with rtt_min := 35000 }

/-- The calls that restart slow start: transmission restart and window restart. -/
def is_restart : Op → Bool
  | Op.cwnd_event tcp_ca_event.CA_EVENT_TX_START => true
  | Op.cwnd_event tcp_ca_event.CA_EVENT_CWND_RESTART => true
  | _ => false

/-! ## Feeding RTT samples -/

/-- One RTT filter update: the host stores a new smoothed RTT (`srtt_us`, eight times
the RTT in microseconds) and `lotspeed_update_rtt` runs.  The sample the filter sees is
`srtt_us >> 3`. -/
def rtt_feed (srtt_us : Nat) (s : Sock) : Sock :=
  lotspeed_update_rtt { s with tp := { s.tp with srtt_us := srtt_us } }

/-- A sequence of RTT filter updates, first sample first. -/
def rtt_feed_all : List Nat → Sock → Sock
  | [], s => s
  | x :: xs, s => rtt_feed_all xs (rtt_feed x s)

/-- The steady connection after one sample without rate information at RTT 20 ms. -/
def sock_sampled : Sock := step default_config (Op.on_sample none 1) sock_steady

/-! ## The windowed maximum -/

/-- A rate sample the bandwidth filter accepts: `delivered > 0` and `interval_us > 0`. -/
def valid_sample (r : rate_sample) : Prop := 0 < r.delivered ∧ 0 < r.interval_us

instance (r : rate_sample) : Decidable (valid_sample r) := by
  unfold valid_sample; exact inferInstance

/-- A decay step of the windowed maximum: the sample is below the current maximum and
the window stamp is older than the window length (`time_after32(tcp_jiffies32,
bw_window_stamp + msecs_to_jiffies(200))`). -/
def is_decay_step (c : Config) (r : rate_sample) (jiffies : Nat) (ca : lotspeed) : Prop :=
  lotspeed_sample_bw r < ca.bw_window_max ∧
    time_after32 jiffies (u32 (ca.bw_window_stamp + u32 c.bw_window_jiffies)) = true

instance (c : Config) (r : rate_sample) (jiffies : Nat) (ca : lotspeed) :
    Decidable (is_decay_step c r jiffies ca) := by
  unfold is_decay_step; exact inferInstance

/-- A rate sample: 100 packets delivered in 1000 microseconds, no ECN echo. -/
def rs_slow : rate_sample := { delivered := 100, interval_us := 1000, is_ece := false }

/-- A connection under the defaults that has seen one fast sample at time 1. -/
def sock_fast_seen : Sock :=
  lotspeed_adapt_rate default_config (some rs_fast) 1 (lotspeed_init default_config 0 0 sock0)

/-- A connection after a penalised loss whose window the host has cut from 100 to 70:
`prior_cwnd` holds the window before the loss. -/
def sock_after_loss : Sock :=
  run default_config
    [Op.set_state tcp_ca_state.TCP_CA_Loss,
     Op.host { sock_steady.tp with snd_cwnd := 70, prior_cwnd := 100 }]
    sock_steady

/-- Soft turbo with a configured budget of 1. -/
def cfg_soft_budget1 : Config :=
  { default_config with lotserver_turbo := true, lotserver_soft_turbo_budget := 1 }

/-- The loss event: `cwnd_event` with `CA_EVENT_LOSS`. -/
def loss_event (c : Config) (s : Sock) : Sock :=
  lotspeed_cwnd_event c tcp_ca_event.CA_EVENT_LOSS s

/-- The calls that reset the turbo budget on an open connection: entering Open and
the two restart events. -/
def is_budget_reset : Op → Bool
  | Op.set_state tcp_ca_state.TCP_CA_Open => true
  | Op.cwnd_event tcp_ca_event.CA_EVENT_TX_START => true
  | Op.cwnd_event tcp_ca_event.CA_EVENT_CWND_RESTART => true
  | _ => false

/-- Host fields with a window of 700,000,000 segments. -/
def tp_big_cwnd : tcp_sock := { sock0.tp with snd_cwnd := 700000000 }

/-- The defaults with a configured gain of `2^29`. -/
def cfg_gain_big : Config := { default_config with lotserver_gain := 536870912 }

/-- The defaults with the largest `unsigned long` as `lotserver_rate`. -/
def cfg_rate_max : Config := { default_config with lotserver_rate := 18446744073709551615 }

/-- The defaults with adaptive mode off. -/
def cfg_fixed : Config := { default_config with lotserver_adaptive := false }

/-- Entering Recovery: `lotspeed_set_state` with `TCP_CA_Recovery`. -/
def enter_recovery (c : Config) (s : Sock) : Sock :=
  lotspeed_set_state c tcp_ca_state.TCP_CA_Recovery s

/-- A connection under the defaults whose gain two penalised losses have cut to 10. -/
def sock_gain10 : Sock := run default_config (loss_burst 2) sock_steady

/-! ## Locals of the RTT filter -/

/-- The local `delta` of `lotspeed_update_rtt`: `(s32)rtt_us - (s32)ca->rtt_ema`. -/
def rtt_delta (s : Sock) : Int := wrap_s32 (s32 (s.tp.srtt_us / 8) - s32 s.ca.rtt_ema)

/-- The local `abs_delta` of `lotspeed_update_rtt`: `delta < 0 ? -delta : delta` as `u32`. -/
def rtt_abs_delta (s : Sock) : Nat :=
  u32_of_int (if rtt_delta s < 0 then wrap_s32 (-rtt_delta s) else rtt_delta s)

/-- The signed difference `(s32)abs_delta - (s32)ca->rtt_var` of `lotspeed_update_rtt`,
which is shifted right by 2 and added to `rtt_var`. -/
def rtt_dvar (s : Sock) : Int := wrap_s32 (s32 (rtt_abs_delta s) - s32 s.ca.rtt_var)

/-- The sampled connection with the host reporting a smoothed RTT of 30 ms. -/
def sock_rtt30ms : Sock := { sock_sampled with tp := { sock_sampled.tp with srtt_us := 240000 } }

/-- The bandwidth-filter invariant: the EMA-filtered rate is at most the windowed
maximum (both `u64` values). -/
def bw_inv (ca : lotspeed) : Prop :=
  ca.actual_rate ≤ ca.bw_window_max ∧ ca.bw_window_max < 2 ^ 64

instance (ca : lotspeed) : Decidable (bw_inv ca) := by
  unfold bw_inv; exact inferInstance

/-- The rate fields of the private data: `target_rate`, `actual_rate`, `bw_window_max`. -/
def rate_fields (ca : lotspeed) : Nat × Nat × Nat :=
  (ca.target_rate, ca.actual_rate, ca.bw_window_max)

/-- A call sequence with three rate samples: fast, slow after the window has aged, fast. -/
def ops_samples : List Op :=
  [Op.on_sample (some rs_fast) 1, Op.on_sample (some rs_slow) 1000,
   Op.set_state tcp_ca_state.TCP_CA_Loss, Op.on_sample (some rs_slow) 1001,
   Op.on_sample (some rs_fast) 2000]

/-- The local `filtered_bw` of `lotspeed_adapt_rate`:
`ca->actual_rate ? ca->actual_rate : sample_bw`. -/
def target_filtered_bw (sample_bw : Nat) (ca : lotspeed) : Nat :=
  if ca.actual_rate ≠ 0 then ca.actual_rate else sample_bw

/-- The local `desired` of the growth branch of `lotspeed_adapt_rate`. -/
def target_desired (c : Config) (ca : lotspeed) : Nat :=
  if ca.bw_window_max ≠ 0 then min ca.bw_window_max c.lotserver_rate else c.lotserver_rate

/-- The local `mss` of `lotspeed_adapt_rate`: `tp->mss_cache ? tp->mss_cache : 1460`. -/
def adapt_mss (s : Sock) : Nat := if s.tp.mss_cache ≠ 0 then s.tp.mss_cache else 1460

/-- The rate-limit invariant: the target rate is at most the configured rate. -/
def rate_inv (c : Config) (ca : lotspeed) : Prop := ca.target_rate ≤ c.lotserver_rate

/-- The defaults with `lotserver_rate = 2^61` bytes per second, for which
`target_rate * 8` does not fit in 64 bits. -/
def cfg_rate_2p61 : Config := { default_config with lotserver_rate := 2305843009213693952 }

/-- The piecewise reference for the target-rate control as the specification words it,
over unbounded integers with truncating division. -/
def spec_target_rate (configured_rate mss filtered_bw target_rate loss_count
    bw_window_max : Nat) : Nat :=
  if filtered_bw < target_rate / 2 ∧ loss_count > 0 then
    max (filtered_bw * 15 / 10) (configured_rate / 4)
  else if loss_count = 0 ∧ filtered_bw > target_rate * 8 / 10 then
    min (target_rate + max (target_rate / 8) (mss * 8))
      (if bw_window_max ≠ 0 then min bw_window_max configured_rate else configured_rate)
  else target_rate

/-- The connection data and `sample_bw` after the bandwidth filter of
`lotspeed_adapt_rate`, as the target-rate control sees them. -/
def adapt_filtered (c : Config) (rs : Option rate_sample) (jiffies : Nat) (s : Sock) :
    lotspeed × Nat :=
  lotspeed_adapt_rate_filter c rs jiffies (adapt_mss s) s.ca

/-- The defaults with `lotserver_gain = 1`. -/
def cfg_gain1 : Config := { default_config with lotserver_gain := 1 }

/-- Host fields with a smoothed RTT of 10 ms. -/
def tp_rtt10ms : tcp_sock := { sock0.tp with srtt_us := 80000 }

/-- Host fields with a smoothed RTT of 100 ms. -/
def tp_rtt100ms : tcp_sock := { sock0.tp with srtt_us := 800000 }

/-- A connection opened with configured gain 1 whose first sample saw an RTT of 10 ms and
whose host now reports a smoothed RTT of 100 ms. -/
def sock_rtt_inflated : Sock :=
  run cfg_gain1 [Op.host tp_rtt10ms, Op.on_sample (some rs_slow) 1, Op.host tp_rtt100ms]
    (lotspeed_init cfg_gain1 0 0 sock0)

/-- The connection `sock_rtt30ms` (RTT floor 20 ms, smoothed RTT 30 ms) with the field
`rtt_var` set to `2^30`. -/
def sock_var_2p30 : Sock :=
  { sock_rtt30ms with ca := { sock_rtt30ms.ca with rtt_var := 1073741824 } }

/-- The RTT threshold as the specification words it, over unbounded integers. -/
def spec_rtt_threshold (rtt_min rtt_var : Nat) (ecn : Bool) : Nat :=
  rtt_min + max (rtt_min / 3) (rtt_var * (if ecn then 3 else 4) / 2)

/-- The gain after the RTT-threshold check as the specification words it. -/
def spec_rtt_check_gain (configured_gain : Nat) (turbo : Bool) (rtt_min rtt rtt_var : Nat)
    (ecn : Bool) (cwnd_gain : Nat) : Nat :=
  if turbo = false ∧ rtt > spec_rtt_threshold rtt_min rtt_var ecn then
    max (cwnd_gain - 2) LOTSPEED_MIN_GAIN
  else if cwnd_gain < configured_gain then cwnd_gain + 1
  else cwnd_gain

/-- The connection data when `lotspeed_adapt_rate` reaches the label `rtt_check`. -/
def adapt_before_rtt_check (c : Config) (rs : Option rate_sample) (jiffies : Nat)
    (s : Sock) : lotspeed :=
  if c.lotserver_adaptive then
    lotspeed_adapt_rate_target c (adapt_mss s) (adapt_filtered c rs jiffies s).2
      (adapt_filtered c rs jiffies s).1
  else s.ca

/-- Host fields with a smoothed RTT of 20 ms and a host window clamp of 1000. -/
def tp_rtt20ms_clamp1000 : tcp_sock := { tp_rtt20ms with snd_cwnd_clamp := 1000 }

/-- A connection in steady state under the defaults (opened, RTT 20 ms, entered Open)
whose host limits the window to 1000 (`snd_cwnd_clamp`). -/
def sock_clamp1000 : Sock :=
  run default_config [Op.host tp_rtt20ms_clamp1000, Op.set_state tcp_ca_state.TCP_CA_Open]
    (lotspeed_init default_config 0 0 sock0)

/-- Private data with a recorded minimum RTT of 5 ms. -/
def ca_rtt_min5ms : lotspeed := { lotspeed_zero with rtt_min := 5000 }

/-! # Theorems -/

/-! ## Frame lemmas: what each function leaves alone -/

theorem update_rtt_cwnd_gain (s : Sock) :
    (lotspeed_update_rtt s).ca.cwnd_gain = s.ca.cwnd_gain := by
  unfold lotspeed_update_rtt
  simp only []
  split_ifs <;> rfl

theorem update_rtt_tp (s : Sock) : (lotspeed_update_rtt s).tp = s.tp := by
  unfold lotspeed_update_rtt
  simp only []
  split_ifs <;> rfl

theorem adapt_rate_tp (c : Config) (rs : Option rate_sample) (j : Nat) (s : Sock) :
    (lotspeed_adapt_rate c rs j s).tp = s.tp := rfl

theorem cong_adapted_tp (c : Config) (rs : Option rate_sample) (j : Nat) (s : Sock) :
    (cong_adapted c rs j s).tp = s.tp := by
  unfold cong_adapted
  rw [adapt_rate_tp, update_rtt_tp]

theorem filter_cwnd_gain (c : Config) (rs : Option rate_sample) (j mss : Nat) (ca : lotspeed) :
    (lotspeed_adapt_rate_filter c rs j mss ca).1.cwnd_gain = ca.cwnd_gain := by
  unfold lotspeed_adapt_rate_filter
  cases rs with
  | none => rfl
  | some r =>
    simp only []
    split_ifs <;> rfl

theorem reset_turbo_budget_cwnd_gain (c : Config) (ca : lotspeed) :
    (lotspeed_reset_turbo_budget c ca).cwnd_gain = ca.cwnd_gain := rfl

theorem consume_turbo_ignore_cwnd_gain (ca : lotspeed) :
    (lotspeed_consume_turbo_ignore ca).cwnd_gain = ca.cwnd_gain := by
  unfold lotspeed_consume_turbo_ignore
  split_ifs <;> rfl

theorem consume_turbo_ignore_loss_count (ca : lotspeed) :
    (lotspeed_consume_turbo_ignore ca).loss_count = ca.loss_count := by
  unfold lotspeed_consume_turbo_ignore
  split_ifs <;> rfl

theorem turbo_should_ignore_cwnd_gain (c : Config) (ca : lotspeed) :
    (lotspeed_turbo_should_ignore c ca).1.cwnd_gain = ca.cwnd_gain := by
  unfold lotspeed_turbo_should_ignore
  simp only []
  split_ifs <;> rfl

theorem turbo_should_ignore_loss_count (c : Config) (ca : lotspeed) :
    (lotspeed_turbo_should_ignore c ca).1.loss_count = ca.loss_count := by
  unfold lotspeed_turbo_should_ignore
  simp only []
  split_ifs <;> rfl

theorem cong_select_cwnd_gain (c : Config) (rs : Option rate_sample) (j : Nat) (s : Sock) :
    (cong_select c rs j s).1.cwnd_gain = (cong_adapted c rs j s).ca.cwnd_gain := by
  unfold cong_select
  simp only []
  split_ifs <;> rfl

/-! ## Wrapped products used by the gain penalties -/

theorem wrap_mul8_div_le (g : Nat) : u32 (g * 8) / 10 ≤ g := by
  unfold u32
  by_cases hb : g * 8 < 2 ^ 32
  · rw [Nat.mod_eq_of_lt hb]
    omega
  · have hm : g * 8 % 2 ^ 32 < 2 ^ 32 := Nat.mod_lt _ (by norm_num)
    omega

theorem wrap_mul9_div_le (g : Nat) : u32 (g * 9) / 10 ≤ g := by
  unfold u32
  by_cases hb : g * 9 < 2 ^ 32
  · rw [Nat.mod_eq_of_lt hb]
    omega
  · have hm : g * 9 % 2 ^ 32 < 2 ^ 32 := Nat.mod_lt _ (by norm_num)
    omega

/-! ## The gain invariant -/

theorem target_gain_inv (c : Config) (mss bw : Nat) (ca : lotspeed)
    (hhi : c.lotserver_gain < 2 ^ 32 - 1) (h : gain_inv c ca) :
    gain_inv c (lotspeed_adapt_rate_target c mss bw ca) := by
  unfold gain_inv at *
  unfold lotspeed_adapt_rate_target
  simp only [sub32, u32, LOTSPEED_MIN_GAIN] at *
  split_ifs <;> (try simp only []) <;> omega

theorem rtt_check_gain_inv (c : Config) (min_rtt rtt_us : Nat) (ecn : Bool) (ca : lotspeed)
    (hhi : c.lotserver_gain < 2 ^ 32) (h : gain_inv c ca) :
    gain_inv c (lotspeed_adapt_rate_rtt_check c min_rtt rtt_us ecn ca) := by
  unfold gain_inv at *
  unfold lotspeed_adapt_rate_rtt_check
  simp only [sub32, u32, LOTSPEED_MIN_GAIN] at *
  split_ifs <;> (try simp only []) <;> omega

theorem adapt_rate_gain_inv (c : Config) (rs : Option rate_sample) (j : Nat) (s : Sock)
    (hhi : c.lotserver_gain < 2 ^ 32)
    (hgrow : c.lotserver_adaptive = false ∨ c.lotserver_gain < 2 ^ 32 - 1)
    (h : gain_inv c s.ca) : gain_inv c (lotspeed_adapt_rate c rs j s).ca := by
  unfold lotspeed_adapt_rate
  simp only []
  apply rtt_check_gain_inv c _ _ _ _ hhi
  by_cases had : c.lotserver_adaptive = true
  · have hg : c.lotserver_gain < 2 ^ 32 - 1 := by
      rcases hgrow with h0 | h1
      · rw [h0] at had; cases had
      · exact h1
    rw [if_pos had]
    apply target_gain_inv c _ _ _ hg
    unfold gain_inv at *
    rw [filter_cwnd_gain]
    exact h
  · rw [if_neg had]
    exact h

theorem cong_control_gain_inv (c : Config) (rs : Option rate_sample) (j : Nat) (s : Sock)
    (hhi : c.lotserver_gain < 2 ^ 32)
    (hgrow : c.lotserver_adaptive = false ∨ c.lotserver_gain < 2 ^ 32 - 1)
    (h : gain_inv c s.ca) : gain_inv c (lotspeed_cong_control_impl c rs j s).ca := by
  have h1 : gain_inv c (cong_adapted c rs j s).ca := by
    unfold cong_adapted
    apply adapt_rate_gain_inv c rs j _ hhi hgrow
    unfold gain_inv at *
    rw [update_rtt_cwnd_gain]
    exact h
  unfold gain_inv at *
  unfold lotspeed_cong_control_impl
  simp only []
  rw [cong_select_cwnd_gain]
  exact h1

theorem set_state_gain_inv (c : Config) (st : tcp_ca_state) (s : Sock)
    (hhi : c.lotserver_gain < 2 ^ 32)
    (hrec : c.lotserver_turbo = true ∨ 15 ≤ c.lotserver_gain)
    (h : gain_inv c s.ca) : gain_inv c (lotspeed_set_state c st s).ca := by
  unfold gain_inv at *
  cases st with
  | TCP_CA_Loss =>
    unfold lotspeed_set_state
    simp only []
    split_ifs
    · simp only [consume_turbo_ignore_cwnd_gain, turbo_should_ignore_cwnd_gain]
      exact h
    · have h8 := wrap_mul8_div_le s.ca.cwnd_gain
      simp only [turbo_should_ignore_cwnd_gain, LOTSPEED_MIN_GAIN] at *
      omega
  | TCP_CA_Recovery =>
    unfold lotspeed_set_state
    simp only []
    split_ifs with ht
    · have h15 : 15 ≤ c.lotserver_gain := by
        rcases hrec with h0 | h1
        · rw [h0] at ht; simp at ht
        · exact h1
      have h9 := wrap_mul9_div_le s.ca.cwnd_gain
      simp only [LOTSPEED_MIN_GAIN] at *
      omega
    · exact h
  | TCP_CA_Open => exact h
  | TCP_CA_Disorder => exact h
  | TCP_CA_CWR => exact h

theorem ssthresh_gain_inv (c : Config) (s : Sock)
    (h : gain_inv c s.ca) : gain_inv c (lotspeed_ssthresh c s).1.ca := by
  unfold gain_inv at *
  unfold lotspeed_ssthresh
  split_ifs
  · exact h
  · simp only [consume_turbo_ignore_cwnd_gain]
    exact h
  · have h8 := wrap_mul8_div_le s.ca.cwnd_gain
    simp only [LOTSPEED_MIN_GAIN] at *
    omega

theorem cwnd_event_gain_inv (c : Config) (ev : tcp_ca_event) (s : Sock)
    (hhi : c.lotserver_gain < 2 ^ 32)
    (h : gain_inv c s.ca) : gain_inv c (lotspeed_cwnd_event c ev s).ca := by
  unfold gain_inv at *
  cases ev with
  | CA_EVENT_LOSS =>
    unfold lotspeed_cwnd_event
    simp only []
    split_ifs
    · simp only [consume_turbo_ignore_cwnd_gain]
      exact h
    · simp only [sub32, LOTSPEED_MIN_GAIN] at *
      split_ifs <;> omega
    · exact h
  | CA_EVENT_TX_START => exact h
  | CA_EVENT_CWND_RESTART => exact h
  | CA_EVENT_COMPLETE_CWR => exact h
  | CA_EVENT_ECN_NO_CE => exact h
  | CA_EVENT_ECN_IS_CE => exact h

theorem step_gain_inv (c : Config) (op : Op) (s : Sock)
    (hhi : c.lotserver_gain < 2 ^ 32)
    (hrec : c.lotserver_turbo = true ∨ 15 ≤ c.lotserver_gain)
    (hgrow : c.lotserver_adaptive = false ∨ c.lotserver_gain < 2 ^ 32 - 1)
    (h : gain_inv c s.ca) : gain_inv c (step c op s).ca := by
  cases op with
  | on_sample rs j => exact cong_control_gain_inv c rs j s hhi hgrow h
  | set_state st => exact set_state_gain_inv c st s hhi hrec h
  | ssthresh => exact ssthresh_gain_inv c s h
  | undo_cwnd => exact h
  | cwnd_event ev => exact cwnd_event_gain_inv c ev s hhi h
  | host tp => exact h

theorem run_gain_inv (c : Config) (ops : List Op)
    (hhi : c.lotserver_gain < 2 ^ 32)
    (hrec : c.lotserver_turbo = true ∨ 15 ≤ c.lotserver_gain)
    (hgrow : c.lotserver_adaptive = false ∨ c.lotserver_gain < 2 ^ 32 - 1) :
    ∀ s : Sock, gain_inv c s.ca → gain_inv c (run c ops s).ca := by
  induction ops with
  | nil => intro s h; exact h
  | cons op ops ih =>
    intro s h
    exact ih (step c op s) (step_gain_inv c op s hhi hrec hgrow h)

/-! ## C1: bounds of `cwnd_gain` -/

/-- C1 as stated fails: (a) with `lotserver_gain = 5` the connection is opened with
`cwnd_gain = 5 < MIN_GAIN`; (b) with `lotserver_gain = 12` and turbo off, entering
Recovery raises `cwnd_gain` to its hard floor 15, above the configured gain; (c) with
`lotserver_gain = 2^32 - 1` the growth step `cwnd_gain + 1` wraps to 0. -/
theorem cwnd_gain_bounds_counterexample :
    (cfg_gain5.wf ∧
      (run cfg_gain5 [] (lotspeed_init cfg_gain5 0 0 sock0)).ca.cwnd_gain = 5 ∧
      ¬ LOTSPEED_MIN_GAIN ≤ (run cfg_gain5 [] (lotspeed_init cfg_gain5 0 0 sock0)).ca.cwnd_gain) ∧
    (cfg_gain12.wf ∧
      (run cfg_gain12 [Op.set_state tcp_ca_state.TCP_CA_Recovery]
        (lotspeed_init cfg_gain12 0 0 sock0)).ca.cwnd_gain = 15 ∧
      ¬ (run cfg_gain12 [Op.set_state tcp_ca_state.TCP_CA_Recovery]
        (lotspeed_init cfg_gain12 0 0 sock0)).ca.cwnd_gain ≤ cfg_gain12.lotserver_gain) ∧
    (cfg_gain_max.wf ∧
      (run cfg_gain_max [Op.on_sample (some rs_fast) 1]
        (lotspeed_init cfg_gain_max 0 0 sock0)).ca.cwnd_gain = 0 ∧
      ¬ LOTSPEED_MIN_GAIN ≤ (run cfg_gain_max [Op.on_sample (some rs_fast) 1]
        (lotspeed_init cfg_gain_max 0 0 sock0)).ca.cwnd_gain) := by
  decide

/-- C1 (amended): for every configuration with `MIN_GAIN <= lotserver_gain < 2^32`,
with `lotserver_gain >= 15` unless turbo is on, and `lotserver_gain < 2^32 - 1` unless
adaptive mode is off, every state reached from `lotspeed_init` by any sequence of
on_sample, set_state, ssthresh, undo_cwnd and cwnd_event calls (and host updates of
its own fields) satisfies `MIN_GAIN <= cwnd_gain <= lotserver_gain`. -/
theorem cwnd_gain_within_bounds (c : Config)
    (hlo : LOTSPEED_MIN_GAIN ≤ c.lotserver_gain)
    (hhi : c.lotserver_gain < 2 ^ 32)
    (hrec : c.lotserver_turbo = true ∨ 15 ≤ c.lotserver_gain)
    (hgrow : c.lotserver_adaptive = false ∨ c.lotserver_gain < 2 ^ 32 - 1)
    (jiffies secs : Nat) (s0 : Sock) (ops : List Op) :
    LOTSPEED_MIN_GAIN ≤ (run c ops (lotspeed_init c jiffies secs s0)).ca.cwnd_gain ∧
      (run c ops (lotspeed_init c jiffies secs s0)).ca.cwnd_gain ≤ c.lotserver_gain := by
  have h0 : gain_inv c (lotspeed_init c jiffies secs s0).ca := ⟨hlo, Nat.le_refl _⟩
  exact run_gain_inv c ops hhi hrec hgrow _ h0

/-- C1 witness: the default configuration and a sequence through every entry point. -/
theorem cwnd_gain_within_bounds_witness :
    LOTSPEED_MIN_GAIN ≤
        (run default_config ops_mixed (lotspeed_init default_config 0 0 sock0)).ca.cwnd_gain ∧
      (run default_config ops_mixed (lotspeed_init default_config 0 0 sock0)).ca.cwnd_gain ≤
        default_config.lotserver_gain :=
  cwnd_gain_within_bounds default_config (by decide) (by decide) (by decide) (by decide)
    0 0 sock0 ops_mixed

/-! ## C2: hard turbo -/

theorem hard_turbo_step (c : Config) (ht : c.lotserver_turbo = true)
    (hs : c.lotserver_soft_turbo = false) (op : Op) (s : Sock)
    (hop : is_loss_notification op = true) :
    (step c op s).ca.cwnd_gain = s.ca.cwnd_gain ∧
      (step c op s).ca.loss_count = s.ca.loss_count := by
  cases op with
  | set_state st =>
    cases st <;> simp [is_loss_notification] at hop
    simp [step, lotspeed_set_state, lotspeed_turbo_should_ignore, ht, hs,
      consume_turbo_ignore_cwnd_gain, consume_turbo_ignore_loss_count]
  | ssthresh =>
    simp [step, lotspeed_ssthresh, ht, hs]
  | cwnd_event ev =>
    cases ev <;> simp [is_loss_notification] at hop
    simp [step, lotspeed_cwnd_event, ht, hs,
      consume_turbo_ignore_cwnd_gain, consume_turbo_ignore_loss_count]
  | on_sample rs j => simp [is_loss_notification] at hop
  | undo_cwnd => simp [is_loss_notification] at hop
  | host tp => simp [is_loss_notification] at hop

theorem hard_turbo_run (c : Config) (ht : c.lotserver_turbo = true)
    (hs : c.lotserver_soft_turbo = false) (ops : List Op) :
    ∀ s : Sock, (∀ op ∈ ops, is_loss_notification op = true) →
      (run c ops s).ca.cwnd_gain = s.ca.cwnd_gain ∧
        (run c ops s).ca.loss_count = s.ca.loss_count := by
  induction ops with
  | nil => intro s _; exact ⟨rfl, rfl⟩
  | cons op ops ih =>
    intro s hops
    have h1 := hard_turbo_step c ht hs op s (hops op (List.mem_cons_self op ops))
    have h2 := ih (step c op s) (fun o ho => hops o (List.mem_cons_of_mem op ho))
    exact ⟨h2.1.trans h1.1, h2.2.trans h1.2⟩

/-- C2: with turbo on and soft turbo off, after any sequence of loss notifications
(entering Loss, ssthresh query, loss event) from any connection state, `cwnd_gain` and
`loss_count` have their initial values, the next ssthresh query returns
`TCP_INFINITE_SSTHRESH`, and the next entering-Loss sets `snd_ssthresh` to
`TCP_INFINITE_SSTHRESH`.  The sequence is arbitrary, so this covers every notification
of every sequence. -/
theorem hard_turbo_ignores_every_loss (c : Config) (ht : c.lotserver_turbo = true)
    (hs : c.lotserver_soft_turbo = false) (s : Sock) (ops : List Op)
    (hops : ∀ op ∈ ops, is_loss_notification op = true) :
    (run c ops s).ca.cwnd_gain = s.ca.cwnd_gain ∧
      (run c ops s).ca.loss_count = s.ca.loss_count ∧
      (lotspeed_ssthresh c (run c ops s)).2 = TCP_INFINITE_SSTHRESH ∧
      (lotspeed_set_state c tcp_ca_state.TCP_CA_Loss (run c ops s)).tp.snd_ssthresh =
        TCP_INFINITE_SSTHRESH := by
  have h := hard_turbo_run c ht hs ops s hops
  refine ⟨h.1, h.2, ?_, ?_⟩
  · simp [lotspeed_ssthresh, ht, hs]
  · simp [lotspeed_set_state, lotspeed_turbo_should_ignore, ht, hs]

/-- C2 witness: hard turbo on the default parameters, a burst of seven notifications. -/
theorem hard_turbo_ignores_every_loss_witness :
    (run cfg_hard_turbo ops_losses (lotspeed_init cfg_hard_turbo 0 0 sock0)).ca.cwnd_gain =
        (lotspeed_init cfg_hard_turbo 0 0 sock0).ca.cwnd_gain ∧
      (run cfg_hard_turbo ops_losses (lotspeed_init cfg_hard_turbo 0 0 sock0)).ca.loss_count =
        (lotspeed_init cfg_hard_turbo 0 0 sock0).ca.loss_count ∧
      (lotspeed_ssthresh cfg_hard_turbo
        (run cfg_hard_turbo ops_losses (lotspeed_init cfg_hard_turbo 0 0 sock0))).2 =
        TCP_INFINITE_SSTHRESH ∧
      (lotspeed_set_state cfg_hard_turbo tcp_ca_state.TCP_CA_Loss
        (run cfg_hard_turbo ops_losses (lotspeed_init cfg_hard_turbo 0 0 sock0))).tp.snd_ssthresh =
        TCP_INFINITE_SSTHRESH :=
  hard_turbo_ignores_every_loss cfg_hard_turbo (by decide) (by decide)
    (lotspeed_init cfg_hard_turbo 0 0 sock0) ops_losses (by decide)

/-! ## C3: the soft-turbo budget -/

theorem run_append (c : Config) (a b : List Op) :
    ∀ s : Sock, run c (a ++ b) s = run c b (run c a s) := by
  induction a with
  | nil => intro s; rfl
  | cons op a ih => intro s; exact ih (step c op s)

theorem run_loss_burst_succ (c : Config) (k : Nat) (s : Sock) :
    run c (loss_burst (k + 1)) s =
      lotspeed_set_state c tcp_ca_state.TCP_CA_Loss (run c (loss_burst k) s) := by
  unfold loss_burst
  rw [List.replicate_succ', run_append]
  rfl

theorem get_turbo_budget_soft (c : Config) (hs : c.lotserver_soft_turbo = true) :
    lotspeed_get_turbo_budget c = clamp_t c.lotserver_soft_turbo_budget 1 8 := by
  unfold lotspeed_get_turbo_budget u8 clamp_t
  rw [if_pos hs]
  omega

theorem soft_loss_ignored (c : Config) (ht : c.lotserver_turbo = true)
    (hs : c.lotserver_soft_turbo = true) (s : Sock) (hb : 0 < s.ca.turbo_budget) :
    (lotspeed_set_state c tcp_ca_state.TCP_CA_Loss s).tp.snd_ssthresh = TCP_INFINITE_SSTHRESH ∧
      (lotspeed_set_state c tcp_ca_state.TCP_CA_Loss s).ca.loss_count = s.ca.loss_count ∧
      (lotspeed_set_state c tcp_ca_state.TCP_CA_Loss s).ca.cwnd_gain = s.ca.cwnd_gain ∧
      (lotspeed_set_state c tcp_ca_state.TCP_CA_Loss s).ca.turbo_budget =
        s.ca.turbo_budget - 1 := by
  have hne : s.ca.turbo_budget ≠ 0 := by omega
  simp [lotspeed_set_state, lotspeed_turbo_should_ignore, lotspeed_consume_turbo_ignore,
    LOTSPEED_TURBO_IGNORE_SPAN, ht, hs, hne]

theorem soft_loss_penalised (c : Config) (ht : c.lotserver_turbo = true)
    (hs : c.lotserver_soft_turbo = true) (s : Sock) (hb : s.ca.turbo_budget = 0) :
    (lotspeed_set_state c tcp_ca_state.TCP_CA_Loss s).tp = s.tp ∧
      (lotspeed_set_state c tcp_ca_state.TCP_CA_Loss s).ca.loss_count =
        u32 (s.ca.loss_count + 1) ∧
      (lotspeed_set_state c tcp_ca_state.TCP_CA_Loss s).ca.cwnd_gain =
        max (u32 (s.ca.cwnd_gain * 8) / 10) LOTSPEED_MIN_GAIN := by
  simp [lotspeed_set_state, lotspeed_turbo_should_ignore, ht, hs, hb]

theorem soft_burst_within_budget (c : Config) (ht : c.lotserver_turbo = true)
    (hs : c.lotserver_soft_turbo = true) (s : Sock) :
    ∀ k : Nat, k ≤ s.ca.turbo_budget →
      (run c (loss_burst k) s).ca.turbo_budget = s.ca.turbo_budget - k ∧
        (run c (loss_burst k) s).ca.loss_count = s.ca.loss_count ∧
        (run c (loss_burst k) s).ca.cwnd_gain = s.ca.cwnd_gain ∧
        (0 < k → (run c (loss_burst k) s).tp.snd_ssthresh = TCP_INFINITE_SSTHRESH) := by
  intro k
  induction k with
  | zero => intro _; exact ⟨rfl, rfl, rfl, fun h => absurd h (Nat.lt_irrefl 0)⟩
  | succ k ih =>
    intro hk
    have hprev := ih (by omega)
    have hpos : 0 < (run c (loss_burst k) s).ca.turbo_budget := by
      rw [hprev.1]; omega
    have hstep := soft_loss_ignored c ht hs (run c (loss_burst k) s) hpos
    rw [run_loss_burst_succ]
    refine ⟨?_, ?_, ?_, fun _ => hstep.1⟩
    · rw [hstep.2.2.2, hprev.1]; omega
    · rw [hstep.2.1, hprev.2.1]
    · rw [hstep.2.2.1, hprev.2.2.1]

/-- C3 as stated fails for budgets outside 1..8, because the budget in effect is
`clamp(lotserver_soft_turbo_budget, 1, 8)`: (a) with a configured budget of 0 the first
loss is ignored, not penalised, and entering Open sets the budget to 1; (b) with a
configured budget of 9 the ninth loss is penalised, not ignored, and entering Open sets
the budget to 8.  (c) The penalty is computed in 32-bit arithmetic: from
`cwnd_gain = 2^29` the third loss with budget 2 gives `cwnd_gain = 10`, while
`max(2^29 * 8 / 10, 10) = 429496729`. -/
theorem soft_turbo_budget_counterexample :
    ((run cfg_soft_budget0 (loss_burst 1)
        (lotspeed_init cfg_soft_budget0 0 0 sock0)).ca.loss_count = 0 ∧
      (run cfg_soft_budget0 (loss_burst 1)
        (lotspeed_init cfg_soft_budget0 0 0 sock0)).tp.snd_ssthresh = TCP_INFINITE_SSTHRESH ∧
      (run cfg_soft_budget0 (loss_burst 1 ++ [Op.set_state tcp_ca_state.TCP_CA_Open])
        (lotspeed_init cfg_soft_budget0 0 0 sock0)).ca.turbo_budget = 1) ∧
    ((run cfg_soft_budget9 (loss_burst 8)
        (lotspeed_init cfg_soft_budget9 0 0 sock0)).ca.loss_count = 0 ∧
      (run cfg_soft_budget9 (loss_burst 9)
        (lotspeed_init cfg_soft_budget9 0 0 sock0)).ca.loss_count = 1 ∧
      (run cfg_soft_budget9 (loss_burst 10 ++ [Op.set_state tcp_ca_state.TCP_CA_Open])
        (lotspeed_init cfg_soft_budget9 0 0 sock0)).ca.turbo_budget = 8) ∧
    ((lotspeed_init cfg_soft_gain_big 0 0 sock0).ca.cwnd_gain = 536870912 ∧
      (run cfg_soft_gain_big (loss_burst 3)
        (lotspeed_init cfg_soft_gain_big 0 0 sock0)).ca.cwnd_gain = 10 ∧
      max (536870912 * 8 / 10) LOTSPEED_MIN_GAIN = 429496729) := by
  decide

/-- C3 (amended): with turbo and soft turbo on, let `B = clamp(lotserver_soft_turbo_budget,
1, 8)` (so `B` is the configured budget when that is 1..8).  From any state whose budget was
just reset (`turbo_budget = B`), in a burst of entering-Loss notifications each of the
first `B` is ignored (`snd_ssthresh` set to infinite, `loss_count` and `cwnd_gain`
unchanged, one unit of budget consumed), the `(B+1)`-th is penalised (`loss_count`
incremented, `cwnd_gain = max(cwnd_gain * 8 / 10, MIN_GAIN)` in 32-bit arithmetic), and
after a subsequent entering-Open `turbo_budget` equals `B` again. -/
theorem soft_turbo_budget_burst (c : Config) (ht : c.lotserver_turbo = true)
    (hs : c.lotserver_soft_turbo = true) (s : Sock)
    (hb : s.ca.turbo_budget = lotspeed_get_turbo_budget c) :
    lotspeed_get_turbo_budget c = clamp_t c.lotserver_soft_turbo_budget 1 8 ∧
    (∀ k : Nat, k < lotspeed_get_turbo_budget c →
      (run c (loss_burst (k + 1)) s).tp.snd_ssthresh = TCP_INFINITE_SSTHRESH ∧
        (run c (loss_burst (k + 1)) s).ca.loss_count = s.ca.loss_count ∧
        (run c (loss_burst (k + 1)) s).ca.cwnd_gain = s.ca.cwnd_gain ∧
        (run c (loss_burst (k + 1)) s).ca.turbo_budget =
          lotspeed_get_turbo_budget c - (k + 1)) ∧
    ((run c (loss_burst (lotspeed_get_turbo_budget c + 1)) s).ca.loss_count =
        u32 (s.ca.loss_count + 1) ∧
      (run c (loss_burst (lotspeed_get_turbo_budget c + 1)) s).ca.cwnd_gain =
        max (u32 (s.ca.cwnd_gain * 8) / 10) LOTSPEED_MIN_GAIN) ∧
    (run c (loss_burst (lotspeed_get_turbo_budget c + 1) ++
        [Op.set_state tcp_ca_state.TCP_CA_Open]) s).ca.turbo_budget =
      lotspeed_get_turbo_budget c := by
  refine ⟨get_turbo_budget_soft c hs, ?_, ?_, ?_⟩
  · intro k hk
    have h := soft_burst_within_budget c ht hs s (k + 1) (by omega)
    exact ⟨h.2.2.2 (Nat.succ_pos k), h.2.1, h.2.2.1, by rw [h.1, hb]⟩
  · have h := soft_burst_within_budget c ht hs s (lotspeed_get_turbo_budget c) (by omega)
    have h0 : (run c (loss_burst (lotspeed_get_turbo_budget c)) s).ca.turbo_budget = 0 := by
      rw [h.1, hb]; omega
    have hp := soft_loss_penalised c ht hs _ h0
    rw [run_loss_burst_succ, hp.2.1, hp.2.2, h.2.1, h.2.2.1]
    exact ⟨rfl, rfl⟩
  · rw [run_append]
    rfl

/-- C3 witness: budget 2 on a freshly opened connection: the first and the second loss
are ignored, the third is penalised (gain 15 to 12), entering Open restores budget 2. -/
theorem soft_turbo_budget_burst_witness :
    ((run cfg_soft_turbo (loss_burst 1)
          (lotspeed_init cfg_soft_turbo 0 0 sock0)).tp.snd_ssthresh = TCP_INFINITE_SSTHRESH ∧
        (run cfg_soft_turbo (loss_burst 1)
          (lotspeed_init cfg_soft_turbo 0 0 sock0)).ca.loss_count = 0 ∧
        (run cfg_soft_turbo (loss_burst 1)
          (lotspeed_init cfg_soft_turbo 0 0 sock0)).ca.cwnd_gain = 15 ∧
        (run cfg_soft_turbo (loss_burst 1)
          (lotspeed_init cfg_soft_turbo 0 0 sock0)).ca.turbo_budget = 1) ∧
    ((run cfg_soft_turbo (loss_burst 2)
          (lotspeed_init cfg_soft_turbo 0 0 sock0)).tp.snd_ssthresh = TCP_INFINITE_SSTHRESH ∧
        (run cfg_soft_turbo (loss_burst 2)
          (lotspeed_init cfg_soft_turbo 0 0 sock0)).ca.loss_count = 0 ∧
        (run cfg_soft_turbo (loss_burst 2)
          (lotspeed_init cfg_soft_turbo 0 0 sock0)).ca.cwnd_gain = 15 ∧
        (run cfg_soft_turbo (loss_burst 2)
          (lotspeed_init cfg_soft_turbo 0 0 sock0)).ca.turbo_budget = 0) ∧
    ((run cfg_soft_turbo (loss_burst 3)
        (lotspeed_init cfg_soft_turbo 0 0 sock0)).ca.loss_count = 1 ∧
      (run cfg_soft_turbo (loss_burst 3)
        (lotspeed_init cfg_soft_turbo 0 0 sock0)).ca.cwnd_gain = 12) ∧
    (run cfg_soft_turbo (loss_burst 3 ++ [Op.set_state tcp_ca_state.TCP_CA_Open])
        (lotspeed_init cfg_soft_turbo 0 0 sock0)).ca.turbo_budget = 2 :=
  ⟨(soft_turbo_budget_burst cfg_soft_turbo (by decide) (by decide)
      (lotspeed_init cfg_soft_turbo 0 0 sock0) (by decide)).2.1 0 (by decide),
   (soft_turbo_budget_burst cfg_soft_turbo (by decide) (by decide)
      (lotspeed_init cfg_soft_turbo 0 0 sock0) (by decide)).2.1 1 (by decide),
   (soft_turbo_budget_burst cfg_soft_turbo (by decide) (by decide)
      (lotspeed_init cfg_soft_turbo 0 0 sock0) (by decide)).2.2.1,
   (soft_turbo_budget_burst cfg_soft_turbo (by decide) (by decide)
      (lotspeed_init cfg_soft_turbo 0 0 sock0) (by decide)).2.2.2⟩

/-! ## C4 and C5: the safety limits on the window -/

theorem cong_control_snd_cwnd (c : Config) (rs : Option rate_sample) (j : Nat) (s : Sock) :
    (lotspeed_cong_control_impl c rs j s).tp.snd_cwnd =
      min (min (max (cong_select c rs j s).2 c.lotserver_min_cwnd) c.lotserver_max_cwnd)
        s.tp.snd_cwnd_clamp := by
  unfold lotspeed_cong_control_impl
  simp only [cong_adapted_tp]

theorem cong_select_value (c : Config) (rs : Option rate_sample) (j : Nat) (s : Sock) :
    (cong_select c rs j s).2 = cong_target_cwnd c rs j s ∨
      (cong_select c rs j s).2 = cong_doubled s.tp.snd_cwnd ∨
      (cong_select c rs j s).2 = cong_probe_mul (cong_target_cwnd c rs j s) / 10 := by
  unfold cong_select
  simp only [cong_adapted_tp]
  split_ifs <;> simp

/-- C4 as stated fails: the window written is 0 (a) when `lotserver_max_cwnd = 0`,
(b) when the host clamp `snd_cwnd_clamp` is 0, and (c) when `lotserver_min_cwnd = 0`
and the target window is 0 (here: default rate, RTT of 10 microseconds). -/
theorem cong_control_window_zero_counterexample :
    (cfg_max0.wf ∧
      (run cfg_max0 [Op.on_sample none 1]
        (lotspeed_init cfg_max0 0 0 sock0)).tp.snd_cwnd = 0) ∧
    (run default_config [Op.host tp_clamp0, Op.on_sample none 1]
        (lotspeed_init default_config 0 0 sock0)).tp.snd_cwnd = 0 ∧
    (cfg_min0.wf ∧
      (run cfg_min0 [Op.host tp_rtt10, Op.set_state tcp_ca_state.TCP_CA_Open, Op.on_sample none 1]
        (lotspeed_init cfg_min0 0 0 sock0)).tp.snd_cwnd = 0) := by
  decide

/-- C4 (amended): for every connection state, configuration and rate sample, the window
written by on_sample is not zero provided the configured minimum window, the configured
maximum window and the host window clamp are all non-zero. -/
theorem cong_control_window_nonzero (c : Config) (rs : Option rate_sample) (j : Nat) (s : Sock)
    (hmin : 0 < c.lotserver_min_cwnd) (hmax : 0 < c.lotserver_max_cwnd)
    (hclamp : 0 < s.tp.snd_cwnd_clamp) :
    0 < (lotspeed_cong_control_impl c rs j s).tp.snd_cwnd := by
  rw [cong_control_snd_cwnd]
  omega

/-- C4 witness: the default parameters on a freshly opened connection. -/
theorem cong_control_window_nonzero_witness :
    0 < (lotspeed_cong_control_impl default_config (some rs_fast) 1
      (lotspeed_init default_config 0 0 sock0)).tp.snd_cwnd :=
  cong_control_window_nonzero default_config (some rs_fast) 1
    (lotspeed_init default_config 0 0 sock0) (by decide) (by decide) (by decide)

/-- C5: the window written by on_sample is
`min(min(max(w, lotserver_min_cwnd), lotserver_max_cwnd), snd_cwnd_clamp)`, where `w` is
the target window, the doubled current window (slow start) or the probe value
`target * 11 / 10`; so it never exceeds `lotserver_max_cwnd` nor the host clamp, and it
is at least `lotserver_min_cwnd` when that is at most `lotserver_max_cwnd` and at most
the host clamp. -/
theorem cong_control_window_limits (c : Config) (rs : Option rate_sample) (j : Nat) (s : Sock) :
    (lotspeed_cong_control_impl c rs j s).tp.snd_cwnd =
        min (min (max (cong_select c rs j s).2 c.lotserver_min_cwnd) c.lotserver_max_cwnd)
          s.tp.snd_cwnd_clamp ∧
      ((cong_select c rs j s).2 = cong_target_cwnd c rs j s ∨
        (cong_select c rs j s).2 = cong_doubled s.tp.snd_cwnd ∨
        (cong_select c rs j s).2 = cong_probe_mul (cong_target_cwnd c rs j s) / 10) ∧
      (lotspeed_cong_control_impl c rs j s).tp.snd_cwnd ≤ c.lotserver_max_cwnd ∧
      (lotspeed_cong_control_impl c rs j s).tp.snd_cwnd ≤ s.tp.snd_cwnd_clamp ∧
      (c.lotserver_min_cwnd ≤ c.lotserver_max_cwnd →
        c.lotserver_min_cwnd ≤ s.tp.snd_cwnd_clamp →
        c.lotserver_min_cwnd ≤ (lotspeed_cong_control_impl c rs j s).tp.snd_cwnd) := by
  refine ⟨cong_control_snd_cwnd c rs j s, cong_select_value c rs j s, ?_, ?_, ?_⟩
  · rw [cong_control_snd_cwnd]; omega
  · rw [cong_control_snd_cwnd]; omega
  · intro h1 h2
    rw [cong_control_snd_cwnd]; omega

/-- C5 witness: the default parameters; the first sample of a fresh connection doubles
the window 10 to 20 in slow start, and the minimum window 50 is written. -/
theorem cong_control_window_limits_witness :
    (lotspeed_cong_control_impl default_config (some rs_fast) 1
        (lotspeed_init default_config 0 0 sock0)).tp.snd_cwnd = 50 ∧
      default_config.lotserver_min_cwnd ≤
        (lotspeed_cong_control_impl default_config (some rs_fast) 1
          (lotspeed_init default_config 0 0 sock0)).tp.snd_cwnd :=
  ⟨(cong_control_window_limits default_config (some rs_fast) 1
      (lotspeed_init default_config 0 0 sock0)).1.trans (by decide),
   (cong_control_window_limits default_config (some rs_fast) 1
      (lotspeed_init default_config 0 0 sock0)).2.2.2.2 (by decide) (by decide)⟩

/-! ## C6: the target window formula -/

theorem target_cwnd_exact (rate rtt_us mss gain : Nat) (hm : mss < 2 ^ 32)
    (h1 : rate * rtt_us < 2 ^ 64)
    (h2 : rate * rtt_us / (mss * 1000000) * gain < 2 ^ 32) :
    lotspeed_target_cwnd rate rtt_us mss gain =
      rate * rtt_us / (mss * 1000000) * gain / 10 := by
  unfold lotspeed_target_cwnd cong_rate_rtt cong_scaled
  simp only []
  have e1 : u64 (rate * rtt_us) = rate * rtt_us := Nat.mod_eq_of_lt h1
  have e2 : u64 (mss * 1000000) = mss * 1000000 := by unfold u64; omega
  rw [e1, e2]
  generalize rate * rtt_us / (mss * 1000000) = q at h2 ⊢
  rcases Nat.eq_zero_or_pos gain with hg | hg
  · subst hg
    simp [u32]
  · have hq : q ≤ q * gain := Nat.le_mul_of_pos_right q hg
    have e3 : u32 q = q := Nat.mod_eq_of_lt (by omega)
    have e4 : u32 (q * gain) = q * gain := Nat.mod_eq_of_lt h2
    rw [e3, e4]
    exact Nat.mod_eq_of_lt (by omega)

theorem cong_target_cwnd_eq (c : Config) (rs : Option rate_sample) (j : Nat) (s : Sock) :
    cong_target_cwnd c rs j s =
      lotspeed_target_cwnd (cong_adapted c rs j s).ca.target_rate (cong_rtt_us s) (cong_mss s)
        (cong_adapted c rs j s).ca.cwnd_gain := rfl

/-- C6 as stated fails: the window written is also limited by the host clamp
`tp->snd_cwnd_clamp`, which the claim does not mention.  Under the defaults (minimum and
maximum window 50 and 10000), with rate 125,000,000, RTT 20,000 us, MSS 1460 and gain 15,
outside slow start and with no probe firing, `target_cwnd` is 2568, but with a host
clamp of 1000 the window written is 1000. -/
theorem target_cwnd_clamp_counterexample :
    (cong_adapted default_config (some rs_slow) 1 sock_clamp1000).ca.target_rate = 125000000 ∧
      cong_rtt_us sock_clamp1000 = 20000 ∧ cong_mss sock_clamp1000 = 1460 ∧
      (cong_adapted default_config (some rs_slow) 1 sock_clamp1000).ca.cwnd_gain = 15 ∧
      default_config.lotserver_min_cwnd = 50 ∧ default_config.lotserver_max_cwnd = 10000 ∧
      ¬ ((cong_adapted default_config (some rs_slow) 1 sock_clamp1000).ca.ss_mode = true ∧
        sock_clamp1000.tp.snd_cwnd < sock_clamp1000.tp.snd_ssthresh) ∧
      u32 ((cong_adapted default_config (some rs_slow) 1 sock_clamp1000).ca.probe_cnt + 1) <
        lotspeed_probe_threshold
          (cong_adapted default_config (some rs_slow) 1 sock_clamp1000).ca 2568 20000 ∧
      cong_target_cwnd default_config (some rs_slow) 1 sock_clamp1000 = 2568 ∧
      sock_clamp1000.tp.snd_cwnd_clamp = 1000 ∧
      (lotspeed_cong_control_impl default_config (some rs_slow) 1 sock_clamp1000).tp.snd_cwnd =
        1000 := by
  decide

/-- C6 (amended): in on_sample, `target_cwnd` is computed from the target rate and gain
left by the rate adaptation; whenever the products fit their machine widths
(`rate * rtt_us < 2^64` and `quotient * gain < 2^32`) it equals
`floor(floor(rate * rtt_us / (mss * 1000000)) * gain / 10)`.  For rate 125,000,000,
RTT 20,000 us, MSS 1460 and gain 15 it is exactly 2568, and with minimum/maximum window
50/10000, outside slow start, with no probe firing and a host clamp of at least 2568,
2568 is the window written. -/
theorem target_cwnd_formula :
    (∀ rate rtt_us mss gain : Nat, mss < 2 ^ 32 → rate * rtt_us < 2 ^ 64 →
      rate * rtt_us / (mss * 1000000) * gain < 2 ^ 32 →
      lotspeed_target_cwnd rate rtt_us mss gain =
        rate * rtt_us / (mss * 1000000) * gain / 10) ∧
    (∀ (c : Config) (rs : Option rate_sample) (j : Nat) (s : Sock),
      cong_target_cwnd c rs j s =
        lotspeed_target_cwnd (cong_adapted c rs j s).ca.target_rate (cong_rtt_us s)
          (cong_mss s) (cong_adapted c rs j s).ca.cwnd_gain) ∧
    lotspeed_target_cwnd 125000000 20000 1460 15 = 2568 ∧
    (∀ (c : Config) (rs : Option rate_sample) (j : Nat) (s : Sock),
      (cong_adapted c rs j s).ca.target_rate = 125000000 →
      cong_rtt_us s = 20000 → cong_mss s = 1460 →
      (cong_adapted c rs j s).ca.cwnd_gain = 15 →
      c.lotserver_min_cwnd = 50 → c.lotserver_max_cwnd = 10000 →
      ¬ ((cong_adapted c rs j s).ca.ss_mode = true ∧ s.tp.snd_cwnd < s.tp.snd_ssthresh) →
      u32 ((cong_adapted c rs j s).ca.probe_cnt + 1) <
        lotspeed_probe_threshold (cong_adapted c rs j s).ca 2568 20000 →
      2568 ≤ s.tp.snd_cwnd_clamp →
      (lotspeed_cong_control_impl c rs j s).tp.snd_cwnd = 2568) := by
  refine ⟨target_cwnd_exact, cong_target_cwnd_eq, by decide, ?_⟩
  intro c rs j s hrate hrtt hmss hgain hmin hmax hss hprobe hclamp
  have ht : cong_target_cwnd c rs j s = 2568 := by
    rw [cong_target_cwnd_eq, hrate, hrtt, hmss, hgain]
    decide
  have hsel : (cong_select c rs j s).2 = 2568 := by
    unfold cong_select
    simp only [cong_adapted_tp, ht, hrtt]
    rw [if_neg hss]
    have hp : ¬ (u32 ((cong_adapted c rs j s).ca.probe_cnt + 1) ≥
        lotspeed_probe_threshold (cong_adapted c rs j s).ca (max 2568 1) 20000) := by
      simpa using hprobe
    rw [if_neg hp]
  rw [cong_control_snd_cwnd, hsel, hmin, hmax]
  omega

/-- C6 witness: the formula at the numbers of the example, and one sample on a steady
connection under the defaults, which writes the window 2568. -/
theorem target_cwnd_formula_witness :
    lotspeed_target_cwnd 125000000 20000 1460 15 = 125000000 * 20000 / (1460 * 1000000) * 15 / 10 ∧
      (lotspeed_cong_control_impl default_config none 1 sock_steady).tp.snd_cwnd = 2568 :=
  ⟨target_cwnd_formula.1 125000000 20000 1460 15 (by decide) (by decide) (by decide),
   target_cwnd_formula.2.2.2 default_config none 1 sock_steady (by decide) (by decide)
     (by decide) (by decide) (by decide) (by decide) (by decide) (by decide) (by decide)⟩

/-! ## C7: the window arithmetic wraps -/

/-- C7 as stated fails: the four products wrap.  `2^63 * 2` gives 0 in `u64`;
`300000000 * 15`, `2^31 * 2` and `400000000 * 11` are reduced modulo `2^32`; none is the
exact product and none is the largest value of its type.  In on_sample, with rate
`2^28 * 1000`, RTT one second, MSS 1000 and gain 16 the quotient is `2^28`, the product
`2^28 * 16` wraps to 0 and the minimum window 50 is written, where the exact target
window is 429496729. -/
theorem window_arithmetic_saturation_counterexample :
    (cong_rate_rtt (2 ^ 63) 2 = 0 ∧ 2 ^ 63 * 2 = 2 ^ 64) ∧
    (cong_scaled 300000000 15 = 205032704 ∧ 300000000 * 15 = 4500000000 ∧
      205032704 ≠ 2 ^ 32 - 1) ∧
    (cong_doubled (2 ^ 31) = 0 ∧ 2 ^ 31 * 2 = 2 ^ 32) ∧
    (cong_probe_mul 400000000 = 105032704 ∧ 400000000 * 11 = 4400000000 ∧
      105032704 ≠ 2 ^ 32 - 1) ∧
    (cfg_wrap.wf ∧
      cong_target_cwnd cfg_wrap none 1
        (run cfg_wrap [Op.host tp_wrap, Op.set_state tcp_ca_state.TCP_CA_Open]
          (lotspeed_init cfg_wrap 0 0 sock0)) = 0 ∧
      (run cfg_wrap [Op.host tp_wrap, Op.set_state tcp_ca_state.TCP_CA_Open, Op.on_sample none 1]
          (lotspeed_init cfg_wrap 0 0 sock0)).tp.snd_cwnd = 50 ∧
      268435456000 * 1000000 / (1000 * 1000000) * 16 / 10 = 429496729) := by
  decide

theorem fits_iff (x n : Nat) (hn : 0 < n) : (x % n = x ↔ x < n) := by
  constructor
  · intro h
    rw [← h]
    exact Nat.mod_lt x hn
  · exact Nat.mod_eq_of_lt

theorem cong_select_wrapped (c : Config) (rs : Option rate_sample) (j : Nat) (s : Sock) :
    (cong_select c rs j s).2 =
      if (cong_adapted c rs j s).ca.ss_mode = true ∧ s.tp.snd_cwnd < s.tp.snd_ssthresh then
        (if s.tp.snd_cwnd * 2 % 2 ^ 32 ≥ cong_target_cwnd c rs j s then
          cong_target_cwnd c rs j s
        else s.tp.snd_cwnd * 2 % 2 ^ 32)
      else if ((cong_adapted c rs j s).ca.probe_cnt + 1) % 2 ^ 32 ≥
          lotspeed_probe_threshold (cong_adapted c rs j s).ca
            (max (cong_target_cwnd c rs j s) 1) (cong_rtt_us s) then
        cong_target_cwnd c rs j s * 11 % 2 ^ 32 / 10
      else cong_target_cwnd c rs j s := by
  unfold cong_select cong_doubled cong_probe_mul u32
  simp only [cong_adapted_tp]
  split_ifs <;> rfl

/-- C7 (amended): the window arithmetic of on_sample wraps, it does not saturate.  In
`lotspeed_cong_control_impl` the target window is built from `rate * rtt_us` reduced
modulo `2^64` and `quotient * gain` reduced modulo `2^32`; the window selected is the
target window, or `snd_cwnd * 2` reduced modulo `2^32` in slow start, or
`target_cwnd * 11` reduced modulo `2^32` and divided by 10 when the probe fires; and the
window written is that value between the configured limits and the host clamp.  Each
product equals the exact unbounded product exactly when that product fits its type. -/
theorem window_arithmetic_wraps (c : Config) (rs : Option rate_sample) (j : Nat) (s : Sock) :
    cong_target_cwnd c rs j s =
        ((cong_adapted c rs j s).ca.target_rate * cong_rtt_us s % 2 ^ 64 /
            (cong_mss s * 1000000 % 2 ^ 64) % 2 ^ 32 *
          (cong_adapted c rs j s).ca.cwnd_gain % 2 ^ 32 / 10) % 2 ^ 32 ∧
    (cong_select c rs j s).2 =
        (if (cong_adapted c rs j s).ca.ss_mode = true ∧ s.tp.snd_cwnd < s.tp.snd_ssthresh then
          (if s.tp.snd_cwnd * 2 % 2 ^ 32 ≥ cong_target_cwnd c rs j s then
            cong_target_cwnd c rs j s
          else s.tp.snd_cwnd * 2 % 2 ^ 32)
        else if ((cong_adapted c rs j s).ca.probe_cnt + 1) % 2 ^ 32 ≥
            lotspeed_probe_threshold (cong_adapted c rs j s).ca
              (max (cong_target_cwnd c rs j s) 1) (cong_rtt_us s) then
          cong_target_cwnd c rs j s * 11 % 2 ^ 32 / 10
        else cong_target_cwnd c rs j s) ∧
    (lotspeed_cong_control_impl c rs j s).tp.snd_cwnd =
        min (min (max (cong_select c rs j s).2 c.lotserver_min_cwnd) c.lotserver_max_cwnd)
          s.tp.snd_cwnd_clamp ∧
    (∀ rate rtt_us : Nat, cong_rate_rtt rate rtt_us = rate * rtt_us % 2 ^ 64 ∧
      (cong_rate_rtt rate rtt_us = rate * rtt_us ↔ rate * rtt_us < 2 ^ 64)) ∧
    (∀ q gain : Nat, cong_scaled q gain = q * gain % 2 ^ 32 ∧
      (cong_scaled q gain = q * gain ↔ q * gain < 2 ^ 32)) ∧
    (∀ snd_cwnd : Nat, cong_doubled snd_cwnd = snd_cwnd * 2 % 2 ^ 32 ∧
      (cong_doubled snd_cwnd = snd_cwnd * 2 ↔ snd_cwnd * 2 < 2 ^ 32)) ∧
    (∀ cwnd : Nat, cong_probe_mul cwnd = cwnd * 11 % 2 ^ 32 ∧
      (cong_probe_mul cwnd = cwnd * 11 ↔ cwnd * 11 < 2 ^ 32)) :=
  ⟨rfl, cong_select_wrapped c rs j s, cong_control_snd_cwnd c rs j s,
    fun _ _ => ⟨rfl, fits_iff _ _ (by norm_num)⟩,
    fun _ _ => ⟨rfl, fits_iff _ _ (by norm_num)⟩,
    fun _ => ⟨rfl, fits_iff _ _ (by norm_num)⟩,
    fun _ => ⟨rfl, fits_iff _ _ (by norm_num)⟩⟩

/-! ## C8 and C9: the probe threshold -/

theorem clamp_t_eq_spec_clamp (x lo hi : Nat) (h : lo ≤ hi) :
    clamp_t x lo hi = spec_clamp x lo hi := by
  unfold clamp_t spec_clamp
  split_ifs <;> omega

theorem probe_threshold_eq_spec (ca : lotspeed) (target_cwnd rtt_us : Nat) :
    lotspeed_probe_threshold ca target_cwnd rtt_us =
      spec_probe_threshold target_cwnd (probe_min_rtt_ms ca rtt_us) := by
  unfold lotspeed_probe_threshold spec_probe_threshold spec_cwnd_term spec_rtt_term
  simp only [LOTSPEED_PROBE_BASE, LOTSPEED_PROBE_MIN, LOTSPEED_PROBE_MAX]
  rw [clamp_t_eq_spec_clamp _ 4 60 (by norm_num), clamp_t_eq_spec_clamp _ 4 20 (by norm_num),
    clamp_t_eq_spec_clamp _ 8 80 (by norm_num)]

theorem probe_threshold_range (ca : lotspeed) (target_cwnd rtt_us : Nat) :
    8 ≤ lotspeed_probe_threshold ca target_cwnd rtt_us ∧
      lotspeed_probe_threshold ca target_cwnd rtt_us ≤ 80 := by
  unfold lotspeed_probe_threshold clamp_t
  simp only [LOTSPEED_PROBE_MIN, LOTSPEED_PROBE_MAX]
  omega

theorem probe_min_rtt_ms_exact (ca : lotspeed) (rtt_us : Nat)
    (h : probe_min_rtt ca rtt_us + 999 < 2 ^ 32) :
    probe_min_rtt_ms ca rtt_us = max 1 ((probe_min_rtt ca rtt_us + 999) / 1000) := by
  unfold probe_min_rtt_ms DIV_ROUND_UP u32
  have e : probe_min_rtt ca rtt_us + 1000 - 1 = probe_min_rtt ca rtt_us + 999 := by omega
  rw [e, Nat.mod_eq_of_lt h]

theorem probe_threshold_example (ca : lotspeed)
    (h : ca.rtt_min = 0 ∨ (20000 ≤ ca.rtt_min ∧ ca.rtt_min + 999 < 2 ^ 32)) :
    lotspeed_probe_threshold ca 1712 20000 = 9 := by
  have hms : 20 ≤ probe_min_rtt_ms ca 20000 := by
    unfold probe_min_rtt_ms probe_min_rtt DIV_ROUND_UP u32
    rcases h with h0 | ⟨h1, h2⟩
    · rw [h0]; decide
    · have hne : ca.rtt_min ≠ 0 := by omega
      rw [if_pos hne]
      omega
  have hq : 50 / probe_min_rtt_ms ca 20000 ≤ 2 :=
    Nat.le_trans (Nat.div_le_div_left hms (by norm_num)) (by norm_num)
  unfold lotspeed_probe_threshold clamp_t
  simp only [LOTSPEED_PROBE_BASE, LOTSPEED_PROBE_MIN, LOTSPEED_PROBE_MAX]
  have hc : 10000 / max 50 1712 = 5 := by decide
  rw [hc]
  omega

theorem probe_threshold_explicit (ca : lotspeed) (target_cwnd rtt_us : Nat)
    (h : (if ca.rtt_min ≠ 0 then ca.rtt_min else if rtt_us ≠ 0 then rtt_us else 1000) + 999 <
      2 ^ 32) :
    lotspeed_probe_threshold ca target_cwnd rtt_us =
      spec_probe_threshold target_cwnd
        (max 1 (((if ca.rtt_min ≠ 0 then ca.rtt_min
          else if rtt_us ≠ 0 then rtt_us else 1000) + 999) / 1000)) := by
  rw [probe_threshold_eq_spec, probe_min_rtt_ms_exact ca rtt_us h]
  rfl

/-- C8 as stated fails when `rtt_ms` is read as the argument `rtt_us` in milliseconds:
the code takes the recorded minimum RTT when there is one.  (1) With `rtt_min = 5000`
recorded, `target_cwnd = 1712` and `rtt_us = 20000` the function returns 15
(`rtt_term = clamp(50 / 5, 4, 20) = 10`), while the formula at `rtt_ms = 20` gives 9.
(2) The rounding up to milliseconds is a 32-bit sum: at `rtt_us = 2^32 - 1` with no
minimum RTT recorded, `rtt_us + 999` wraps to 998, `min_rtt_ms` is 1 and the function
returns 25, while the formula gives 9 at `rtt_ms = 4294967` and at `4294968`. -/
theorem probe_threshold_rtt_counterexample :
    (ca_rtt_min5ms.rtt_min = 5000 ∧
      lotspeed_probe_threshold ca_rtt_min5ms 1712 20000 = 15 ∧
      spec_probe_threshold 1712 (20000 / 1000) = 9) ∧
    (lotspeed_zero.rtt_min = 0 ∧
      lotspeed_probe_threshold lotspeed_zero 1712 4294967295 = 25 ∧
      spec_probe_threshold 1712 (4294967295 / 1000) = 9 ∧
      spec_probe_threshold 1712 ((4294967295 + 999) / 1000) = 9) := by
  decide

/-- C8 (amended): for every `target_cwnd` and `rtt_us`, `lotspeed_probe_threshold` returns
`clamp(cwnd_term + rtt_term, 8, 80)` with `cwnd_term = clamp(10000 / max(50, target_cwnd),
4, 60)` and `rtt_term = clamp(50 / rtt_ms, 4, 20)`, where `rtt_ms = max(1, ceil(m /
1000))` and `m` is the recorded `rtt_min` when it is non-zero, else `rtt_us` when it is
non-zero, else 1000 (for `m + 999 < 2^32`); the result always lies in [8, 80]; and for
`target_cwnd = 1712`, `rtt_us = 20000` with no smaller minimum RTT recorded the result
is exactly 9. -/
theorem probe_threshold_contract (ca : lotspeed) (target_cwnd rtt_us : Nat) :
    ((if ca.rtt_min ≠ 0 then ca.rtt_min else if rtt_us ≠ 0 then rtt_us else 1000) + 999 <
        2 ^ 32 →
      lotspeed_probe_threshold ca target_cwnd rtt_us =
        spec_probe_threshold target_cwnd
          (max 1 (((if ca.rtt_min ≠ 0 then ca.rtt_min
            else if rtt_us ≠ 0 then rtt_us else 1000) + 999) / 1000))) ∧
      8 ≤ lotspeed_probe_threshold ca target_cwnd rtt_us ∧
      lotspeed_probe_threshold ca target_cwnd rtt_us ≤ 80 ∧
      (ca.rtt_min = 0 ∨ (20000 ≤ ca.rtt_min ∧ ca.rtt_min + 999 < 2 ^ 32) →
        lotspeed_probe_threshold ca 1712 20000 = 9 ∧
          spec_cwnd_term 1712 = 5 ∧ spec_rtt_term 20 = 4) :=
  ⟨probe_threshold_explicit ca target_cwnd rtt_us,
    (probe_threshold_range ca target_cwnd rtt_us).1,
    (probe_threshold_range ca target_cwnd rtt_us).2,
    fun h => ⟨probe_threshold_example ca h, by decide, by decide⟩⟩

/-- C8 witness: a recorded minimum RTT of 5 ms with `rtt_us = 20000`, where
`rtt_ms = 5` and the result is 15; and the example of the specification with no minimum
RTT recorded and with a recorded minimum RTT of 35 ms, where the result is 9. -/
theorem probe_threshold_contract_witness :
    (lotspeed_probe_threshold ca_rtt_min5ms 1712 20000 =
        spec_probe_threshold 1712 (max 1 ((5000 + 999) / 1000)) ∧
      lotspeed_probe_threshold ca_rtt_min5ms 1712 20000 = 15) ∧
    lotspeed_probe_threshold lotspeed_zero 1712 20000 = 9 ∧
    lotspeed_probe_threshold ca_rtt_min35ms 1712 20000 = 9 :=
  ⟨⟨(probe_threshold_contract ca_rtt_min5ms 1712 20000).1 (by decide), by decide⟩,
   ((probe_threshold_contract lotspeed_zero 1712 20000).2.2.2 (by decide)).1,
   ((probe_threshold_contract ca_rtt_min35ms 1712 20000).2.2.2 (by decide)).1⟩

/-- C9 as stated fails: with no minimum RTT recorded and `rtt_us = 20000`, the target
window 50 has threshold 64 and the larger target window 10000 has threshold 8, so the
smaller window needs more samples before a probe, not fewer. -/
theorem probe_threshold_monotone_counterexample :
    lotspeed_probe_threshold lotspeed_zero 50 20000 = 64 ∧
      lotspeed_probe_threshold lotspeed_zero 10000 20000 = 8 ∧
      ¬ (lotspeed_probe_threshold lotspeed_zero 50 20000 ≤
          lotspeed_probe_threshold lotspeed_zero 10000 20000) := by
  decide

/-- C9 (amended): larger windows probe sooner.  For every connection state, `rtt_us` and
target windows `w1 <= w2`, `probe_threshold(w2, rtt_us) <= probe_threshold(w1, rtt_us)`:
a larger target window never needs more samples before an upward probe than a smaller
one. -/
theorem probe_threshold_antitone (ca : lotspeed) (rtt_us w1 w2 : Nat) (h : w1 ≤ w2) :
    lotspeed_probe_threshold ca w2 rtt_us ≤ lotspeed_probe_threshold ca w1 rtt_us := by
  have hd : LOTSPEED_PROBE_BASE / max 50 w2 ≤ LOTSPEED_PROBE_BASE / max 50 w1 :=
    Nat.div_le_div_left (by omega) (by omega)
  unfold lotspeed_probe_threshold clamp_t
  simp only [LOTSPEED_PROBE_MIN, LOTSPEED_PROBE_MAX]
  omega

/-- C9 witness: target windows 50 and 10000 at an RTT of 20 ms. -/
theorem probe_threshold_antitone_witness :
    lotspeed_probe_threshold lotspeed_zero 10000 20000 ≤
      lotspeed_probe_threshold lotspeed_zero 50 20000 :=
  probe_threshold_antitone lotspeed_zero 20000 50 10000 (by decide)

/-! ## C10: slow-start exit is a one-way latch -/

theorem update_rtt_ss_mode (s : Sock) :
    (lotspeed_update_rtt s).ca.ss_mode = s.ca.ss_mode := by
  unfold lotspeed_update_rtt
  simp only []
  split_ifs <;> rfl

theorem filter_ss_mode (c : Config) (rs : Option rate_sample) (j mss : Nat) (ca : lotspeed) :
    (lotspeed_adapt_rate_filter c rs j mss ca).1.ss_mode = ca.ss_mode := by
  unfold lotspeed_adapt_rate_filter
  cases rs with
  | none => rfl
  | some r =>
    simp only []
    split_ifs <;> rfl

theorem target_ss_mode (c : Config) (mss bw : Nat) (ca : lotspeed) :
    (lotspeed_adapt_rate_target c mss bw ca).ss_mode = ca.ss_mode := by
  unfold lotspeed_adapt_rate_target
  simp only []
  split_ifs <;> rfl

theorem rtt_check_ss_mode (c : Config) (min_rtt rtt_us : Nat) (ecn : Bool) (ca : lotspeed) :
    (lotspeed_adapt_rate_rtt_check c min_rtt rtt_us ecn ca).ss_mode = ca.ss_mode := by
  unfold lotspeed_adapt_rate_rtt_check
  simp only []
  split_ifs <;> rfl

theorem adapt_rate_ss_mode (c : Config) (rs : Option rate_sample) (j : Nat) (s : Sock) :
    (lotspeed_adapt_rate c rs j s).ca.ss_mode = s.ca.ss_mode := by
  unfold lotspeed_adapt_rate
  simp only [rtt_check_ss_mode]
  by_cases had : c.lotserver_adaptive = true
  · rw [if_pos had, target_ss_mode, filter_ss_mode]
  · rw [if_neg had]

theorem cong_adapted_ss_mode (c : Config) (rs : Option rate_sample) (j : Nat) (s : Sock) :
    (cong_adapted c rs j s).ca.ss_mode = s.ca.ss_mode := by
  unfold cong_adapted
  rw [adapt_rate_ss_mode, update_rtt_ss_mode]

theorem cong_control_ss_mode_latch (c : Config) (rs : Option rate_sample) (j : Nat) (s : Sock)
    (h : s.ca.ss_mode = false) : (lotspeed_cong_control_impl c rs j s).ca.ss_mode = false := by
  have h1 : (cong_adapted c rs j s).ca.ss_mode = false := by
    rw [cong_adapted_ss_mode]; exact h
  unfold lotspeed_cong_control_impl
  simp only []
  unfold cong_select
  simp only [h1]
  split_ifs <;> simp_all

theorem consume_turbo_ignore_ss_mode (ca : lotspeed) :
    (lotspeed_consume_turbo_ignore ca).ss_mode = ca.ss_mode := by
  unfold lotspeed_consume_turbo_ignore
  split_ifs <;> rfl

theorem turbo_should_ignore_ss_mode (c : Config) (ca : lotspeed) :
    (lotspeed_turbo_should_ignore c ca).1.ss_mode = ca.ss_mode := by
  unfold lotspeed_turbo_should_ignore
  simp only []
  split_ifs <;> rfl

theorem set_state_ss_mode_latch (c : Config) (st : tcp_ca_state) (s : Sock)
    (h : s.ca.ss_mode = false) : (lotspeed_set_state c st s).ca.ss_mode = false := by
  cases st with
  | TCP_CA_Loss =>
    unfold lotspeed_set_state
    simp only []
    split_ifs
    · simp only [consume_turbo_ignore_ss_mode, turbo_should_ignore_ss_mode]
      exact h
    · simp only [turbo_should_ignore_ss_mode]
      exact h
  | TCP_CA_Recovery =>
    unfold lotspeed_set_state
    simp only []
    split_ifs
    · exact h
    · exact h
  | TCP_CA_Open => rfl
  | TCP_CA_Disorder => exact h
  | TCP_CA_CWR => exact h

theorem ssthresh_ss_mode_latch (c : Config) (s : Sock) (h : s.ca.ss_mode = false) :
    (lotspeed_ssthresh c s).1.ca.ss_mode = false := by
  unfold lotspeed_ssthresh
  split_ifs
  · exact h
  · simp only [consume_turbo_ignore_ss_mode]
    exact h
  · exact h

theorem cwnd_event_ss_mode_latch (c : Config) (ev : tcp_ca_event) (s : Sock)
    (h : s.ca.ss_mode = false) (hev : is_restart (Op.cwnd_event ev) = false) :
    (lotspeed_cwnd_event c ev s).ca.ss_mode = false := by
  cases ev with
  | CA_EVENT_LOSS =>
    unfold lotspeed_cwnd_event
    simp only []
    split_ifs
    · simp only [consume_turbo_ignore_ss_mode]
      exact h
    · exact h
    · exact h
  | CA_EVENT_TX_START => exact absurd hev (by decide)
  | CA_EVENT_CWND_RESTART => exact absurd hev (by decide)
  | CA_EVENT_COMPLETE_CWR => exact h
  | CA_EVENT_ECN_NO_CE => exact h
  | CA_EVENT_ECN_IS_CE => exact h

/-- C10: slow-start exit is a one-way latch.  For every configuration and every
connection state with `ss_mode = false`, every call other than the restart events
(transmission restart, window restart), that is on_sample, set_state to any state, the
ssthresh query, undo_cwnd, every other cwnd event including the loss event, and host
updates of its own fields, leaves `ss_mode = false`. -/
theorem slow_start_exit_latch (c : Config) (op : Op) (s : Sock) (h : s.ca.ss_mode = false)
    (hop : is_restart op = false) : (step c op s).ca.ss_mode = false := by
  cases op with
  | on_sample rs j => exact cong_control_ss_mode_latch c rs j s h
  | set_state st => exact set_state_ss_mode_latch c st s h
  | ssthresh => exact ssthresh_ss_mode_latch c s h
  | undo_cwnd => rfl
  | cwnd_event ev => exact cwnd_event_ss_mode_latch c ev s h hop
  | host tp => exact h

/-- C10 witness: a sample on a connection that has entered Open. -/
theorem slow_start_exit_latch_witness :
    (step default_config (Op.on_sample (some rs_fast) 1) sock_steady).ca.ss_mode = false :=
  slow_start_exit_latch default_config (Op.on_sample (some rs_fast) 1) sock_steady (by decide) (by decide)

/-! ## C11: the minimum RTT -/

theorem update_rtt_rtt_min (s : Sock) :
    (lotspeed_update_rtt s).ca.rtt_min =
      if s.tp.srtt_us / 8 = 0 then s.ca.rtt_min
      else if s.ca.rtt_min = 0 ∨ s.tp.srtt_us / 8 < s.ca.rtt_min then s.tp.srtt_us / 8
      else s.ca.rtt_min := by
  unfold lotspeed_update_rtt
  simp only []
  split_ifs <;> rfl

theorem update_rtt_rtt_min_le (s : Sock) (h : s.ca.rtt_min ≠ 0) :
    (lotspeed_update_rtt s).ca.rtt_min ≤ s.ca.rtt_min ∧
      (lotspeed_update_rtt s).ca.rtt_min ≠ 0 := by
  rw [update_rtt_rtt_min]
  split_ifs <;> omega

theorem rtt_feed_rtt_min_le (x : Nat) (s : Sock) (h : s.ca.rtt_min ≠ 0) :
    (rtt_feed x s).ca.rtt_min ≤ s.ca.rtt_min ∧ (rtt_feed x s).ca.rtt_min ≠ 0 :=
  update_rtt_rtt_min_le _ h

theorem rtt_feed_all_rtt_min_ne_zero (xs : List Nat) :
    ∀ s : Sock, s.ca.rtt_min ≠ 0 → (rtt_feed_all xs s).ca.rtt_min ≠ 0 := by
  induction xs with
  | nil => intro s h; exact h
  | cons x xs ih => intro s h; exact ih _ (rtt_feed_rtt_min_le x s h).2

theorem rtt_feed_first (c : Config) (jiffies secs : Nat) (s0 : Sock) (x : Nat) (hx : 8 ≤ x) :
    (rtt_feed x (lotspeed_init c jiffies secs s0)).ca.rtt_min = x / 8 := by
  unfold rtt_feed
  rw [update_rtt_rtt_min]
  have h0 : x / 8 ≠ 0 := by omega
  simp [lotspeed_init, lotspeed_reset_turbo_budget, h0]

/-- C11 as stated fails at the first update: `lotspeed_init` leaves `rtt_min = 0` (no
sample yet) and the first non-zero sample, here 20 ms, raises it to 20000. -/
theorem rtt_min_first_sample_counterexample :
    (lotspeed_init default_config 0 0 sock0).ca.rtt_min = 0 ∧
      (rtt_feed 160000 (lotspeed_init default_config 0 0 sock0)).ca.rtt_min = 20000 ∧
      ¬ ((rtt_feed 160000 (lotspeed_init default_config 0 0 sock0)).ca.rtt_min ≤
          (lotspeed_init default_config 0 0 sock0).ca.rtt_min) := by
  decide

/-- C11 (amended): on a connection created by `lotspeed_init`, the first non-zero RTT
sample sets `rtt_min` from 0 (no sample yet) to that sample; after it, `rtt_min` is never
zero, and every further RTT filter update leaves `rtt_min` less than or equal to its value
before the update.  More generally an update never raises a non-zero `rtt_min` and never
makes it zero. -/
theorem rtt_min_non_increasing (c : Config) (jiffies secs : Nat) (s0 : Sock)
    (x : Nat) (xs : List Nat) (y : Nat) (hx : 8 ≤ x) (s : Sock) :
    (rtt_feed x (lotspeed_init c jiffies secs s0)).ca.rtt_min = x / 8 ∧
      (rtt_feed_all (x :: xs) (lotspeed_init c jiffies secs s0)).ca.rtt_min ≠ 0 ∧
      (rtt_feed y (rtt_feed_all (x :: xs) (lotspeed_init c jiffies secs s0))).ca.rtt_min ≤
        (rtt_feed_all (x :: xs) (lotspeed_init c jiffies secs s0)).ca.rtt_min ∧
      (s.ca.rtt_min ≠ 0 →
        (lotspeed_update_rtt s).ca.rtt_min ≤ s.ca.rtt_min ∧
          (lotspeed_update_rtt s).ca.rtt_min ≠ 0) := by
  have h1 := rtt_feed_first c jiffies secs s0 x hx
  have hne : (rtt_feed x (lotspeed_init c jiffies secs s0)).ca.rtt_min ≠ 0 := by
    rw [h1]; omega
  have h2 : (rtt_feed_all (x :: xs) (lotspeed_init c jiffies secs s0)).ca.rtt_min ≠ 0 :=
    rtt_feed_all_rtt_min_ne_zero xs _ hne
  exact ⟨h1, h2, (rtt_feed_rtt_min_le y _ h2).1, update_rtt_rtt_min_le s⟩

/-- C11 witness: samples of 20 ms, 30 ms and 15 ms, then one of 25 ms: the minimum is
15000 before and after the last update. -/
theorem rtt_min_non_increasing_witness :
    (rtt_feed 160000 (lotspeed_init default_config 0 0 sock0)).ca.rtt_min = 20000 ∧
      (rtt_feed_all [160000, 240000, 120000]
        (lotspeed_init default_config 0 0 sock0)).ca.rtt_min ≠ 0 ∧
      (rtt_feed 200000 (rtt_feed_all [160000, 240000, 120000]
          (lotspeed_init default_config 0 0 sock0))).ca.rtt_min ≤
        (rtt_feed_all [160000, 240000, 120000]
          (lotspeed_init default_config 0 0 sock0)).ca.rtt_min ∧
      (lotspeed_update_rtt sock_sampled).ca.rtt_min ≤ sock_sampled.ca.rtt_min :=
  ⟨(rtt_min_non_increasing default_config 0 0 sock0 160000 [240000, 120000] 200000
      (by decide) sock_sampled).1,
   (rtt_min_non_increasing default_config 0 0 sock0 160000 [240000, 120000] 200000
      (by decide) sock_sampled).2.1,
   (rtt_min_non_increasing default_config 0 0 sock0 160000 [240000, 120000] 200000
      (by decide) sock_sampled).2.2.1,
   ((rtt_min_non_increasing default_config 0 0 sock0 160000 [240000, 120000] 200000
      (by decide) sock_sampled).2.2.2 (by decide)).1⟩

/-! ## C12: the windowed maximum of the bandwidth filter -/

theorem target_bw_window_max (c : Config) (mss bw : Nat) (ca : lotspeed) :
    (lotspeed_adapt_rate_target c mss bw ca).bw_window_max = ca.bw_window_max := by
  unfold lotspeed_adapt_rate_target
  simp only []
  split_ifs <;> rfl

theorem target_actual_rate (c : Config) (mss bw : Nat) (ca : lotspeed) :
    (lotspeed_adapt_rate_target c mss bw ca).actual_rate = ca.actual_rate := by
  unfold lotspeed_adapt_rate_target
  simp only []
  split_ifs <;> rfl

theorem rtt_check_bw_window_max (c : Config) (min_rtt rtt_us : Nat) (ecn : Bool)
    (ca : lotspeed) :
    (lotspeed_adapt_rate_rtt_check c min_rtt rtt_us ecn ca).bw_window_max = ca.bw_window_max := by
  unfold lotspeed_adapt_rate_rtt_check
  simp only []
  split_ifs <;> rfl

theorem rtt_check_actual_rate (c : Config) (min_rtt rtt_us : Nat) (ecn : Bool)
    (ca : lotspeed) :
    (lotspeed_adapt_rate_rtt_check c min_rtt rtt_us ecn ca).actual_rate = ca.actual_rate := by
  unfold lotspeed_adapt_rate_rtt_check
  simp only []
  split_ifs <;> rfl

theorem adapt_rate_bw_window_max (c : Config) (rs : Option rate_sample) (j : Nat) (s : Sock)
    (had : c.lotserver_adaptive = true) :
    (lotspeed_adapt_rate c rs j s).ca.bw_window_max =
      (lotspeed_adapt_rate_filter c rs j
        (if s.tp.mss_cache ≠ 0 then s.tp.mss_cache else 1460) s.ca).1.bw_window_max := by
  unfold lotspeed_adapt_rate
  simp only [rtt_check_bw_window_max]
  rw [if_pos had, target_bw_window_max]

theorem adapt_rate_actual_rate (c : Config) (rs : Option rate_sample) (j : Nat) (s : Sock)
    (had : c.lotserver_adaptive = true) :
    (lotspeed_adapt_rate c rs j s).ca.actual_rate =
      (lotspeed_adapt_rate_filter c rs j
        (if s.tp.mss_cache ≠ 0 then s.tp.mss_cache else 1460) s.ca).1.actual_rate := by
  unfold lotspeed_adapt_rate
  simp only [rtt_check_actual_rate]
  rw [if_pos had, target_actual_rate]

theorem filter_no_decay (c : Config) (r : rate_sample) (j mss : Nat) (ca : lotspeed)
    (hv : valid_sample r) (hd : ¬ is_decay_step c r j ca) :
    ca.bw_window_max ≤ (lotspeed_adapt_rate_filter c (some r) j mss ca).1.bw_window_max := by
  unfold is_decay_step at hd
  unfold valid_sample at hv
  unfold lotspeed_adapt_rate_filter
  simp only [hv, and_self, if_true]
  split_ifs <;> simp_all <;> omega

theorem filter_decay (c : Config) (r : rate_sample) (j mss : Nat) (ca : lotspeed)
    (hv : valid_sample r) (hd : is_decay_step c r j ca) :
    (lotspeed_adapt_rate_filter c (some r) j mss ca).1.actual_rate ≤
      (lotspeed_adapt_rate_filter c (some r) j mss ca).1.bw_window_max := by
  unfold is_decay_step at hd
  unfold valid_sample at hv
  have hne : ca.bw_window_max ≠ 0 := by omega
  have hlt : ¬ (lotspeed_sample_bw r ≥ ca.bw_window_max) := by omega
  unfold lotspeed_adapt_rate_filter
  simp only [hv, and_self, if_true]
  split_ifs <;> simp_all
  omega

/-- C12: in adaptive mode, for every adapt step that carries a valid rate sample, the
new `bw_window_max` is at least the old one unless the step is a decay step (sample below
the current maximum and the window stamp older than the 200 ms window), and after every
decay step the new `bw_window_max` is at least the new `actual_rate`. -/
theorem bw_window_max_steps (c : Config) (r : rate_sample) (jiffies : Nat) (s : Sock)
    (had : c.lotserver_adaptive = true) (hv : valid_sample r) :
    (¬ is_decay_step c r jiffies s.ca →
      s.ca.bw_window_max ≤ (lotspeed_adapt_rate c (some r) jiffies s).ca.bw_window_max) ∧
    (is_decay_step c r jiffies s.ca →
      (lotspeed_adapt_rate c (some r) jiffies s).ca.actual_rate ≤
        (lotspeed_adapt_rate c (some r) jiffies s).ca.bw_window_max) := by
  constructor
  · intro hd
    rw [adapt_rate_bw_window_max c _ _ _ had]
    exact filter_no_decay c r jiffies _ s.ca hv hd
  · intro hd
    rw [adapt_rate_bw_window_max c _ _ _ had, adapt_rate_actual_rate c _ _ _ had]
    exact filter_decay c r jiffies _ s.ca hv hd

/-- C12 witness: after a fast sample at tick 1, a second fast sample at tick 2 is not a
decay step, and a slow sample at tick 1000 is one. -/
theorem bw_window_max_steps_witness :
    sock_fast_seen.ca.bw_window_max ≤
        (lotspeed_adapt_rate default_config (some rs_fast) 2 sock_fast_seen).ca.bw_window_max ∧
      (lotspeed_adapt_rate default_config (some rs_slow) 1000 sock_fast_seen).ca.actual_rate ≤
        (lotspeed_adapt_rate default_config (some rs_slow) 1000 sock_fast_seen).ca.bw_window_max :=
  ⟨(bw_window_max_steps default_config rs_fast 2 sock_fast_seen (by decide) (by decide)).1
      (by decide),
   (bw_window_max_steps default_config rs_slow 1000 sock_fast_seen (by decide) (by decide)).2
      (by decide)⟩

/-! ## C13: undoing a loss -/

/-- C13: for every connection state `lotspeed_undo_cwnd` sets `loss_count` to 0 and
`ss_mode` to false, changes nothing else, and returns `max(snd_cwnd, prior_cwnd)`; so for
every prior window at least the current window it returns the prior window, and calling
it again on the resulting state returns the same value and leaves the state unchanged. -/
theorem undo_cwnd_restores (s : Sock) :
    (lotspeed_undo_cwnd s).1.ca.loss_count = 0 ∧
      (lotspeed_undo_cwnd s).1.ca.ss_mode = false ∧
      (lotspeed_undo_cwnd s).1 =
        { s with ca := { s.ca with loss_count := 0, ss_mode := false } } ∧
      (lotspeed_undo_cwnd s).2 = max s.tp.snd_cwnd s.tp.prior_cwnd ∧
      (s.tp.snd_cwnd ≤ s.tp.prior_cwnd → (lotspeed_undo_cwnd s).2 = s.tp.prior_cwnd) ∧
      (lotspeed_undo_cwnd (lotspeed_undo_cwnd s).1).2 = (lotspeed_undo_cwnd s).2 ∧
      (lotspeed_undo_cwnd (lotspeed_undo_cwnd s).1).1 = (lotspeed_undo_cwnd s).1 := by
  refine ⟨rfl, rfl, rfl, rfl, ?_, rfl, rfl⟩
  intro h
  exact Nat.max_eq_right h

/-- C13 witness: after a loss with the window cut from 100 to 70, undo returns 100 and
clears the loss count. -/
theorem undo_cwnd_restores_witness :
    sock_after_loss.ca.loss_count = 1 ∧
      (lotspeed_undo_cwnd sock_after_loss).1.ca.loss_count = 0 ∧
      (lotspeed_undo_cwnd sock_after_loss).2 = 100 :=
  ⟨by decide, (undo_cwnd_restores sock_after_loss).1,
   ((undo_cwnd_restores sock_after_loss).2.2.2.2.1 (by decide)).trans (by decide)⟩

/-! ## C14: the loss event -/

theorem consume_turbo_ignore_turbo_budget (ca : lotspeed) :
    (lotspeed_consume_turbo_ignore ca).turbo_budget = ca.turbo_budget := by
  unfold lotspeed_consume_turbo_ignore
  split_ifs <;> rfl

theorem loss_event_turbo_budget (c : Config) (s : Sock) :
    (loss_event c s).ca.turbo_budget = s.ca.turbo_budget := by
  unfold loss_event lotspeed_cwnd_event
  simp only []
  split_ifs
  · simp only [consume_turbo_ignore_turbo_budget]
  · rfl
  · rfl

theorem loss_event_ignored (c : Config) (s : Sock) (ht : c.lotserver_turbo = true)
    (h : c.lotserver_soft_turbo = false ∨ 0 < s.ca.turbo_ignore_ref) :
    (loss_event c s).ca.loss_count = s.ca.loss_count ∧
      (loss_event c s).ca.cwnd_gain = s.ca.cwnd_gain ∧
      (loss_event c s).ca.turbo_ignore_ref = s.ca.turbo_ignore_ref - 1 := by
  have hc : c.lotserver_turbo = true ∧
      ((!c.lotserver_soft_turbo) = true ∨ lotspeed_turbo_ignore_active s.ca = true) := by
    refine ⟨ht, ?_⟩
    rcases h with h | h
    · left; simp [h]
    · right; simp [lotspeed_turbo_ignore_active, h]
  unfold loss_event lotspeed_cwnd_event
  simp only []
  rw [if_pos hc]
  refine ⟨consume_turbo_ignore_loss_count _, consume_turbo_ignore_cwnd_gain _, ?_⟩
  unfold lotspeed_consume_turbo_ignore
  split_ifs with h0
  · rfl
  · simp only []
    omega

theorem loss_event_penalised (c : Config) (s : Sock)
    (h : c.lotserver_turbo = false ∨
      (c.lotserver_soft_turbo = true ∧ s.ca.turbo_ignore_ref = 0)) :
    (loss_event c s).ca.loss_count = u32 (s.ca.loss_count + 1) ∧
      (loss_event c s).ca.cwnd_gain = max (sub32 s.ca.cwnd_gain 5) LOTSPEED_MIN_GAIN := by
  have hc : ¬ (c.lotserver_turbo = true ∧
      ((!c.lotserver_soft_turbo) = true ∨ lotspeed_turbo_ignore_active s.ca = true)) := by
    rcases h with h | ⟨h1, h2⟩
    · simp [h]
    · simp [h1, h2, lotspeed_turbo_ignore_active]
  have hp : (!c.lotserver_turbo) = true ∨ c.lotserver_soft_turbo = true := by
    rcases h with h | ⟨h1, _⟩
    · left; simp [h]
    · right; exact h1
  unfold loss_event lotspeed_cwnd_event
  simp only []
  rw [if_neg hc, if_pos hp]
  exact ⟨rfl, rfl⟩

/-- C14 as stated fails: the loss event does not consult the turbo budget.  (a) With
soft turbo, budget 2 and no ignore reference, a loss event on a fresh connection is
penalised (`loss_count` 0 to 1, `cwnd_gain` 15 to 10) and the budget stays 2.  (b) With a
configured budget of 1, after one ignored entering-Loss the budget is 0 and the ignore
reference is 2; the loss event that follows is ignored. -/
theorem loss_event_budget_counterexample :
    ((lotspeed_init cfg_soft_turbo 0 0 sock0).ca.turbo_budget = 2 ∧
      (loss_event cfg_soft_turbo (lotspeed_init cfg_soft_turbo 0 0 sock0)).ca.loss_count = 1 ∧
      (loss_event cfg_soft_turbo (lotspeed_init cfg_soft_turbo 0 0 sock0)).ca.cwnd_gain = 10 ∧
      (loss_event cfg_soft_turbo (lotspeed_init cfg_soft_turbo 0 0 sock0)).ca.turbo_budget = 2) ∧
    ((run cfg_soft_budget1 (loss_burst 1)
        (lotspeed_init cfg_soft_budget1 0 0 sock0)).ca.turbo_budget = 0 ∧
      (run cfg_soft_budget1 (loss_burst 1)
        (lotspeed_init cfg_soft_budget1 0 0 sock0)).ca.turbo_ignore_ref = 2 ∧
      (loss_event cfg_soft_budget1 (run cfg_soft_budget1 (loss_burst 1)
        (lotspeed_init cfg_soft_budget1 0 0 sock0))).ca.loss_count = 0 ∧
      (loss_event cfg_soft_budget1 (run cfg_soft_budget1 (loss_burst 1)
        (lotspeed_init cfg_soft_budget1 0 0 sock0))).ca.cwnd_gain = 15) := by
  decide

/-- C14 (amended): the loss event decides by the ignore reference, not by the budget.
With turbo on and either soft turbo off or an active ignore reference
(`turbo_ignore_ref > 0`, left by an ignored entering-Loss), the loss event is ignored:
`loss_count` and `cwnd_gain` are unchanged and one unit of `turbo_ignore_ref` is consumed.
With turbo off, or with soft turbo on and no active ignore reference, it is penalised:
`loss_count` is incremented and `cwnd_gain = max(cwnd_gain - 5, MIN_GAIN)` (32-bit
arithmetic; exact for `5 <= cwnd_gain < 2^32`).  In every case `turbo_budget` is left
unchanged. -/
theorem loss_event_policy (c : Config) (s : Sock) :
    (c.lotserver_turbo = true →
      (c.lotserver_soft_turbo = false ∨ 0 < s.ca.turbo_ignore_ref) →
      (loss_event c s).ca.loss_count = s.ca.loss_count ∧
        (loss_event c s).ca.cwnd_gain = s.ca.cwnd_gain ∧
        (loss_event c s).ca.turbo_ignore_ref = s.ca.turbo_ignore_ref - 1) ∧
    ((c.lotserver_turbo = false ∨
        (c.lotserver_soft_turbo = true ∧ s.ca.turbo_ignore_ref = 0)) →
      (loss_event c s).ca.loss_count = u32 (s.ca.loss_count + 1) ∧
        (loss_event c s).ca.cwnd_gain = max (sub32 s.ca.cwnd_gain 5) LOTSPEED_MIN_GAIN ∧
        (5 ≤ s.ca.cwnd_gain → s.ca.cwnd_gain < 2 ^ 32 →
          (loss_event c s).ca.cwnd_gain = max (s.ca.cwnd_gain - 5) LOTSPEED_MIN_GAIN)) ∧
    (loss_event c s).ca.turbo_budget = s.ca.turbo_budget := by
  refine ⟨loss_event_ignored c s, ?_, loss_event_turbo_budget c s⟩
  intro h
  have hp := loss_event_penalised c s h
  refine ⟨hp.1, hp.2, ?_⟩
  intro h5 hlt
  rw [hp.2]
  have e : sub32 s.ca.cwnd_gain 5 = s.ca.cwnd_gain - 5 := by
    unfold sub32
    split_ifs <;> omega
  rw [e]

/-- C14 witness: soft turbo with budget 1.  After one ignored entering-Loss the loss
event is ignored and consumes a unit of the ignore reference; on the fresh connection it
is penalised, from gain 15 to 10. -/
theorem loss_event_policy_witness :
    ((loss_event cfg_soft_budget1 (run cfg_soft_budget1 (loss_burst 1)
          (lotspeed_init cfg_soft_budget1 0 0 sock0))).ca.loss_count = 0 ∧
      (loss_event cfg_soft_budget1 (run cfg_soft_budget1 (loss_burst 1)
          (lotspeed_init cfg_soft_budget1 0 0 sock0))).ca.turbo_ignore_ref = 1) ∧
    ((loss_event cfg_soft_budget1 (lotspeed_init cfg_soft_budget1 0 0 sock0)).ca.loss_count = 1 ∧
      (loss_event cfg_soft_budget1 (lotspeed_init cfg_soft_budget1 0 0 sock0)).ca.cwnd_gain =
        10) :=
  ⟨⟨((loss_event_policy cfg_soft_budget1 (run cfg_soft_budget1 (loss_burst 1)
        (lotspeed_init cfg_soft_budget1 0 0 sock0))).1 (by decide) (by decide)).1,
    ((loss_event_policy cfg_soft_budget1 (run cfg_soft_budget1 (loss_burst 1)
        (lotspeed_init cfg_soft_budget1 0 0 sock0))).1 (by decide) (by decide)).2.2⟩,
   ⟨((loss_event_policy cfg_soft_budget1
        (lotspeed_init cfg_soft_budget1 0 0 sock0)).2.1 (by decide)).1,
    ((loss_event_policy cfg_soft_budget1
        (lotspeed_init cfg_soft_budget1 0 0 sock0)).2.1 (by decide)).2.2 (by decide)
        (by decide)⟩⟩

/-! ## C15: the restart events -/

/-- C15 as stated fails for the transmission restart: `CA_EVENT_TX_START` does not
clear `loss_count`.  After one penalised loss (`loss_count = 1`) a transmission restart
leaves `loss_count = 1`, while a window restart clears it.  The budget set by both is the
clamped one: with `lotserver_soft_turbo_budget = 9` it is 8. -/
theorem restart_events_counterexample :
    (sock_after_loss.ca.loss_count = 1 ∧
      (lotspeed_cwnd_event default_config tcp_ca_event.CA_EVENT_TX_START
        sock_after_loss).ca.loss_count = 1 ∧
      (lotspeed_cwnd_event default_config tcp_ca_event.CA_EVENT_CWND_RESTART
        sock_after_loss).ca.loss_count = 0) ∧
    (cfg_soft_budget9.lotserver_soft_turbo_budget = 9 ∧
      (lotspeed_cwnd_event cfg_soft_budget9 tcp_ca_event.CA_EVENT_TX_START
        sock_after_loss).ca.turbo_budget = 8) := by
  decide

/-- C15 (amended): for every connection state, after either restart event
(`CA_EVENT_TX_START` or `CA_EVENT_CWND_RESTART`) `ss_mode` is true, `probe_cnt` is 0,
`turbo_ignore_ref` is 0 and `turbo_budget` equals the budget in effect,
`lotspeed_get_turbo_budget` (`clamp(lotserver_soft_turbo_budget, 1, 8)` with soft turbo
on, 0 with soft turbo off).  After the window restart `loss_count` is 0 as well. -/
theorem restart_events_reset (c : Config) (s : Sock) :
    ((lotspeed_cwnd_event c tcp_ca_event.CA_EVENT_TX_START s).ca.ss_mode = true ∧
      (lotspeed_cwnd_event c tcp_ca_event.CA_EVENT_TX_START s).ca.probe_cnt = 0 ∧
      (lotspeed_cwnd_event c tcp_ca_event.CA_EVENT_TX_START s).ca.turbo_ignore_ref = 0 ∧
      (lotspeed_cwnd_event c tcp_ca_event.CA_EVENT_TX_START s).ca.turbo_budget =
        lotspeed_get_turbo_budget c) ∧
    ((lotspeed_cwnd_event c tcp_ca_event.CA_EVENT_CWND_RESTART s).ca.ss_mode = true ∧
      (lotspeed_cwnd_event c tcp_ca_event.CA_EVENT_CWND_RESTART s).ca.probe_cnt = 0 ∧
      (lotspeed_cwnd_event c tcp_ca_event.CA_EVENT_CWND_RESTART s).ca.turbo_ignore_ref = 0 ∧
      (lotspeed_cwnd_event c tcp_ca_event.CA_EVENT_CWND_RESTART s).ca.turbo_budget =
        lotspeed_get_turbo_budget c ∧
      (lotspeed_cwnd_event c tcp_ca_event.CA_EVENT_CWND_RESTART s).ca.loss_count = 0) ∧
    lotspeed_get_turbo_budget c =
      (if c.lotserver_soft_turbo then clamp_t c.lotserver_soft_turbo_budget 1 8 else 0) := by
  refine ⟨⟨rfl, rfl, rfl, rfl⟩, ⟨rfl, rfl, rfl, rfl, rfl⟩, ?_⟩
  unfold lotspeed_get_turbo_budget u8 clamp_t
  split_ifs
  · omega
  · rfl

/-! ## C16: the turbo budget -/

theorem update_rtt_turbo_budget (s : Sock) :
    (lotspeed_update_rtt s).ca.turbo_budget = s.ca.turbo_budget := by
  unfold lotspeed_update_rtt
  simp only []
  split_ifs <;> rfl

theorem filter_turbo_budget (c : Config) (rs : Option rate_sample) (j mss : Nat)
    (ca : lotspeed) :
    (lotspeed_adapt_rate_filter c rs j mss ca).1.turbo_budget = ca.turbo_budget := by
  unfold lotspeed_adapt_rate_filter
  cases rs with
  | none => rfl
  | some r =>
    simp only []
    split_ifs <;> rfl

theorem target_turbo_budget (c : Config) (mss bw : Nat) (ca : lotspeed) :
    (lotspeed_adapt_rate_target c mss bw ca).turbo_budget = ca.turbo_budget := by
  unfold lotspeed_adapt_rate_target
  simp only []
  split_ifs <;> rfl

theorem rtt_check_turbo_budget (c : Config) (min_rtt rtt_us : Nat) (ecn : Bool)
    (ca : lotspeed) :
    (lotspeed_adapt_rate_rtt_check c min_rtt rtt_us ecn ca).turbo_budget = ca.turbo_budget := by
  unfold lotspeed_adapt_rate_rtt_check
  simp only []
  split_ifs <;> rfl

theorem adapt_rate_turbo_budget (c : Config) (rs : Option rate_sample) (j : Nat) (s : Sock) :
    (lotspeed_adapt_rate c rs j s).ca.turbo_budget = s.ca.turbo_budget := by
  unfold lotspeed_adapt_rate
  simp only [rtt_check_turbo_budget]
  by_cases had : c.lotserver_adaptive = true
  · rw [if_pos had, target_turbo_budget, filter_turbo_budget]
  · rw [if_neg had]

theorem cong_control_turbo_budget (c : Config) (rs : Option rate_sample) (j : Nat) (s : Sock) :
    (lotspeed_cong_control_impl c rs j s).ca.turbo_budget = s.ca.turbo_budget := by
  have h1 : (cong_adapted c rs j s).ca.turbo_budget = s.ca.turbo_budget := by
    unfold cong_adapted
    rw [adapt_rate_turbo_budget, update_rtt_turbo_budget]
  unfold lotspeed_cong_control_impl
  simp only []
  unfold cong_select
  simp only []
  split_ifs <;> exact h1

theorem turbo_should_ignore_turbo_budget_le (c : Config) (ca : lotspeed) :
    (lotspeed_turbo_should_ignore c ca).1.turbo_budget ≤ ca.turbo_budget := by
  unfold lotspeed_turbo_should_ignore
  simp only []
  split_ifs <;> simp

theorem set_state_turbo_budget_le (c : Config) (st : tcp_ca_state) (s : Sock)
    (hst : is_budget_reset (Op.set_state st) = false) :
    (lotspeed_set_state c st s).ca.turbo_budget ≤ s.ca.turbo_budget := by
  cases st with
  | TCP_CA_Loss =>
    unfold lotspeed_set_state
    simp only []
    split_ifs
    · simp only [consume_turbo_ignore_turbo_budget]
      exact turbo_should_ignore_turbo_budget_le c s.ca
    · exact turbo_should_ignore_turbo_budget_le c s.ca
  | TCP_CA_Recovery =>
    unfold lotspeed_set_state
    simp only []
    split_ifs
    · exact Nat.le_refl _
    · exact Nat.le_refl _
  | TCP_CA_Open => exact absurd hst (by decide)
  | TCP_CA_Disorder => exact Nat.le_refl _
  | TCP_CA_CWR => exact Nat.le_refl _

theorem ssthresh_turbo_budget (c : Config) (s : Sock) :
    (lotspeed_ssthresh c s).1.ca.turbo_budget = s.ca.turbo_budget := by
  unfold lotspeed_ssthresh
  split_ifs
  · rfl
  · simp only [consume_turbo_ignore_turbo_budget]
  · rfl

theorem step_turbo_budget_le (c : Config) (op : Op) (s : Sock)
    (hop : is_budget_reset op = false) :
    (step c op s).ca.turbo_budget ≤ s.ca.turbo_budget := by
  cases op with
  | on_sample rs j => exact Nat.le_of_eq (cong_control_turbo_budget c rs j s)
  | set_state st => exact set_state_turbo_budget_le c st s hop
  | ssthresh => exact Nat.le_of_eq (ssthresh_turbo_budget c s)
  | undo_cwnd => exact Nat.le_refl _
  | cwnd_event ev =>
    cases ev with
    | CA_EVENT_LOSS => exact Nat.le_of_eq (loss_event_turbo_budget c s)
    | CA_EVENT_TX_START => exact absurd hop (by decide)
    | CA_EVENT_CWND_RESTART => exact absurd hop (by decide)
    | CA_EVENT_COMPLETE_CWR => exact Nat.le_refl _
    | CA_EVENT_ECN_NO_CE => exact Nat.le_refl _
    | CA_EVENT_ECN_IS_CE => exact Nat.le_refl _
  | host tp => exact Nat.le_refl _

theorem step_turbo_budget_cap (c : Config) (op : Op) (s : Sock)
    (h : s.ca.turbo_budget ≤ lotspeed_get_turbo_budget c) :
    (step c op s).ca.turbo_budget ≤ lotspeed_get_turbo_budget c := by
  by_cases hop : is_budget_reset op = false
  · exact Nat.le_trans (step_turbo_budget_le c op s hop) h
  · cases op with
    | on_sample rs j => exact absurd rfl hop
    | set_state st =>
      cases st with
      | TCP_CA_Open => exact Nat.le_refl _
      | TCP_CA_Loss => exact absurd rfl hop
      | TCP_CA_Recovery => exact absurd rfl hop
      | TCP_CA_Disorder => exact absurd rfl hop
      | TCP_CA_CWR => exact absurd rfl hop
    | ssthresh => exact absurd rfl hop
    | undo_cwnd => exact absurd rfl hop
    | cwnd_event ev =>
      cases ev with
      | CA_EVENT_LOSS => exact absurd rfl hop
      | CA_EVENT_TX_START => exact Nat.le_refl _
      | CA_EVENT_CWND_RESTART => exact Nat.le_refl _
      | CA_EVENT_COMPLETE_CWR => exact absurd rfl hop
      | CA_EVENT_ECN_NO_CE => exact absurd rfl hop
      | CA_EVENT_ECN_IS_CE => exact absurd rfl hop
    | host tp => exact absurd rfl hop

theorem run_turbo_budget_cap (c : Config) (ops : List Op) :
    ∀ s : Sock, s.ca.turbo_budget ≤ lotspeed_get_turbo_budget c →
      (run c ops s).ca.turbo_budget ≤ lotspeed_get_turbo_budget c := by
  induction ops with
  | nil => intro s h; exact h
  | cons op ops ih => intro s h; exact ih _ (step_turbo_budget_cap c op s h)

theorem get_turbo_budget_le (c : Config) :
    lotspeed_get_turbo_budget c ≤ 8 ∧
      (1 ≤ c.lotserver_soft_turbo_budget →
        lotspeed_get_turbo_budget c ≤ c.lotserver_soft_turbo_budget) := by
  unfold lotspeed_get_turbo_budget u8 clamp_t
  split_ifs <;> omega

/-- C16 as stated fails for a configured budget of 0 with soft turbo on: the budget in
effect is clamped to at least 1, so a freshly opened connection has `turbo_budget = 1`,
above `lotserver_soft_turbo_budget = 0`. -/
theorem turbo_budget_cap_counterexample :
    cfg_soft_budget0.lotserver_soft_turbo_budget = 0 ∧
      (run cfg_soft_budget0 [] (lotspeed_init cfg_soft_budget0 0 0 sock0)).ca.turbo_budget = 1 ∧
      ¬ ((run cfg_soft_budget0 [] (lotspeed_init cfg_soft_budget0 0 0 sock0)).ca.turbo_budget ≤
          cfg_soft_budget0.lotserver_soft_turbo_budget) := by
  decide

/-- C16 (amended): under a fixed configuration, in every state reachable from
`lotspeed_init`, `turbo_budget` is at most the budget in effect
`lotspeed_get_turbo_budget` (`clamp(lotserver_soft_turbo_budget, 1, 8)` with soft turbo
on, 0 with it off), hence at most 8, and at most `lotserver_soft_turbo_budget` whenever
that is at least 1; and every call other than an explicit reset (entering Open,
transmission restart, window restart) leaves `turbo_budget` less than or equal to its
previous value. -/
theorem turbo_budget_bounded (c : Config) (jiffies secs : Nat) (s0 : Sock) (ops : List Op)
    (op : Op) (s : Sock) :
    (run c ops (lotspeed_init c jiffies secs s0)).ca.turbo_budget ≤
        lotspeed_get_turbo_budget c ∧
      lotspeed_get_turbo_budget c ≤ 8 ∧
      (1 ≤ c.lotserver_soft_turbo_budget →
        (run c ops (lotspeed_init c jiffies secs s0)).ca.turbo_budget ≤
          c.lotserver_soft_turbo_budget) ∧
      (is_budget_reset op = false → (step c op s).ca.turbo_budget ≤ s.ca.turbo_budget) := by
  have h0 : (lotspeed_init c jiffies secs s0).ca.turbo_budget ≤ lotspeed_get_turbo_budget c :=
    Nat.le_refl _
  have h1 := run_turbo_budget_cap c ops _ h0
  exact ⟨h1, (get_turbo_budget_le c).1,
    fun hb => Nat.le_trans h1 ((get_turbo_budget_le c).2 hb),
    step_turbo_budget_le c op s⟩

/-- C16 witness: soft turbo with budget 2; after a mixed call sequence the budget is at
most 2, and an entering-Loss on a fresh connection lowers it. -/
theorem turbo_budget_bounded_witness :
    (run cfg_soft_turbo ops_mixed (lotspeed_init cfg_soft_turbo 0 0 sock0)).ca.turbo_budget ≤ 2 ∧
      (step cfg_soft_turbo (Op.set_state tcp_ca_state.TCP_CA_Loss)
          (lotspeed_init cfg_soft_turbo 0 0 sock0)).ca.turbo_budget ≤
        (lotspeed_init cfg_soft_turbo 0 0 sock0).ca.turbo_budget :=
  ⟨(turbo_budget_bounded cfg_soft_turbo 0 0 sock0 ops_mixed
      (Op.set_state tcp_ca_state.TCP_CA_Loss) (lotspeed_init cfg_soft_turbo 0 0 sock0)).2.2.1
      (by decide),
   (turbo_budget_bounded cfg_soft_turbo 0 0 sock0 ops_mixed
      (Op.set_state tcp_ca_state.TCP_CA_Loss) (lotspeed_init cfg_soft_turbo 0 0 sock0)).2.2.2
      (by decide)⟩

/-! ## C17: the ssthresh query -/

theorem ssthresh_penalised (c : Config) (s : Sock)
    (h : c.lotserver_turbo = false ∨
      (c.lotserver_soft_turbo = true ∧ s.ca.turbo_ignore_ref = 0)) :
    lotspeed_ssthresh c s =
      ({ s with ca := { s.ca with
            loss_count := u32 (s.ca.loss_count + 1)
            cwnd_gain := max (u32 (s.ca.cwnd_gain * 8) / 10) LOTSPEED_MIN_GAIN } },
        max (u32 (s.tp.snd_cwnd * 7) / 10) c.lotserver_min_cwnd) := by
  have h1 : ¬ (c.lotserver_turbo = true ∧ (!c.lotserver_soft_turbo) = true) := by
    rcases h with h | ⟨h, _⟩ <;> simp [h]
  have h2 : ¬ (c.lotserver_turbo = true ∧ lotspeed_turbo_ignore_active s.ca = true) := by
    rcases h with h | ⟨_, h⟩ <;> simp [h, lotspeed_turbo_ignore_active]
  unfold lotspeed_ssthresh
  rw [if_neg h1, if_neg h2]

theorem ssthresh_consumes (c : Config) (s : Sock) (ht : c.lotserver_turbo = true)
    (hs : c.lotserver_soft_turbo = true) (hr : 0 < s.ca.turbo_ignore_ref) :
    lotspeed_ssthresh c s =
      ({ s with ca := { s.ca with turbo_ignore_ref := s.ca.turbo_ignore_ref - 1 } },
        TCP_INFINITE_SSTHRESH) := by
  have h1 : ¬ (c.lotserver_turbo = true ∧ (!c.lotserver_soft_turbo) = true) := by simp [hs]
  have h2 : c.lotserver_turbo = true ∧ lotspeed_turbo_ignore_active s.ca = true := by
    simp [ht, hr, lotspeed_turbo_ignore_active]
  unfold lotspeed_ssthresh
  rw [if_neg h1, if_pos h2]
  unfold lotspeed_consume_turbo_ignore
  rw [if_pos hr]

theorem ssthresh_hard_turbo (c : Config) (s : Sock) (ht : c.lotserver_turbo = true)
    (hs : c.lotserver_soft_turbo = false) :
    lotspeed_ssthresh c s = (s, TCP_INFINITE_SSTHRESH) := by
  have h1 : c.lotserver_turbo = true ∧ (!c.lotserver_soft_turbo) = true := by simp [ht, hs]
  unfold lotspeed_ssthresh
  rw [if_pos h1]

/-- C17 as stated fails: (a) with hard turbo (turbo on, soft turbo off) and an active
ignore reference (2, left by an entering-Loss) the query returns the infinite value
without consuming the reference, which stays 2; (b) the products are 32-bit: from
`cwnd_gain = 2^29` the penalised gain is 10 where `max(2^29 * 8 / 10, 10) = 429496729`, and
with `snd_cwnd = 700000000` the value returned is 60503270 where
`max(700000000 * 7 / 10, 50) = 490000000`. -/
theorem ssthresh_query_counterexample :
    ((run cfg_hard_turbo (loss_burst 1)
        (lotspeed_init cfg_hard_turbo 0 0 sock0)).ca.turbo_ignore_ref = 2 ∧
      (lotspeed_ssthresh cfg_hard_turbo (run cfg_hard_turbo (loss_burst 1)
        (lotspeed_init cfg_hard_turbo 0 0 sock0))).1.ca.turbo_ignore_ref = 2 ∧
      (lotspeed_ssthresh cfg_hard_turbo (run cfg_hard_turbo (loss_burst 1)
        (lotspeed_init cfg_hard_turbo 0 0 sock0))).2 = TCP_INFINITE_SSTHRESH) ∧
    ((lotspeed_init cfg_gain_big 0 0 sock0).ca.cwnd_gain = 536870912 ∧
      (lotspeed_ssthresh cfg_gain_big (lotspeed_init cfg_gain_big 0 0 sock0)).1.ca.cwnd_gain =
        10 ∧
      max (536870912 * 8 / 10) LOTSPEED_MIN_GAIN = 429496729) ∧
    ((lotspeed_ssthresh default_config
        (run default_config [Op.host tp_big_cwnd]
          (lotspeed_init default_config 0 0 sock0))).2 = 60503270 ∧
      max (700000000 * 7 / 10) default_config.lotserver_min_cwnd = 490000000) := by
  decide

/-- C17 (amended): for every connection state in which the ssthresh query is not
suppressed (turbo off, or soft turbo on with no active ignore reference),
`lotspeed_ssthresh` increments `loss_count` by one, sets `cwnd_gain` to
`max(cwnd_gain * 8 / 10, MIN_GAIN)`, changes nothing else and returns
`max(snd_cwnd * 7 / 10, lotserver_min_cwnd)`, the increment and both products being
32-bit (exact whenever they fit in 32 bits).  With turbo on, soft turbo on and an active
ignore reference it decrements `turbo_ignore_ref` by one, changes nothing else and returns
the infinite value.  With turbo on and soft turbo off it returns the infinite value and
changes nothing, the ignore reference included. -/
theorem ssthresh_query (c : Config) (s : Sock) :
    ((c.lotserver_turbo = false ∨
        (c.lotserver_soft_turbo = true ∧ s.ca.turbo_ignore_ref = 0)) →
      lotspeed_ssthresh c s =
          ({ s with ca := { s.ca with
                loss_count := u32 (s.ca.loss_count + 1)
                cwnd_gain := max (u32 (s.ca.cwnd_gain * 8) / 10) LOTSPEED_MIN_GAIN } },
            max (u32 (s.tp.snd_cwnd * 7) / 10) c.lotserver_min_cwnd) ∧
        (s.ca.loss_count + 1 < 2 ^ 32 → s.ca.cwnd_gain * 8 < 2 ^ 32 →
          s.tp.snd_cwnd * 7 < 2 ^ 32 →
          (lotspeed_ssthresh c s).1.ca.loss_count = s.ca.loss_count + 1 ∧
            (lotspeed_ssthresh c s).1.ca.cwnd_gain =
              max (s.ca.cwnd_gain * 8 / 10) LOTSPEED_MIN_GAIN ∧
            (lotspeed_ssthresh c s).2 =
              max (s.tp.snd_cwnd * 7 / 10) c.lotserver_min_cwnd)) ∧
    (c.lotserver_turbo = true → c.lotserver_soft_turbo = true → 0 < s.ca.turbo_ignore_ref →
      lotspeed_ssthresh c s =
        ({ s with ca := { s.ca with turbo_ignore_ref := s.ca.turbo_ignore_ref - 1 } },
          TCP_INFINITE_SSTHRESH)) ∧
    (c.lotserver_turbo = true → c.lotserver_soft_turbo = false →
      lotspeed_ssthresh c s = (s, TCP_INFINITE_SSTHRESH)) := by
  refine ⟨?_, ssthresh_consumes c s, ssthresh_hard_turbo c s⟩
  intro h
  have hp := ssthresh_penalised c s h
  refine ⟨hp, ?_⟩
  intro hl hg hw
  rw [hp]
  simp only [u32, Nat.mod_eq_of_lt hl, Nat.mod_eq_of_lt hg, Nat.mod_eq_of_lt hw]
  exact ⟨trivial, trivial, trivial⟩

/-- C17 witness: under the defaults (turbo off) a query on the steady connection with
window 10 gives `loss_count` 1, gain 12 and returns 50; with soft turbo, after one
ignored entering-Loss, the query consumes one unit of the ignore reference. -/
theorem ssthresh_query_witness :
    ((lotspeed_ssthresh default_config sock_steady).1.ca.loss_count = 1 ∧
      (lotspeed_ssthresh default_config sock_steady).1.ca.cwnd_gain = 12 ∧
      (lotspeed_ssthresh default_config sock_steady).2 = 50) ∧
    (lotspeed_ssthresh cfg_soft_turbo (run cfg_soft_turbo (loss_burst 1)
        (lotspeed_init cfg_soft_turbo 0 0 sock0))).2 = TCP_INFINITE_SSTHRESH ∧
    (lotspeed_ssthresh cfg_hard_turbo sock_steady).2 = TCP_INFINITE_SSTHRESH :=
  ⟨((ssthresh_query default_config sock_steady).1 (by decide)).2 (by decide) (by decide)
      (by decide),
   congrArg Prod.snd ((ssthresh_query cfg_soft_turbo (run cfg_soft_turbo (loss_burst 1)
      (lotspeed_init cfg_soft_turbo 0 0 sock0))).2.1 (by decide) (by decide) (by decide)),
   congrArg Prod.snd ((ssthresh_query cfg_hard_turbo sock_steady).2.2 (by decide) (by decide))⟩

/-! ## C18: the pacing rate -/

theorem cong_control_pacing (c : Config) (rs : Option rate_sample) (j : Nat) (s : Sock) :
    (lotspeed_cong_control_impl c rs j s).tp.sk_pacing_rate =
      u64 ((cong_adapted c rs j s).ca.target_rate +
        (cong_adapted c rs j s).ca.target_rate / 4) := rfl

/-- C18 as stated fails when the sum does not fit in 64 bits: with
`lotserver_rate = 2^64 - 1` the target rate after adaptation is `2^64 - 1` and the pacing
rate written is `2^62 - 2`, not `target_rate + target_rate / 4`. -/
theorem pacing_rate_counterexample :
    cfg_rate_max.wf ∧
      (cong_adapted cfg_rate_max none 1
        (lotspeed_init cfg_rate_max 0 0 sock0)).ca.target_rate = 18446744073709551615 ∧
      (run cfg_rate_max [Op.on_sample none 1]
        (lotspeed_init cfg_rate_max 0 0 sock0)).tp.sk_pacing_rate = 4611686018427387902 ∧
      18446744073709551615 + 18446744073709551615 / 4 ≠ 4611686018427387902 := by
  decide

/-- C18 (amended): for every on_sample call the pacing rate written is
`target_rate + floor(target_rate / 4)` reduced modulo `2^64`, where `target_rate` is the
target rate in effect after rate adaptation; it equals `target_rate + floor(target_rate /
4)` exactly whenever that sum is below `2^64`. -/
theorem pacing_rate_formula (c : Config) (rs : Option rate_sample) (j : Nat) (s : Sock) :
    (lotspeed_cong_control_impl c rs j s).tp.sk_pacing_rate =
        ((cong_adapted c rs j s).ca.target_rate +
          (cong_adapted c rs j s).ca.target_rate / 4) % 2 ^ 64 ∧
      ((cong_adapted c rs j s).ca.target_rate +
          (cong_adapted c rs j s).ca.target_rate / 4 < 2 ^ 64 →
        (lotspeed_cong_control_impl c rs j s).tp.sk_pacing_rate =
          (cong_adapted c rs j s).ca.target_rate +
            (cong_adapted c rs j s).ca.target_rate / 4) := by
  refine ⟨cong_control_pacing c rs j s, ?_⟩
  intro h
  rw [cong_control_pacing]
  exact Nat.mod_eq_of_lt h

/-- C18 witness: the default rate 125,000,000 gives a pacing rate of 156,250,000. -/
theorem pacing_rate_formula_witness :
    (lotspeed_cong_control_impl default_config none 1 sock_steady).tp.sk_pacing_rate =
      125000000 + 125000000 / 4 :=
  (pacing_rate_formula default_config none 1 sock_steady).2 (by decide)

/-! ## C19: adaptation with adaptive mode off -/

theorem rtt_check_only_gain (c : Config) (min_rtt rtt_us : Nat) (ecn : Bool) (ca : lotspeed) :
    lotspeed_adapt_rate_rtt_check c min_rtt rtt_us ecn ca =
      { ca with cwnd_gain := (lotspeed_adapt_rate_rtt_check c min_rtt rtt_us ecn ca).cwnd_gain } := by
  unfold lotspeed_adapt_rate_rtt_check
  simp only []
  split_ifs <;> rfl

/-- C19: with adaptive mode disabled, for every connection state and rate sample,
`lotspeed_adapt_rate` leaves `target_rate`, `actual_rate`, `bw_window_max`,
`bw_window_stamp`, `bytes_sent` and `loss_count` unchanged; the whole connection is
unchanged except for `cwnd_gain`, which is the result of the RTT-threshold check. -/
theorem adapt_rate_fixed_mode (c : Config) (rs : Option rate_sample) (jiffies : Nat) (s : Sock)
    (had : c.lotserver_adaptive = false) :
    (lotspeed_adapt_rate c rs jiffies s).ca.target_rate = s.ca.target_rate ∧
      (lotspeed_adapt_rate c rs jiffies s).ca.actual_rate = s.ca.actual_rate ∧
      (lotspeed_adapt_rate c rs jiffies s).ca.bw_window_max = s.ca.bw_window_max ∧
      (lotspeed_adapt_rate c rs jiffies s).ca.bw_window_stamp = s.ca.bw_window_stamp ∧
      (lotspeed_adapt_rate c rs jiffies s).ca.bytes_sent = s.ca.bytes_sent ∧
      (lotspeed_adapt_rate c rs jiffies s).ca.loss_count = s.ca.loss_count ∧
      lotspeed_adapt_rate c rs jiffies s =
        { s with ca := { s.ca with
            cwnd_gain := (lotspeed_adapt_rate c rs jiffies s).ca.cwnd_gain } } ∧
      (lotspeed_adapt_rate c rs jiffies s).ca.cwnd_gain =
        (lotspeed_adapt_rate_rtt_check c (adapt_min_rtt s) (s.tp.srtt_us / 8) (adapt_ecn rs)
          s.ca).cwnd_gain := by
  have hne : ¬ (c.lotserver_adaptive = true) := by simp [had]
  have key : lotspeed_adapt_rate c rs jiffies s =
      { s with ca := (lotspeed_adapt_rate_rtt_check c (adapt_min_rtt s) (s.tp.srtt_us / 8)
          (adapt_ecn rs) s.ca) } := by
    unfold lotspeed_adapt_rate
    simp only []
    rw [if_neg hne]
  have hg := rtt_check_only_gain c (adapt_min_rtt s) (s.tp.srtt_us / 8) (adapt_ecn rs) s.ca
  rw [key]
  generalize lotspeed_adapt_rate_rtt_check c (adapt_min_rtt s) (s.tp.srtt_us / 8)
    (adapt_ecn rs) s.ca = r at hg ⊢
  have e1 : r.target_rate = s.ca.target_rate := by rw [hg]
  have e2 : r.actual_rate = s.ca.actual_rate := by rw [hg]
  have e3 : r.bw_window_max = s.ca.bw_window_max := by rw [hg]
  have e4 : r.bw_window_stamp = s.ca.bw_window_stamp := by rw [hg]
  have e5 : r.bytes_sent = s.ca.bytes_sent := by rw [hg]
  have e6 : r.loss_count = s.ca.loss_count := by rw [hg]
  have e7 : ({ s with ca := r } : Sock) =
      { s with ca := { s.ca with cwnd_gain := r.cwnd_gain } } := by rw [hg]
  exact ⟨e1, e2, e3, e4, e5, e6, e7, rfl⟩

/-- C19 witness: adaptive mode off; a fast sample leaves the rate fields of a fresh
connection untouched. -/
theorem adapt_rate_fixed_mode_witness :
    (lotspeed_adapt_rate cfg_fixed (some rs_fast) 1
        (lotspeed_init cfg_fixed 0 0 sock0)).ca.target_rate = 125000000 ∧
      (lotspeed_adapt_rate cfg_fixed (some rs_fast) 1
        (lotspeed_init cfg_fixed 0 0 sock0)).ca.actual_rate = 0 :=
  ⟨(adapt_rate_fixed_mode cfg_fixed (some rs_fast) 1
      (lotspeed_init cfg_fixed 0 0 sock0) (by decide)).1,
   (adapt_rate_fixed_mode cfg_fixed (some rs_fast) 1
      (lotspeed_init cfg_fixed 0 0 sock0) (by decide)).2.1⟩

/-! ## C20: entering Recovery -/

theorem enter_recovery_gain (c : Config) (s : Sock) (ht : c.lotserver_turbo = false) :
    (enter_recovery c s).ca.cwnd_gain = max (u32 (s.ca.cwnd_gain * 9) / 10) 15 := by
  have h : (!c.lotserver_turbo) = true := by simp [ht]
  unfold enter_recovery lotspeed_set_state
  simp only []
  rw [if_pos h]

theorem enter_recovery_turbo (c : Config) (s : Sock) (ht : c.lotserver_turbo = true) :
    enter_recovery c s = s := by
  have h : ¬ ((!c.lotserver_turbo) = true) := by simp [ht]
  unfold enter_recovery lotspeed_set_state
  simp only []
  rw [if_neg h]

/-- C20 as stated fails: (a) with turbo off and `cwnd_gain = 10` (the default gain 15
after two penalised losses), entering Recovery sets `cwnd_gain` to its floor 15, larger
than before; (b) the product is 32-bit: from `cwnd_gain = 2^29` the new gain is 53687091
where `max(2^29 * 9 / 10, 15) = 483183820`. -/
theorem enter_recovery_counterexample :
    (sock_gain10.ca.cwnd_gain = 10 ∧
      (enter_recovery default_config sock_gain10).ca.cwnd_gain = 15 ∧
      ¬ ((enter_recovery default_config sock_gain10).ca.cwnd_gain ≤
          sock_gain10.ca.cwnd_gain)) ∧
    ((lotspeed_init cfg_gain_big 0 0 sock0).ca.cwnd_gain = 536870912 ∧
      (enter_recovery cfg_gain_big (lotspeed_init cfg_gain_big 0 0 sock0)).ca.cwnd_gain =
        53687091 ∧
      max (536870912 * 9 / 10) 15 = 483183820) := by
  decide

/-- C20 (amended): with turbo off, entering Recovery sets `cwnd_gain` to
`max(cwnd_gain * 9 / 10, 15)`, the product being 32-bit (exact for `cwnd_gain * 9 <
2^32`).  The new gain is never larger than the gain before the call when that was at
least 15; a gain below 15 is raised to 15.  With turbo on, entering Recovery changes
nothing. -/
theorem enter_recovery_policy (c : Config) (s : Sock) :
    (c.lotserver_turbo = false →
      (enter_recovery c s).ca.cwnd_gain = max (u32 (s.ca.cwnd_gain * 9) / 10) 15 ∧
        (s.ca.cwnd_gain * 9 < 2 ^ 32 →
          (enter_recovery c s).ca.cwnd_gain = max (s.ca.cwnd_gain * 9 / 10) 15) ∧
        (15 ≤ s.ca.cwnd_gain → (enter_recovery c s).ca.cwnd_gain ≤ s.ca.cwnd_gain) ∧
        (s.ca.cwnd_gain < 15 → (enter_recovery c s).ca.cwnd_gain = 15)) ∧
    (c.lotserver_turbo = true → enter_recovery c s = s) := by
  refine ⟨?_, enter_recovery_turbo c s⟩
  intro ht
  have hg := enter_recovery_gain c s ht
  have h9 := wrap_mul9_div_le s.ca.cwnd_gain
  refine ⟨hg, ?_, ?_, ?_⟩
  · intro hfit
    rw [hg]
    unfold u32
    rw [Nat.mod_eq_of_lt hfit]
  · intro h15
    rw [hg]
    omega
  · intro hlt
    rw [hg]
    omega

/-- C20 witness: under the defaults, gain 15 stays 15 (`max(13, 15)`), a gain of 10 is
raised to 15, and with hard turbo nothing changes. -/
theorem enter_recovery_policy_witness :
    (enter_recovery default_config sock_steady).ca.cwnd_gain ≤ sock_steady.ca.cwnd_gain ∧
      (enter_recovery default_config sock_gain10).ca.cwnd_gain = 15 ∧
      (enter_recovery default_config sock_steady).ca.cwnd_gain = max (15 * 9 / 10) 15 ∧
      enter_recovery cfg_hard_turbo sock_steady = sock_steady :=
  ⟨((enter_recovery_policy default_config sock_steady).1 (by decide)).2.2.1 (by decide),
   ((enter_recovery_policy default_config sock_gain10).1 (by decide)).2.2.2 (by decide),
   ((enter_recovery_policy default_config sock_steady).1 (by decide)).2.1 (by decide),
   (enter_recovery_policy cfg_hard_turbo sock_steady).2 (by decide)⟩

/-! ## C25: the smoothed RTT and its deviation -/


theorem s32_of_lt (x : Nat) (h : x < 2 ^ 31) : s32 x = (x : Int) := by
  unfold s32
  have e : x % 2 ^ 32 = x := Nat.mod_eq_of_lt (by omega)
  rw [e, if_pos h]

theorem u32_of_int_of_range (i : Int) (h0 : 0 ≤ i) (h1 : i < 2 ^ 32) :
    ((u32_of_int i : Nat) : Int) = i := by
  unfold u32_of_int
  omega

theorem wrap_s32_of_range (i : Int) (h0 : -(2 ^ 31) ≤ i) (h1 : i < 2 ^ 31) :
    wrap_s32 i = i := by
  unfold wrap_s32 s32 u32_of_int
  split_ifs <;> omega



theorem update_rtt_rtt_ema (s : Sock) :
    (lotspeed_update_rtt s).ca.rtt_ema =
      if s.tp.srtt_us / 8 = 0 then s.ca.rtt_ema
      else if s.ca.rtt_ema = 0 then s.tp.srtt_us / 8
      else u32_of_int ((s.ca.rtt_ema : Int) + rtt_delta s / 8) := by
  unfold lotspeed_update_rtt
  simp only []
  split_ifs <;> rfl

theorem update_rtt_rtt_var (s : Sock) :
    (lotspeed_update_rtt s).ca.rtt_var =
      if s.tp.srtt_us / 8 = 0 then s.ca.rtt_var
      else if s.ca.rtt_ema = 0 then s.tp.srtt_us / 8 / 8
      else u32_of_int ((s.ca.rtt_var : Int) + rtt_dvar s / 4) := by
  unfold lotspeed_update_rtt rtt_dvar rtt_abs_delta rtt_delta
  simp only []
  split_ifs <;> rfl

theorem ema_step_exact (e x : Nat) (he : e < 2 ^ 31) (hx : x < 2 ^ 31) :
    ((u32_of_int ((e : Int) + wrap_s32 (s32 x - s32 e) / 8) : Nat) : Int) =
      (e : Int) + ((x : Int) - (e : Int)) / 8 := by
  rw [s32_of_lt x hx, s32_of_lt e he, wrap_s32_of_range _ (by omega) (by omega)]
  apply u32_of_int_of_range <;> omega

theorem ema_step_between (e x : Nat) (he : e < 2 ^ 31) (hx : x < 2 ^ 31) :
    min e x ≤ u32_of_int ((e : Int) + wrap_s32 (s32 x - s32 e) / 8) ∧
      u32_of_int ((e : Int) + wrap_s32 (s32 x - s32 e) / 8) ≤ max e x := by
  have h := ema_step_exact e x he hx
  omega



theorem abs_delta_exact (e x : Nat) (he : e < 2 ^ 31) (hx : x < 2 ^ 31) :
    ((u32_of_int
      (if wrap_s32 (s32 x - s32 e) < 0 then wrap_s32 (-wrap_s32 (s32 x - s32 e))
        else wrap_s32 (s32 x - s32 e)) : Nat) : Int) =
      (if (x : Int) < e then (e : Int) - x else (x : Int) - e) := by
  rw [s32_of_lt x hx, s32_of_lt e he, wrap_s32_of_range _ (by omega) (by omega)]
  split_ifs with h1 h2 h2
  · rw [wrap_s32_of_range _ (by omega) (by omega),
      u32_of_int_of_range _ (by omega) (by omega)]
    omega
  · omega
  · omega
  · rw [u32_of_int_of_range _ (by omega) (by omega)]

theorem var_step_nonneg (a v : Nat) (ha : a < 2 ^ 31) :
    0 ≤ (v : Int) + wrap_s32 (s32 a - s32 v) / 4 := by
  rw [s32_of_lt a ha]
  unfold wrap_s32 s32 u32_of_int
  split_ifs <;> omega

theorem var_step_exact (a v : Nat) (ha : a < 2 ^ 31) (hv : v < 2 ^ 31) :
    ((u32_of_int ((v : Int) + wrap_s32 (s32 a - s32 v) / 4) : Nat) : Int) =
      (v : Int) + ((a : Int) - (v : Int)) / 4 := by
  rw [s32_of_lt a ha, s32_of_lt v hv, wrap_s32_of_range _ (by omega) (by omega)]
  apply u32_of_int_of_range <;> omega

theorem rtt_delta_exact (s : Sock) (he : s.ca.rtt_ema < 2 ^ 31)
    (hs : s.tp.srtt_us / 8 < 2 ^ 31) :
    rtt_delta s = ((s.tp.srtt_us / 8 : Nat) : Int) - (s.ca.rtt_ema : Int) := by
  unfold rtt_delta
  rw [s32_of_lt _ hs, s32_of_lt _ he, wrap_s32_of_range _ (by omega) (by omega)]

theorem rtt_abs_delta_exact (s : Sock) (he : s.ca.rtt_ema < 2 ^ 31)
    (hs : s.tp.srtt_us / 8 < 2 ^ 31) :
    ((rtt_abs_delta s : Nat) : Int) =
      (if ((s.tp.srtt_us / 8 : Nat) : Int) < (s.ca.rtt_ema : Int)
        then (s.ca.rtt_ema : Int) - ((s.tp.srtt_us / 8 : Nat) : Int)
        else ((s.tp.srtt_us / 8 : Nat) : Int) - (s.ca.rtt_ema : Int)) := by
  unfold rtt_abs_delta rtt_delta
  exact abs_delta_exact s.ca.rtt_ema (s.tp.srtt_us / 8) he hs

theorem update_rtt_ema_between (s : Sock) (he0 : s.ca.rtt_ema ≠ 0) (he : s.ca.rtt_ema < 2 ^ 31)
    (hs0 : s.tp.srtt_us / 8 ≠ 0) (hs : s.tp.srtt_us / 8 < 2 ^ 31) :
    min s.ca.rtt_ema (s.tp.srtt_us / 8) ≤ (lotspeed_update_rtt s).ca.rtt_ema ∧
      (lotspeed_update_rtt s).ca.rtt_ema ≤ max s.ca.rtt_ema (s.tp.srtt_us / 8) := by
  rw [update_rtt_rtt_ema, if_neg hs0, if_neg he0]
  unfold rtt_delta
  exact ema_step_between s.ca.rtt_ema (s.tp.srtt_us / 8) he hs

theorem update_rtt_var_no_wrap (s : Sock) (he0 : s.ca.rtt_ema ≠ 0) (he : s.ca.rtt_ema < 2 ^ 31)
    (hs0 : s.tp.srtt_us / 8 ≠ 0) (hs : s.tp.srtt_us / 8 < 2 ^ 31) :
    (lotspeed_update_rtt s).ca.rtt_var =
        u32_of_int ((s.ca.rtt_var : Int) + rtt_dvar s / 4) ∧
      0 ≤ (s.ca.rtt_var : Int) + rtt_dvar s / 4 ∧
      (s.ca.rtt_var < 2 ^ 31 →
        min s.ca.rtt_var (rtt_abs_delta s) ≤ (lotspeed_update_rtt s).ca.rtt_var ∧
          (lotspeed_update_rtt s).ca.rtt_var ≤ max s.ca.rtt_var (rtt_abs_delta s)) := by
  have ha := rtt_abs_delta_exact s he hs
  have ha31 : rtt_abs_delta s < 2 ^ 31 := by
    split_ifs at ha <;> omega
  have h1 : (lotspeed_update_rtt s).ca.rtt_var =
      u32_of_int ((s.ca.rtt_var : Int) + rtt_dvar s / 4) := by
    rw [update_rtt_rtt_var, if_neg hs0, if_neg he0]
  refine ⟨h1, ?_, ?_⟩
  · unfold rtt_dvar
    exact var_step_nonneg _ _ ha31
  · intro hv
    have h2 := var_step_exact (rtt_abs_delta s) s.ca.rtt_var ha31 hv
    rw [h1]
    unfold rtt_dvar
    omega

theorem rtt_feed_ema_range (y : Nat) (s : Sock) (hy : y < 2 ^ 32)
    (h : s.ca.rtt_ema ≠ 0 ∧ s.ca.rtt_ema < 2 ^ 29) :
    (rtt_feed y s).ca.rtt_ema ≠ 0 ∧ (rtt_feed y s).ca.rtt_ema < 2 ^ 29 := by
  unfold rtt_feed
  by_cases h0 : y / 8 = 0
  · rw [update_rtt_rtt_ema]
    simp only [h0, if_true]
    exact h
  · have hy29 : y / 8 < 2 ^ 29 := by omega
    have he31 : s.ca.rtt_ema < 2 ^ 31 := by have := h.2; omega
    have hy31 : y / 8 < 2 ^ 31 := by omega
    have hb := update_rtt_ema_between { s with tp := { s.tp with srtt_us := y } } h.1
      he31 h0 hy31
    have hb1 : min s.ca.rtt_ema (y / 8) ≤
        (lotspeed_update_rtt { s with tp := { s.tp with srtt_us := y } }).ca.rtt_ema := hb.1
    have hb2 : (lotspeed_update_rtt { s with tp := { s.tp with srtt_us := y } }).ca.rtt_ema ≤
        max s.ca.rtt_ema (y / 8) := hb.2
    have hmax : max s.ca.rtt_ema (y / 8) < 2 ^ 29 := max_lt h.2 hy29
    have hmin : 0 < min s.ca.rtt_ema (y / 8) :=
      lt_min (Nat.pos_of_ne_zero h.1) (Nat.pos_of_ne_zero h0)
    exact ⟨Nat.pos_iff_ne_zero.mp (Nat.lt_of_lt_of_le hmin hb1), Nat.lt_of_le_of_lt hb2 hmax⟩

theorem rtt_feed_all_ema_range (xs : List Nat) :
    ∀ s : Sock, (∀ y ∈ xs, y < 2 ^ 32) → (s.ca.rtt_ema ≠ 0 ∧ s.ca.rtt_ema < 2 ^ 29) →
      (rtt_feed_all xs s).ca.rtt_ema ≠ 0 ∧ (rtt_feed_all xs s).ca.rtt_ema < 2 ^ 29 := by
  induction xs with
  | nil => intro s _ h; exact h
  | cons x xs ih =>
    intro s hxs h
    exact ih _ (fun y hy => hxs y (List.mem_cons_of_mem x hy))
      (rtt_feed_ema_range x s (hxs x (List.mem_cons_self x xs)) h)

theorem rtt_feed_first_ema (c : Config) (jiffies secs : Nat) (s0 : Sock) (x : Nat)
    (hx : 8 ≤ x) :
    (rtt_feed x (lotspeed_init c jiffies secs s0)).ca.rtt_ema = x / 8 := by
  unfold rtt_feed
  rw [update_rtt_rtt_ema]
  have h0 : x / 8 ≠ 0 := by omega
  simp [lotspeed_init, lotspeed_reset_turbo_budget, lotspeed_zero, h0]

/-- C25: for every RTT filter update with previous `rtt_ema = e > 0` and a non-zero
sample, both below `2^31`, the new `rtt_ema` lies between `min(e, sample)` and
`max(e, sample)` and is therefore non-zero; the `rtt_var` update does not wrap below zero
(the signed sum `rtt_var + ((s32)abs_delta - (s32)rtt_var) >> 2` is non-negative, and for
`rtt_var < 2^31` the new `rtt_var` lies between the old one and `abs_delta`).  On a
connection created by `lotspeed_init`, after the first non-zero sample `rtt_ema` is
non-zero after every further update, so the seeding branch (`rtt_ema == 0`) is not taken a
second time. -/
theorem rtt_ema_filter (s : Sock) (c : Config) (jiffies secs : Nat) (s0 : Sock)
    (x : Nat) (xs : List Nat)
    (he0 : s.ca.rtt_ema ≠ 0) (he : s.ca.rtt_ema < 2 ^ 31)
    (hs0 : s.tp.srtt_us / 8 ≠ 0) (hs : s.tp.srtt_us / 8 < 2 ^ 31)
    (hx : 8 ≤ x) (hxs : ∀ y ∈ x :: xs, y < 2 ^ 32) :
    (min s.ca.rtt_ema (s.tp.srtt_us / 8) ≤ (lotspeed_update_rtt s).ca.rtt_ema ∧
      (lotspeed_update_rtt s).ca.rtt_ema ≤ max s.ca.rtt_ema (s.tp.srtt_us / 8) ∧
      (lotspeed_update_rtt s).ca.rtt_ema ≠ 0) ∧
    ((lotspeed_update_rtt s).ca.rtt_var =
        u32_of_int ((s.ca.rtt_var : Int) + rtt_dvar s / 4) ∧
      0 ≤ (s.ca.rtt_var : Int) + rtt_dvar s / 4 ∧
      (s.ca.rtt_var < 2 ^ 31 →
        min s.ca.rtt_var (rtt_abs_delta s) ≤ (lotspeed_update_rtt s).ca.rtt_var ∧
          (lotspeed_update_rtt s).ca.rtt_var ≤ max s.ca.rtt_var (rtt_abs_delta s))) ∧
    ((rtt_feed x (lotspeed_init c jiffies secs s0)).ca.rtt_ema = x / 8 ∧
      (rtt_feed_all (x :: xs) (lotspeed_init c jiffies secs s0)).ca.rtt_ema ≠ 0) := by
  have hb := update_rtt_ema_between s he0 he hs0 hs
  have hmin : 0 < min s.ca.rtt_ema (s.tp.srtt_us / 8) :=
    lt_min (Nat.pos_of_ne_zero he0) (Nat.pos_of_ne_zero hs0)
  have hf := rtt_feed_first_ema c jiffies secs s0 x hx
  have hx32 : x < 2 ^ 32 := hxs x (List.mem_cons_self x xs)
  have hr : (rtt_feed x (lotspeed_init c jiffies secs s0)).ca.rtt_ema ≠ 0 ∧
      (rtt_feed x (lotspeed_init c jiffies secs s0)).ca.rtt_ema < 2 ^ 29 := by
    rw [hf]; omega
  have hall := rtt_feed_all_ema_range xs _
    (fun y hy => hxs y (List.mem_cons_of_mem x hy)) hr
  exact ⟨⟨hb.1, hb.2, Nat.pos_iff_ne_zero.mp (Nat.lt_of_lt_of_le hmin hb.1)⟩,
    update_rtt_var_no_wrap s he0 he hs0 hs, hf, hall.1⟩

/-- C25 witness: smoothed RTT 20 ms, sample 30 ms: the new `rtt_ema` is between 20000
and 30000; and after samples of 20, 30 and 15 ms on a fresh connection `rtt_ema` is not
zero. -/
theorem rtt_ema_filter_witness :
    (min 20000 30000 ≤ (lotspeed_update_rtt sock_rtt30ms).ca.rtt_ema ∧
      (lotspeed_update_rtt sock_rtt30ms).ca.rtt_ema ≤ max 20000 30000 ∧
      (lotspeed_update_rtt sock_rtt30ms).ca.rtt_ema ≠ 0) ∧
    (rtt_feed_all [160000, 240000, 120000]
      (lotspeed_init default_config 0 0 sock0)).ca.rtt_ema ≠ 0 :=
  ⟨(rtt_ema_filter sock_rtt30ms default_config 0 0 sock0 160000 [240000, 120000]
      (by decide) (by decide) (by decide) (by decide) (by decide) (by decide)).1,
   (rtt_ema_filter sock_rtt30ms default_config 0 0 sock0 160000 [240000, 120000]
      (by decide) (by decide) (by decide) (by decide) (by decide) (by decide)).2.2.2⟩

/-! ## C23: the windowed maximum dominates the filtered rate -/

theorem sample_bw_lt (r : rate_sample) : lotspeed_sample_bw r < 2 ^ 64 := by
  unfold lotspeed_sample_bw u64
  have h1 : r.delivered.toNat * USEC_PER_SEC % 2 ^ 64 < 2 ^ 64 := Nat.mod_lt _ (by norm_num)
  exact Nat.lt_of_le_of_lt (Nat.div_le_self _ _) h1

theorem filter_invalid (c : Config) (r : rate_sample) (j mss : Nat) (ca : lotspeed)
    (hv : ¬ valid_sample r) : lotspeed_adapt_rate_filter c (some r) j mss ca = (ca, 0) := by
  unfold valid_sample at hv
  unfold lotspeed_adapt_rate_filter
  simp only []
  rw [if_neg hv]

theorem filter_actual_rate_valid (c : Config) (r : rate_sample) (j mss : Nat) (ca : lotspeed)
    (hv : valid_sample r) :
    (lotspeed_adapt_rate_filter c (some r) j mss ca).1.actual_rate =
      if ca.actual_rate = 0 then lotspeed_sample_bw r
      else u64 (sub64 ca.actual_rate (ca.actual_rate / 8) + lotspeed_sample_bw r / 8) := by
  unfold valid_sample at hv
  unfold lotspeed_adapt_rate_filter
  simp only [LOTSPEED_BW_EMA_SHIFT, LOTSPEED_BW_DECAY_SHIFT]
  rw [if_pos hv]
  simp only []
  split_ifs <;> rfl

theorem filter_bw_window_max_valid (c : Config) (r : rate_sample) (j mss : Nat)
    (ca : lotspeed) (hv : valid_sample r) :
    (lotspeed_adapt_rate_filter c (some r) j mss ca).1.bw_window_max =
      if ca.bw_window_max = 0 ∨ lotspeed_sample_bw r ≥ ca.bw_window_max then
        lotspeed_sample_bw r
      else if time_after32 j (u32 (ca.bw_window_stamp + u32 c.bw_window_jiffies)) = true then
        (if sub64 ca.bw_window_max (ca.bw_window_max / 8) <
            (lotspeed_adapt_rate_filter c (some r) j mss ca).1.actual_rate
          then (lotspeed_adapt_rate_filter c (some r) j mss ca).1.actual_rate
          else sub64 ca.bw_window_max (ca.bw_window_max / 8))
      else ca.bw_window_max := by
  rw [filter_actual_rate_valid c r j mss ca hv]
  unfold valid_sample at hv
  by_cases h1 : ca.bw_window_max = 0 ∨ lotspeed_sample_bw r ≥ ca.bw_window_max
  · rw [if_pos h1]
    by_cases ha : ca.actual_rate = 0 <;>
      simp [lotspeed_adapt_rate_filter, hv, h1, ha]
  · rw [if_neg h1]
    by_cases h2 : time_after32 j (u32 (ca.bw_window_stamp + u32 c.bw_window_jiffies)) = true
    · rw [if_pos h2]
      by_cases ha : ca.actual_rate = 0 <;>
        simp [lotspeed_adapt_rate_filter, hv, h1, h2, ha, LOTSPEED_BW_EMA_SHIFT,
          LOTSPEED_BW_DECAY_SHIFT]
    · rw [if_neg h2]
      by_cases ha : ca.actual_rate = 0 <;>
        simp [lotspeed_adapt_rate_filter, hv, h1, h2, ha]

theorem filter_step_arith (a m sb : Nat) (t : Bool) (h : a ≤ m) (hm : m < 2 ^ 64)
    (hsb : sb < 2 ^ 64) :
    (if a = 0 then sb else u64 (sub64 a (a / 8) + sb / 8)) ≤
        (if m = 0 ∨ sb ≥ m then sb
          else if t = true then
            (if sub64 m (m / 8) < (if a = 0 then sb else u64 (sub64 a (a / 8) + sb / 8))
              then (if a = 0 then sb else u64 (sub64 a (a / 8) + sb / 8))
              else sub64 m (m / 8))
          else m) ∧
      (if m = 0 ∨ sb ≥ m then sb
          else if t = true then
            (if sub64 m (m / 8) < (if a = 0 then sb else u64 (sub64 a (a / 8) + sb / 8))
              then (if a = 0 then sb else u64 (sub64 a (a / 8) + sb / 8))
              else sub64 m (m / 8))
          else m) < 2 ^ 64 := by
  have ea : sub64 a (a / 8) = a - a / 8 := by
    unfold sub64
    split_ifs <;> omega
  have em : sub64 m (m / 8) = m - m / 8 := by
    unfold sub64
    split_ifs <;> omega
  have eu : u64 (a - a / 8 + sb / 8) = a - a / 8 + sb / 8 := by
    unfold u64
    omega
  rw [ea, em, eu]
  split_ifs <;> omega

theorem filter_bw_inv (c : Config) (rs : Option rate_sample) (j mss : Nat) (ca : lotspeed)
    (h : bw_inv ca) : bw_inv (lotspeed_adapt_rate_filter c rs j mss ca).1 := by
  cases rs with
  | none => exact h
  | some r =>
    by_cases hv : valid_sample r
    · unfold bw_inv at *
      rw [filter_bw_window_max_valid c r j mss ca hv, filter_actual_rate_valid c r j mss ca hv]
      exact filter_step_arith ca.actual_rate ca.bw_window_max (lotspeed_sample_bw r) _
        h.1 h.2 (sample_bw_lt r)
    · rw [filter_invalid c r j mss ca hv]
      exact h

theorem adapt_rate_bw_inv (c : Config) (rs : Option rate_sample) (j : Nat) (s : Sock)
    (h : bw_inv s.ca) : bw_inv (lotspeed_adapt_rate c rs j s).ca := by
  unfold bw_inv
  unfold lotspeed_adapt_rate
  simp only [rtt_check_bw_window_max, rtt_check_actual_rate]
  by_cases had : c.lotserver_adaptive = true
  · rw [if_pos had, target_bw_window_max, target_actual_rate]
    exact filter_bw_inv c rs j _ s.ca h
  · rw [if_neg had]
    exact h

theorem update_rtt_rate_fields (s : Sock) :
    rate_fields (lotspeed_update_rtt s).ca = rate_fields s.ca := by
  unfold lotspeed_update_rtt
  simp only []
  split_ifs <;> rfl

theorem consume_turbo_ignore_rate_fields (ca : lotspeed) :
    rate_fields (lotspeed_consume_turbo_ignore ca) = rate_fields ca := by
  unfold lotspeed_consume_turbo_ignore
  split_ifs <;> rfl

theorem turbo_should_ignore_rate_fields (c : Config) (ca : lotspeed) :
    rate_fields (lotspeed_turbo_should_ignore c ca).1 = rate_fields ca := by
  unfold lotspeed_turbo_should_ignore
  simp only []
  split_ifs <;> rfl

theorem cong_control_rate_fields (c : Config) (rs : Option rate_sample) (j : Nat) (s : Sock) :
    rate_fields (lotspeed_cong_control_impl c rs j s).ca =
      rate_fields (lotspeed_adapt_rate c rs j (lotspeed_update_rtt s)).ca := by
  unfold lotspeed_cong_control_impl
  simp only []
  unfold cong_select
  simp only []
  unfold cong_adapted
  split_ifs <;> rfl

theorem set_state_rate_fields (c : Config) (st : tcp_ca_state) (s : Sock) :
    rate_fields (lotspeed_set_state c st s).ca = rate_fields s.ca := by
  cases st with
  | TCP_CA_Loss =>
    unfold lotspeed_set_state
    simp only []
    split_ifs
    · rw [consume_turbo_ignore_rate_fields, turbo_should_ignore_rate_fields]
    · exact turbo_should_ignore_rate_fields c s.ca
  | TCP_CA_Recovery =>
    unfold lotspeed_set_state
    simp only []
    split_ifs <;> rfl
  | TCP_CA_Open => rfl
  | TCP_CA_Disorder => rfl
  | TCP_CA_CWR => rfl

theorem ssthresh_rate_fields (c : Config) (s : Sock) :
    rate_fields (lotspeed_ssthresh c s).1.ca = rate_fields s.ca := by
  unfold lotspeed_ssthresh
  split_ifs
  · rfl
  · exact consume_turbo_ignore_rate_fields s.ca
  · rfl

theorem cwnd_event_rate_fields (c : Config) (ev : tcp_ca_event) (s : Sock) :
    rate_fields (lotspeed_cwnd_event c ev s).ca = rate_fields s.ca := by
  cases ev with
  | CA_EVENT_LOSS =>
    unfold lotspeed_cwnd_event
    simp only []
    split_ifs
    · exact consume_turbo_ignore_rate_fields s.ca
    · rfl
    · rfl
  | CA_EVENT_TX_START => rfl
  | CA_EVENT_CWND_RESTART => rfl
  | CA_EVENT_COMPLETE_CWR => rfl
  | CA_EVENT_ECN_NO_CE => rfl
  | CA_EVENT_ECN_IS_CE => rfl

theorem step_rate_fields (c : Config) (op : Op) (s : Sock) :
    rate_fields (step c op s).ca = rate_fields s.ca ∨
      ∃ rs j, rate_fields (step c op s).ca =
        rate_fields (lotspeed_adapt_rate c rs j (lotspeed_update_rtt s)).ca := by
  cases op with
  | on_sample rs j => exact Or.inr ⟨rs, j, cong_control_rate_fields c rs j s⟩
  | set_state st => exact Or.inl (set_state_rate_fields c st s)
  | ssthresh => exact Or.inl (ssthresh_rate_fields c s)
  | undo_cwnd => exact Or.inl rfl
  | cwnd_event ev => exact Or.inl (cwnd_event_rate_fields c ev s)
  | host tp => exact Or.inl rfl

theorem bw_inv_of_rate_fields (ca cb : lotspeed) (h : rate_fields ca = rate_fields cb)
    (hb : bw_inv cb) : bw_inv ca := by
  unfold rate_fields at h
  unfold bw_inv at *
  have h2 : ca.actual_rate = cb.actual_rate := congrArg (fun p => p.2.1) h
  have h3 : ca.bw_window_max = cb.bw_window_max := congrArg (fun p => p.2.2) h
  rw [h2, h3]
  exact hb

theorem step_bw_inv (c : Config) (op : Op) (s : Sock) (h : bw_inv s.ca) :
    bw_inv (step c op s).ca := by
  rcases step_rate_fields c op s with h1 | ⟨rs, j, h1⟩
  · exact bw_inv_of_rate_fields _ _ h1 h
  · apply bw_inv_of_rate_fields _ _ h1
    apply adapt_rate_bw_inv
    exact bw_inv_of_rate_fields _ _ (update_rtt_rate_fields s) h

theorem run_bw_inv (c : Config) (ops : List Op) :
    ∀ s : Sock, bw_inv s.ca → bw_inv (run c ops s).ca := by
  induction ops with
  | nil => intro s h; exact h
  | cons op ops ih => intro s h; exact ih _ (step_bw_inv c op s h)

/-- C23: `actual_rate <= bw_window_max` is an invariant.  It holds in the state created
by `lotspeed_init`, every rate-adaptation step preserves it for every rate sample and
every clock value (sample replaces the maximum, decay step and no-decay step alike, in
adaptive mode and outside it), and so it holds in every state reached from
`lotspeed_init` by any call sequence. -/
theorem bw_window_max_dominates (c : Config) (jiffies secs : Nat) (s0 : Sock)
    (ops : List Op) (rs : Option rate_sample) (now : Nat) (s : Sock) :
    (lotspeed_init c jiffies secs s0).ca.actual_rate ≤
        (lotspeed_init c jiffies secs s0).ca.bw_window_max ∧
      (s.ca.actual_rate ≤ s.ca.bw_window_max → s.ca.bw_window_max < 2 ^ 64 →
        (lotspeed_adapt_rate c rs now s).ca.actual_rate ≤
          (lotspeed_adapt_rate c rs now s).ca.bw_window_max) ∧
      (run c ops (lotspeed_init c jiffies secs s0)).ca.actual_rate ≤
        (run c ops (lotspeed_init c jiffies secs s0)).ca.bw_window_max := by
  have h0 : bw_inv (lotspeed_init c jiffies secs s0).ca := by
    have e : (lotspeed_init c jiffies secs s0).ca.bw_window_max = 0 := rfl
    unfold bw_inv
    rw [e]
    exact ⟨Nat.le_refl _, by norm_num⟩
  exact ⟨h0.1, fun h1 h2 => (adapt_rate_bw_inv c rs now s ⟨h1, h2⟩).1,
    (run_bw_inv c ops _ h0).1⟩

/-- C23 witness: a decay step on the connection that has seen one fast sample, and a
sequence of fast and slow samples on a fresh connection. -/
theorem bw_window_max_dominates_witness :
    (lotspeed_adapt_rate default_config (some rs_slow) 1000 sock_fast_seen).ca.actual_rate ≤
        (lotspeed_adapt_rate default_config (some rs_slow) 1000 sock_fast_seen).ca.bw_window_max ∧
      (run default_config ops_samples (lotspeed_init default_config 0 0 sock0)).ca.actual_rate ≤
        (run default_config ops_samples
          (lotspeed_init default_config 0 0 sock0)).ca.bw_window_max :=
  ⟨(bw_window_max_dominates default_config 0 0 sock0 ops_samples (some rs_slow) 1000
      sock_fast_seen).2.1 (by decide) (by decide),
   (bw_window_max_dominates default_config 0 0 sock0 ops_samples (some rs_slow) 1000
      sock_fast_seen).2.2⟩

/-! ## C24: the target rate never exceeds the configured rate -/

theorem target_target_rate (c : Config) (mss sb : Nat) (ca : lotspeed) :
    (lotspeed_adapt_rate_target c mss sb ca).target_rate =
      if target_filtered_bw sb ca ≠ 0 then
        if target_filtered_bw sb ca < ca.target_rate / 2 ∧ ca.loss_count > 0 then
          max (u64 (target_filtered_bw sb ca * 15) / 10) (c.lotserver_rate / 4)
        else if ca.loss_count = 0 ∧ target_filtered_bw sb ca > u64 (ca.target_rate * 8) / 10 then
          min (u64 (ca.target_rate + max (ca.target_rate / 8) (u64 (mss * 8))))
            (target_desired c ca)
        else ca.target_rate
      else ca.target_rate := by
  unfold lotspeed_adapt_rate_target target_filtered_bw target_desired
  simp only []
  split_ifs <;> rfl

theorem filter_target_rate (c : Config) (rs : Option rate_sample) (j mss : Nat)
    (ca : lotspeed) :
    (lotspeed_adapt_rate_filter c rs j mss ca).1.target_rate = ca.target_rate := by
  unfold lotspeed_adapt_rate_filter
  cases rs with
  | none => rfl
  | some r =>
    simp only []
    split_ifs <;> rfl

theorem rtt_check_target_rate (c : Config) (min_rtt rtt_us : Nat) (ecn : Bool)
    (ca : lotspeed) :
    (lotspeed_adapt_rate_rtt_check c min_rtt rtt_us ecn ca).target_rate = ca.target_rate := by
  unfold lotspeed_adapt_rate_rtt_check
  simp only []
  split_ifs <;> rfl

theorem adapt_rate_target_rate (c : Config) (rs : Option rate_sample) (j : Nat) (s : Sock) :
    (lotspeed_adapt_rate c rs j s).ca.target_rate =
      if c.lotserver_adaptive = true then
        (lotspeed_adapt_rate_target c (adapt_mss s)
          (lotspeed_adapt_rate_filter c rs j (adapt_mss s) s.ca).2
          (lotspeed_adapt_rate_filter c rs j (adapt_mss s) s.ca).1).target_rate
      else s.ca.target_rate := by
  unfold lotspeed_adapt_rate adapt_mss
  simp only [rtt_check_target_rate]
  split_ifs <;> rfl

theorem backoff_rate_le (f t R : Nat) (hf : f < t / 2) (ht : t ≤ R) :
    max (u64 (f * 15) / 10) (R / 4) ≤ R := by
  unfold u64
  by_cases hb : f * 15 < 2 ^ 64
  · rw [Nat.mod_eq_of_lt hb]
    omega
  · have hm : f * 15 % 2 ^ 64 < 2 ^ 64 := Nat.mod_lt _ (by norm_num)
    omega

theorem target_rate_inv (c : Config) (mss sb : Nat) (ca : lotspeed) (h : rate_inv c ca) :
    rate_inv c (lotspeed_adapt_rate_target c mss sb ca) := by
  unfold rate_inv at *
  rw [target_target_rate]
  split_ifs with h0 h1 h2
  · exact backoff_rate_le _ _ _ h1.1 h
  · have hd : target_desired c ca ≤ c.lotserver_rate := by
      unfold target_desired
      split_ifs
      · exact Nat.min_le_right _ _
      · exact Nat.le_refl _
    exact Nat.le_trans (Nat.min_le_right _ _) hd
  · exact h
  · exact h

theorem adapt_rate_rate_inv (c : Config) (rs : Option rate_sample) (j : Nat) (s : Sock)
    (h : rate_inv c s.ca) : rate_inv c (lotspeed_adapt_rate c rs j s).ca := by
  unfold rate_inv
  rw [adapt_rate_target_rate]
  split_ifs
  · apply target_rate_inv
    unfold rate_inv
    rw [filter_target_rate]
    exact h
  · exact h

theorem rate_inv_of_rate_fields (c : Config) (ca cb : lotspeed)
    (h : rate_fields ca = rate_fields cb) (hb : rate_inv c cb) : rate_inv c ca := by
  unfold rate_fields at h
  unfold rate_inv at *
  have h1 : ca.target_rate = cb.target_rate := congrArg (fun p => p.1) h
  rw [h1]
  exact hb

theorem step_rate_inv (c : Config) (op : Op) (s : Sock) (h : rate_inv c s.ca) :
    rate_inv c (step c op s).ca := by
  rcases step_rate_fields c op s with h1 | ⟨rs, j, h1⟩
  · exact rate_inv_of_rate_fields c _ _ h1 h
  · apply rate_inv_of_rate_fields c _ _ h1
    apply adapt_rate_rate_inv
    exact rate_inv_of_rate_fields c _ _ (update_rtt_rate_fields s) h

theorem run_rate_inv (c : Config) (ops : List Op) :
    ∀ s : Sock, rate_inv c s.ca → rate_inv c (run c ops s).ca := by
  induction ops with
  | nil => intro s h; exact h
  | cons op ops ih => intro s h; exact ih _ (step_rate_inv c op s h)

/-- C24: under a fixed configured rate, `target_rate <= lotserver_rate` is an
invariant.  It holds after `lotspeed_init` and every rate-adaptation step preserves it,
through the backoff and the growth branch alike, for every rate sample; so it holds in
every state reached from `lotspeed_init` by any call sequence.  This needs no bound on
the configured rate: it holds in particular when the rate is small enough that
`filtered_bw * 15` and `target_rate * 8` do not overflow 64 bits. -/
theorem target_rate_bounded (c : Config) (jiffies secs : Nat) (s0 : Sock) (ops : List Op)
    (rs : Option rate_sample) (now : Nat) (s : Sock) :
    (lotspeed_init c jiffies secs s0).ca.target_rate ≤ c.lotserver_rate ∧
      (s.ca.target_rate ≤ c.lotserver_rate →
        (lotspeed_adapt_rate c rs now s).ca.target_rate ≤ c.lotserver_rate) ∧
      (run c ops (lotspeed_init c jiffies secs s0)).ca.target_rate ≤ c.lotserver_rate := by
  have h0 : rate_inv c (lotspeed_init c jiffies secs s0).ca := Nat.le_refl _
  exact ⟨h0, adapt_rate_rate_inv c rs now s, run_rate_inv c ops _ h0⟩

/-- C24 witness: the defaults; a slow sample on the connection that has seen a fast
sample (growth branch, capped at the configured rate), and a sequence of samples with a
loss on a fresh connection. -/
theorem target_rate_bounded_witness :
    (lotspeed_adapt_rate default_config (some rs_slow) 1000 sock_fast_seen).ca.target_rate ≤
        default_config.lotserver_rate ∧
      (run default_config ops_samples (lotspeed_init default_config 0 0 sock0)).ca.target_rate ≤
        default_config.lotserver_rate :=
  ⟨(target_rate_bounded default_config 0 0 sock0 ops_samples (some rs_slow) 1000
      sock_fast_seen).2.1 (by decide),
   (target_rate_bounded default_config 0 0 sock0 ops_samples (some rs_slow) 1000
      sock_fast_seen).2.2⟩

/-! ## C21: the target-rate control against its piecewise reference -/

theorem filter_loss_count (c : Config) (rs : Option rate_sample) (j mss : Nat)
    (ca : lotspeed) :
    (lotspeed_adapt_rate_filter c rs j mss ca).1.loss_count = ca.loss_count := by
  unfold lotspeed_adapt_rate_filter
  cases rs with
  | none => rfl
  | some r =>
    simp only []
    split_ifs <;> rfl

theorem adapt_mss_lt (s : Sock) (h : s.tp.mss_cache < 2 ^ 32) : adapt_mss s < 2 ^ 32 := by
  unfold adapt_mss
  split_ifs
  · exact h
  · norm_num

theorem target_arith (R mss f t lc bwm : Nat) (ht : t * 8 < 2 ^ 64) (hm : mss < 2 ^ 32) :
    (if f < t / 2 ∧ lc > 0 then max (u64 (f * 15) / 10) (R / 4)
      else if lc = 0 ∧ f > u64 (t * 8) / 10 then
        min (u64 (t + max (t / 8) (u64 (mss * 8))))
          (if bwm ≠ 0 then min bwm R else R)
      else t) = spec_target_rate R mss f t lc bwm := by
  have h8 : u64 (t * 8) = t * 8 := Nat.mod_eq_of_lt ht
  have hm8 : u64 (mss * 8) = mss * 8 := Nat.mod_eq_of_lt (by omega)
  have hs : u64 (t + max (t / 8) (mss * 8)) = t + max (t / 8) (mss * 8) := by
    apply Nat.mod_eq_of_lt
    have h1 : max (t / 8) (mss * 8) < 2 ^ 63 := max_lt (by omega) (by omega)
    omega
  unfold spec_target_rate
  rw [h8, hm8, hs]
  by_cases h1 : f < t / 2 ∧ lc > 0
  · have h15 : u64 (f * 15) = f * 15 := Nat.mod_eq_of_lt (by omega)
    rw [if_pos h1, if_pos h1, h15]
  · rw [if_neg h1, if_neg h1]

/-- C21 as stated fails when `target_rate * 8` does not fit in 64 bits: with
`lotserver_rate = 2^61` the connection opens with `target_rate = 2^61`; on the first
sample (`filtered_bw = 100000`, no loss) the product `target_rate * 8` wraps to `0`, so
the growth branch runs and the target rate drops to `desired = bw_window_max = 100000`,
while the reference, where `filtered_bw > target_rate * 8 / 10` is false, leaves the
target rate at `2^61`. -/
theorem target_rate_wrap_counterexample :
    cfg_rate_2p61.wf ∧ cfg_rate_2p61.lotserver_adaptive = true ∧
      (lotspeed_init cfg_rate_2p61 0 0 sock0).ca.target_rate = 2305843009213693952 ∧
      (lotspeed_init cfg_rate_2p61 0 0 sock0).ca.loss_count = 0 ∧
      target_filtered_bw
        (adapt_filtered cfg_rate_2p61 (some rs_slow) 1000
          (lotspeed_init cfg_rate_2p61 0 0 sock0)).2
        (adapt_filtered cfg_rate_2p61 (some rs_slow) 1000
          (lotspeed_init cfg_rate_2p61 0 0 sock0)).1 = 100000 ∧
      (adapt_filtered cfg_rate_2p61 (some rs_slow) 1000
          (lotspeed_init cfg_rate_2p61 0 0 sock0)).1.bw_window_max = 100000 ∧
      (lotspeed_adapt_rate cfg_rate_2p61 (some rs_slow) 1000
        (lotspeed_init cfg_rate_2p61 0 0 sock0)).ca.target_rate = 100000 ∧
      spec_target_rate 2305843009213693952 1460 100000 2305843009213693952 0 100000 =
        2305843009213693952 := by
  decide

/-- C21 (amended): in adaptive mode, for every state whose `target_rate * 8` fits in 64
bits (with a 32-bit `mss_cache`) and every sample with non-zero `filtered_bw`, the target
rate after `lotspeed_adapt_rate` equals the piecewise reference over unbounded integers:
backoff to `max(filtered_bw*15/10, configured_rate/4)` when `filtered_bw < target_rate/2`
and `loss_count > 0`; else growth to `min(target_rate + max(target_rate/8, mss*8),
desired)` when `loss_count = 0` and `filtered_bw > target_rate*8/10`; else unchanged.
Here `filtered_bw` and `bw_window_max` are the values after the bandwidth filter of the
same call, `target_rate` and `loss_count` those on entry. -/
theorem target_rate_control (c : Config) (rs : Option rate_sample) (j : Nat) (s : Sock)
    (ha : c.lotserver_adaptive = true)
    (hf : target_filtered_bw (adapt_filtered c rs j s).2 (adapt_filtered c rs j s).1 ≠ 0)
    (ht : s.ca.target_rate * 8 < 2 ^ 64) (hm : s.tp.mss_cache < 2 ^ 32) :
    (lotspeed_adapt_rate c rs j s).ca.target_rate =
      spec_target_rate c.lotserver_rate (adapt_mss s)
        (target_filtered_bw (adapt_filtered c rs j s).2 (adapt_filtered c rs j s).1)
        s.ca.target_rate s.ca.loss_count (adapt_filtered c rs j s).1.bw_window_max := by
  unfold adapt_filtered at *
  rw [adapt_rate_target_rate, if_pos ha, target_target_rate, if_pos hf, filter_target_rate,
    filter_loss_count]
  unfold target_desired
  exact target_arith _ _ _ _ _ _ ht (adapt_mss_lt s hm)

/-- C21 witness: under the defaults, the first sample (slow) on a connection that has
taken a loss: `filtered_bw = 100000 < target_rate / 2` with `loss_count = 1`, so the
backoff branch sets the target rate to `max(150000, 31250000)`. -/
theorem target_rate_control_witness :
    (lotspeed_adapt_rate default_config (some rs_slow) 1000
        (loss_event default_config sock_steady)).ca.target_rate =
      spec_target_rate default_config.lotserver_rate
        (adapt_mss (loss_event default_config sock_steady))
        (target_filtered_bw
          (adapt_filtered default_config (some rs_slow) 1000
            (loss_event default_config sock_steady)).2
          (adapt_filtered default_config (some rs_slow) 1000
            (loss_event default_config sock_steady)).1)
        (loss_event default_config sock_steady).ca.target_rate
        (loss_event default_config sock_steady).ca.loss_count
        (adapt_filtered default_config (some rs_slow) 1000
          (loss_event default_config sock_steady)).1.bw_window_max ∧
      (lotspeed_adapt_rate default_config (some rs_slow) 1000
        (loss_event default_config sock_steady)).ca.target_rate = 31250000 :=
  ⟨target_rate_control default_config (some rs_slow) 1000
    (loss_event default_config sock_steady) (by decide) (by decide) (by decide)
    (by decide), by decide⟩

/-! ## C22: the RTT-threshold check -/

theorem filter_rtt_var (c : Config) (rs : Option rate_sample) (j mss : Nat) (ca : lotspeed) :
    (lotspeed_adapt_rate_filter c rs j mss ca).1.rtt_var = ca.rtt_var := by
  unfold lotspeed_adapt_rate_filter
  cases rs with
  | none => rfl
  | some r =>
    simp only []
    split_ifs <;> rfl

theorem target_rtt_var (c : Config) (mss bw : Nat) (ca : lotspeed) :
    (lotspeed_adapt_rate_target c mss bw ca).rtt_var = ca.rtt_var := by
  unfold lotspeed_adapt_rate_target
  simp only []
  split_ifs <;> rfl

theorem before_rtt_check_rtt_var (c : Config) (rs : Option rate_sample) (j : Nat) (s : Sock) :
    (adapt_before_rtt_check c rs j s).rtt_var = s.ca.rtt_var := by
  unfold adapt_before_rtt_check adapt_filtered
  split_ifs
  · rw [target_rtt_var, filter_rtt_var]
  · rfl

theorem adapt_rate_eq_rtt_check (c : Config) (rs : Option rate_sample) (j : Nat) (s : Sock) :
    (lotspeed_adapt_rate c rs j s).ca =
      lotspeed_adapt_rate_rtt_check c (adapt_min_rtt s) (s.tp.srtt_us / 8) (adapt_ecn rs)
        (adapt_before_rtt_check c rs j s) := rfl

theorem threshold_arith (m v k : Nat) (hk : k = 3 ∨ k = 4) (h31 : m < 2 ^ 31)
    (hv : v < 2 ^ 30) :
    (m + max (m / 3) ((if v ≠ 0 then v else m / 8) * k % 2 ^ 32 / 2)) % 2 ^ 32 =
      m + max (m / 3) (v * k / 2) := by
  by_cases h : v ≠ 0
  · rw [if_pos h]
    have hi : v * k % 2 ^ 32 = v * k :=
      Nat.mod_eq_of_lt (by rcases hk with rfl | rfl <;> omega)
    rw [hi]
    apply Nat.mod_eq_of_lt
    have hmax : max (m / 3) (v * k / 2) < 2 ^ 31 :=
      max_lt (by omega) (by rcases hk with rfl | rfl <;> omega)
    omega
  · rw [if_neg h]
    have h0 : v = 0 := by omega
    subst h0
    have hi : m / 8 * k % 2 ^ 32 = m / 8 * k :=
      Nat.mod_eq_of_lt (by rcases hk with rfl | rfl <;> omega)
    have e1 : max (m / 3) (m / 8 * k / 2) = m / 3 :=
      max_eq_left (by rcases hk with rfl | rfl <;> omega)
    have e2 : max (m / 3) (0 * k / 2) = m / 3 := max_eq_left (by simp)
    rw [hi, e1, e2]
    exact Nat.mod_eq_of_lt (by omega)

theorem rtt_threshold_eq (min_rtt rtt_var : Nat) (ecn : Bool) (h31 : min_rtt < 2 ^ 31)
    (hv : rtt_var < 2 ^ 30) :
    u32 (min_rtt + max (min_rtt / 3)
        (u32 ((if rtt_var ≠ 0 then rtt_var else min_rtt / 8) * (if ecn = true then 3 else 4)) / 2)) =
      spec_rtt_threshold min_rtt rtt_var ecn := by
  unfold spec_rtt_threshold u32
  cases ecn
  · simp only [Bool.false_eq_true, if_false]
    exact threshold_arith min_rtt rtt_var 4 (Or.inr rfl) h31 hv
  · simp only [if_true]
    exact threshold_arith min_rtt rtt_var 3 (Or.inl rfl) h31 hv

theorem rtt_check_spec (c : Config) (min_rtt rtt_us : Nat) (ecn : Bool) (ca : lotspeed)
    (h1 : min_rtt ≠ 0) (h2 : rtt_us ≠ 0) (h31 : min_rtt < 2 ^ 31) (hv : ca.rtt_var < 2 ^ 30)
    (hg : c.lotserver_gain < 2 ^ 32) (hlo : 2 ≤ ca.cwnd_gain) (hhi : ca.cwnd_gain < 2 ^ 32) :
    (lotspeed_adapt_rate_rtt_check c min_rtt rtt_us ecn ca).cwnd_gain =
      spec_rtt_check_gain c.lotserver_gain c.lotserver_turbo min_rtt rtt_us ca.rtt_var ecn
        ca.cwnd_gain := by
  have ht := rtt_threshold_eq min_rtt ca.rtt_var ecn h31 hv
  unfold lotspeed_adapt_rate_rtt_check spec_rtt_check_gain
  simp only []
  rw [if_pos ⟨h1, h2⟩, ht]
  have hsub : sub32 ca.cwnd_gain 2 = ca.cwnd_gain - 2 := by
    unfold sub32
    split_ifs <;> omega
  by_cases hc : c.lotserver_turbo = false ∧
      rtt_us > spec_rtt_threshold min_rtt ca.rtt_var ecn
  · have hc2 : (!c.lotserver_turbo) = true ∧
        rtt_us > spec_rtt_threshold min_rtt ca.rtt_var ecn := by
      refine ⟨?_, hc.2⟩
      rw [hc.1]
      rfl
    rw [if_pos hc, if_pos hc2]
    show max (sub32 ca.cwnd_gain 2) LOTSPEED_MIN_GAIN = _
    rw [hsub]
  · have hc2 : ¬ ((!c.lotserver_turbo) = true ∧
        rtt_us > spec_rtt_threshold min_rtt ca.rtt_var ecn) := by
      intro h
      apply hc
      refine ⟨?_, h.2⟩
      cases hT : c.lotserver_turbo
      · rfl
      · rw [hT] at h
        exact absurd h.1 (by decide)
    rw [if_neg hc, if_neg hc2]
    by_cases hlt : ca.cwnd_gain < c.lotserver_gain
    · rw [if_pos hlt, if_pos hlt]
      show u32 (ca.cwnd_gain + 1) = _
      unfold u32
      exact Nat.mod_eq_of_lt (by omega)
    · rw [if_neg hlt, if_neg hlt]

/-- C22 as stated fails in two ways.  (1) `cwnd_gain - 2` is a 32-bit subtraction: with
`lotserver_gain = 1` (turbo off) the connection opens with `cwnd_gain = 1`; after a first
sample at RTT 10 ms, a sample at smoothed RTT 100 ms exceeds the threshold `56874` and
the check writes `max(1 - 2 mod 2^32, 10) = 4294967295`, not `max(1 - 2, 10) = 10`.
(2) The threshold is computed in 32 bits: in a state with `rtt_min = 20000`,
`rtt_var = 2^30` and smoothed RTT `30000`, `rtt_var * 4` wraps to `0`, the threshold
used is `26666` and the gain drops from 15 to 13, while the stated threshold
`20000 + 2^31` is not exceeded and leaves the gain at 15. -/
theorem rtt_check_counterexample :
    (cfg_gain1.wf ∧ cfg_gain1.lotserver_turbo = false ∧
      (lotspeed_update_rtt sock_rtt_inflated).ca.rtt_min = 10000 ∧
      (lotspeed_update_rtt sock_rtt_inflated).ca.rtt_var = 23437 ∧
      (lotspeed_update_rtt sock_rtt_inflated).tp.srtt_us / 8 = 100000 ∧
      (adapt_before_rtt_check cfg_gain1 (some rs_slow) 2
        (lotspeed_update_rtt sock_rtt_inflated)).cwnd_gain = 1 ∧
      spec_rtt_threshold 10000 23437 false = 56874 ∧
      (lotspeed_adapt_rate cfg_gain1 (some rs_slow) 2
        (lotspeed_update_rtt sock_rtt_inflated)).ca.cwnd_gain = 4294967295 ∧
      (run cfg_gain1 [Op.on_sample (some rs_slow) 2] sock_rtt_inflated).ca.cwnd_gain = 4294967295 ∧
      spec_rtt_check_gain 1 false 10000 100000 23437 false 1 = 10 ∧
      max ((1 : Int) - 2) 10 = 10) ∧
    (sock_var_2p30.ca.rtt_min = 20000 ∧ sock_var_2p30.ca.rtt_var = 1073741824 ∧
      sock_var_2p30.tp.srtt_us / 8 = 30000 ∧
      (adapt_before_rtt_check default_config (some rs_slow) 2 sock_var_2p30).cwnd_gain = 15 ∧
      spec_rtt_threshold 20000 1073741824 false = 2147503648 ∧
      (lotspeed_adapt_rate default_config (some rs_slow) 2 sock_var_2p30).ca.cwnd_gain = 13 ∧
      spec_rtt_check_gain 15 false 20000 30000 1073741824 false 15 = 15) := by
  decide

/-- C22 (amended): the RTT-threshold check runs on every call of `lotspeed_adapt_rate`,
in adaptive and in fixed mode alike (in fixed mode on the unchanged entry state).
Whenever `rtt_min` and the current smoothed RTT are non-zero, `rtt_min < 2^31` and
`rtt_var < 2^30` (so that the 32-bit threshold does not wrap), and the gain reaching the
check is a 32-bit value of at least 2 (with a 32-bit configured gain): `threshold =
rtt_min + max(rtt_min/3, rtt_var*(3 if ecn else 4)/2)`; if turbo is off and the smoothed
RTT exceeds the threshold then `cwnd_gain = max(cwnd_gain - 2, MIN_GAIN)`; otherwise if
`cwnd_gain` is below the configured gain then `cwnd_gain + 1`; otherwise unchanged. -/
theorem rtt_threshold_check (c : Config) (rs : Option rate_sample) (j : Nat) (s : Sock)
    (hg : c.lotserver_gain < 2 ^ 32)
    (hmin : s.ca.rtt_min ≠ 0) (hrtt : s.tp.srtt_us / 8 ≠ 0)
    (hmin31 : s.ca.rtt_min < 2 ^ 31) (hvar : s.ca.rtt_var < 2 ^ 30)
    (hlo : 2 ≤ (adapt_before_rtt_check c rs j s).cwnd_gain)
    (hhi : (adapt_before_rtt_check c rs j s).cwnd_gain < 2 ^ 32) :
    (lotspeed_adapt_rate c rs j s).ca.cwnd_gain =
        spec_rtt_check_gain c.lotserver_gain c.lotserver_turbo s.ca.rtt_min
          (s.tp.srtt_us / 8) s.ca.rtt_var (adapt_ecn rs)
          (adapt_before_rtt_check c rs j s).cwnd_gain ∧
      (c.lotserver_adaptive = false → adapt_before_rtt_check c rs j s = s.ca) := by
  have hm : adapt_min_rtt s = s.ca.rtt_min := by
    unfold adapt_min_rtt
    rw [if_pos hmin]
  constructor
  · rw [adapt_rate_eq_rtt_check, hm,
      rtt_check_spec c s.ca.rtt_min (s.tp.srtt_us / 8) (adapt_ecn rs)
        (adapt_before_rtt_check c rs j s) hmin hrtt hmin31
        (by rw [before_rtt_check_rtt_var]; exact hvar) hg hlo hhi,
      before_rtt_check_rtt_var]
  · intro ha
    unfold adapt_before_rtt_check
    rw [ha]
    rfl

/-- C22 witness: in fixed mode under the defaults, the connection with RTT floor 20 ms
and smoothed RTT 30 ms: the threshold is `26666`, the RTT exceeds it and the gain drops
from 15 to 13. -/
theorem rtt_threshold_check_witness :
    (lotspeed_adapt_rate cfg_fixed (some rs_slow) 2 sock_rtt30ms).ca.cwnd_gain =
        spec_rtt_check_gain cfg_fixed.lotserver_gain cfg_fixed.lotserver_turbo
          sock_rtt30ms.ca.rtt_min (sock_rtt30ms.tp.srtt_us / 8) sock_rtt30ms.ca.rtt_var
          (adapt_ecn (some rs_slow)) (adapt_before_rtt_check cfg_fixed (some rs_slow) 2 sock_rtt30ms).cwnd_gain ∧
      adapt_before_rtt_check cfg_fixed (some rs_slow) 2 sock_rtt30ms = sock_rtt30ms.ca ∧
      (lotspeed_adapt_rate cfg_fixed (some rs_slow) 2 sock_rtt30ms).ca.cwnd_gain = 13 :=
  ⟨(rtt_threshold_check cfg_fixed (some rs_slow) 2 sock_rtt30ms (by decide) (by decide) (by decide)
      (by decide) (by decide) (by decide) (by decide)).1,
   (rtt_threshold_check cfg_fixed (some rs_slow) 2 sock_rtt30ms (by decide) (by decide) (by decide)
      (by decide) (by decide) (by decide) (by decide)).2 rfl,
   by decide⟩

end LotSpeed
